import Mathlib

/-! # Maya custom unhandled-exception filter: verification development

Shallow embedding of the crash-dump plugin (`maya_custom_unhandled_exception_filter_main.cpp`),
the shared record layout (`common.h`), the standalone dump reader
(`maya_read_custom_dump_user_streams_main.c`) and the WinDbg extension
(`windbg_custom_ext_main.c`).

Conventions.  A byte is a natural number (values below 256).  A memory region is a function
from byte offsets (relative to the address of a global object) to bytes, so that a store past the
end of an object is visible as a store at an offset at or above the object's size.  C strings given
to the callbacks are byte lists; the terminating NUL of the C string is implied after the list.
-/

namespace MayaCrash

/-! ## `common.h` -/

/-- Bytes of an ASCII string literal. -/
def ascii (s : String) : List Nat := s.toList.map Char.toNat

def MAYA_DAG_PATH_MAX_NAME_LEN : Nat := 512
def MAYA_DG_NODE_MAX_NAME_LEN : Nat := 512

/-- Value of `LastReservedStream` in `MINIDUMP_STREAM_TYPE` (minidumpapiset.h). -/
def LastReservedStream : Nat := 0xffff
/-- Value of `CommentStreamA` in `MINIDUMP_STREAM_TYPE` (minidumpapiset.h). -/
def CommentStreamA : Nat := 10
def MAYA_CRASH_INFO_STREAM_TYPE : Nat := LastReservedStream + 1

def MINIDUMP_FILE_NAME : List Nat := ascii "MayaCustomCrashDump.dmp"
def DEFAULT_TEMP_DIRECTORY : List Nat := ascii "C:/temp"
/-- Value of `MAX_PATH` (minwindef.h). -/
def MAX_PATH : Nat := 260

/-! ### Layout of `MayaCrashDumpInfo` under `#pragma pack(1)`

Every field starts where the previous one ends (`char` arrays of the two name lengths, `int` of
4 bytes, `short` of 2 bytes, `bool` of 1 byte). -/

def offLastDagParentName : Nat := 0
def offLastDagChildName : Nat := offLastDagParentName + MAYA_DAG_PATH_MAX_NAME_LEN
def offLastDGNodeAddedName : Nat := offLastDagChildName + MAYA_DAG_PATH_MAX_NAME_LEN
def offVerAPI : Nat := offLastDGNodeAddedName + MAYA_DG_NODE_MAX_NAME_LEN
def offVerCustom : Nat := offVerAPI + 4
def offVerMayaFile : Nat := offVerCustom + 4
def offLastDagMessage : Nat := offVerMayaFile + 4
def offIsYUp : Nat := offLastDagMessage + 2
def sizeofMayaCrashDumpInfo : Nat := offIsYUp + 1

/-! ## Memory primitives -/

/-- A memory region addressed by byte offset from the start of an object. -/
abbrev Mem := Nat → Nat

/-- `memcpy(base + dst, src, n)`: the `n` bytes at `dst .. dst+n-1` become the first `n` bytes of
`src` (the byte after the end of a C string is its NUL). -/
def memcpy (m : Mem) (dst : Nat) (src : List Nat) (n : Nat) : Mem :=
  fun a => if dst ≤ a ∧ a < dst + n then src.getD (a - dst) 0 else m a

/-- `memset(base + dst, c, n)`. -/
def memset (m : Mem) (dst : Nat) (c : Nat) (n : Nat) : Mem :=
  fun a => if dst ≤ a ∧ a < dst + n then c else m a

/-- `strlen`: number of bytes before the first NUL. -/
def strlen : List Nat → Nat
  | [] => 0
  | c :: t => if c = 0 then 0 else strlen t + 1

/-- Little-endian bytes of a value stored in an `n`-byte integer object. -/
def storeLE (m : Mem) (off : Nat) (n : Nat) (v : Nat) : Mem :=
  fun a => if off ≤ a ∧ a < off + n then (v / 256 ^ (a - off)) % 256 else m a

/-- Two's-complement bit pattern of a signed value in a `w`-bit integer object. -/
def toBits (w : Nat) (x : Int) : Nat := (x % (2 ^ w : Int)).toNat

/-- `snprintf(base, n, ...)` where `text` is the expansion of the format: at most `n - 1`
characters are stored, followed by a NUL; nothing is stored when `n = 0`. -/
def snprintf (m : Mem) (n : Nat) (text : List Nat) : Mem :=
  if n = 0 then m
  else memset (memcpy m 0 text (min (strlen text) (n - 1))) (min (strlen text) (n - 1)) 0 1

/-! ## Diagnostics context (`maya_custom_unhandled_exception_filter_main.cpp`, lines 62-197) -/

def MAYA_MINIDUMP_TIMING_INFO_BLK_SIZE : Nat := 32
def MAYA_MINIDUMP_MEL_CMD_INFO_BLK_SIZE : Nat := 1024

/-- The global buffers written by the host callbacks.  Each region starts at the address of the
global; offsets at or above the object's size are the memory that follows it. -/
structure Diag where
  /-- `char gMayaCurrentScenePath[MAX_PATH]`. -/
  gMayaCurrentScenePath : Mem
  /-- `char gMayaTimingInfoBlk[32]`. -/
  gMayaTimingInfoBlk : Mem
  /-- `char gMayaMELCmdInfoBlk[1024]`. -/
  gMayaMELCmdInfoBlk : Mem
  /-- `MayaCrashDumpInfo gMayaCrashDumpInfo`. -/
  gMayaCrashDumpInfo : Mem

/-- Values the callbacks query from the host (`MFileIO`, `MGlobal`). -/
structure Host where
  currentFile : List Nat
  apiVersion : Int
  customVersion : Int
  latestMayaFileVersion : Int
  isYAxisUp : Bool

/-- `mayaSceneAfterOpenCB`. -/
def mayaSceneAfterOpenCB (h : Host) (g : Diag) : Diag :=
  let lenCurFileName := h.currentFile.length
  let path0 := memcpy g.gMayaCurrentScenePath 0 h.currentFile lenCurFileName
  let path := memset path0 lenCurFileName 0 1
  let info0 := memset g.gMayaCrashDumpInfo 0 0 sizeofMayaCrashDumpInfo
  let info1 := storeLE info0 offVerAPI 4 (toBits 32 h.apiVersion)
  let info2 := storeLE info1 offVerCustom 4 (toBits 32 h.customVersion)
  let info3 := storeLE info2 offVerMayaFile 4 (toBits 32 h.latestMayaFileVersion)
  let info4 := storeLE info3 offIsYUp 1 (if h.isYAxisUp then 1 else 0)
  { g with gMayaCurrentScenePath := path, gMayaCrashDumpInfo := info4 }

/-- `mayaSceneTimeChangeCB`; `text` is the expansion of `"Frame: %.1f Unit: %d"` for the current
frame and unit, as produced by the C library. -/
def mayaSceneTimeChangeCB (text : List Nat) (g : Diag) : Diag :=
  { g with gMayaTimingInfoBlk :=
      snprintf g.gMayaTimingInfoBlk MAYA_MINIDUMP_TIMING_INFO_BLK_SIZE text }

/-- `mayaMELCmdCB`. -/
def mayaMELCmdCB (str : List Nat) (g : Diag) : Diag :=
  let lenCmdC := strlen str
  let lenToStore :=
    if lenCmdC > MAYA_MINIDUMP_MEL_CMD_INFO_BLK_SIZE then MAYA_MINIDUMP_MEL_CMD_INFO_BLK_SIZE
    else lenCmdC
  let blk1 := memcpy g.gMayaMELCmdInfoBlk 0 str lenToStore
  let blk2 := memset blk1 lenToStore 0 1
  { g with gMayaMELCmdInfoBlk := blk2 }

/-- `mayaAllDAGChangesCB`; `msgType` is the `MDagMessage::DagMessage` value, `child` and `parent`
the partial path names. -/
def mayaAllDAGChangesCB (msgType : Int) (child parent : List Nat) (g : Diag) : Diag :=
  let info0 := storeLE g.gMayaCrashDumpInfo offLastDagMessage 2 (toBits 16 msgType)
  let lenChildName0 := strlen child
  let lenChildName :=
    if lenChildName0 > MAYA_DAG_PATH_MAX_NAME_LEN then MAYA_DAG_PATH_MAX_NAME_LEN
    else lenChildName0
  let lenParentName0 := strlen parent
  let lenParentName :=
    if lenParentName0 > MAYA_DAG_PATH_MAX_NAME_LEN then MAYA_DAG_PATH_MAX_NAME_LEN
    else lenParentName0
  let info1 := memcpy info0 offLastDagChildName child lenChildName
  let info2 := memset info1 (offLastDagChildName + lenChildName) 0 1
  let info3 := memcpy info2 offLastDagParentName parent lenParentName
  let info4 := memset info3 (offLastDagParentName + lenParentName) 0 1
  { g with gMayaCrashDumpInfo := info4 }

/-- What `mayaNodeAddedCB` learns about the added node through `MObject`/`MFnDependencyNode`. -/
structure NodeQuery where
  hasFnDependencyNode : Bool
  fnNodeStatusOk : Bool
  hasUniqueName : Bool
  absoluteName : List Nat
  absoluteNameStatusOk : Bool
  name : List Nat

/-- `mayaNodeAddedCB`. -/
def mayaNodeAddedCB (node : NodeQuery) (g : Diag) : Diag :=
  if !node.hasFnDependencyNode then g
  else if !node.fnNodeStatusOk then g
  else if !node.hasUniqueName && !node.absoluteNameStatusOk then g
  else
    let nodeName := if !node.hasUniqueName then node.absoluteName else node.name
    let lenNodeName := strlen nodeName
    if lenNodeName = 0 then g
    else
      let info1 := memcpy g.gMayaCrashDumpInfo offLastDGNodeAddedName nodeName lenNodeName
      let info2 := memset info1 (offLastDGNodeAddedName + lenNodeName) 0 1
      { g with gMayaCrashDumpInfo := info2 }

/-! ## Minidump file format (`minidumpapiset.h`) -/

/-- Little-endian bytes of an unsigned field of `n` bytes. -/
def encLE : Nat → Nat → List Nat
  | 0, _ => []
  | n + 1, v => (v % 256) :: encLE n (v / 256)

/-- Value of a little-endian byte sequence. -/
def decLE : List Nat → Nat
  | [] => 0
  | b :: t => b + 256 * decLE t

/-- The `n`-byte little-endian field at offset `off` of a buffer (bytes missing from the buffer
read as 0; callers read only inside the buffer). -/
def fieldLE (bs : List Nat) (off n : Nat) : Nat := decLE ((bs.drop off).take n)

/-- The same field of a mapped file view; `none` when it does not lie inside the file. -/
def viewLE? (view : List Nat) (off n : Nat) : Option Nat :=
  if off + n ≤ view.length then some (fieldLE view off n) else none

/-- `MINIDUMP_SIGNATURE` (`'PMDM'`). -/
def MINIDUMP_SIGNATURE : Nat := 0x504d444d

/-- `MINIDUMP_HEADER`: `ULONG32 Signature, Version, NumberOfStreams; RVA StreamDirectoryRva;
ULONG32 CheckSum, TimeDateStamp; ULONG64 Flags`. -/
structure MINIDUMP_HEADER where
  Signature : Nat
  Version : Nat
  NumberOfStreams : Nat
  StreamDirectoryRva : Nat
  CheckSum : Nat
  TimeDateStamp : Nat
  Flags : Nat

def sizeofMINIDUMP_HEADER : Nat := 32

/-- `MINIDUMP_DIRECTORY`: `ULONG32 StreamType` and `MINIDUMP_LOCATION_DESCRIPTOR Location`
(`ULONG32 DataSize; RVA Rva`). -/
structure MINIDUMP_DIRECTORY where
  StreamType : Nat
  DataSize : Nat
  Rva : Nat
deriving DecidableEq

def sizeofMINIDUMP_DIRECTORY : Nat := 12

def encodeHeader (h : MINIDUMP_HEADER) : List Nat :=
  encLE 4 h.Signature ++ encLE 4 h.Version ++ encLE 4 h.NumberOfStreams
    ++ encLE 4 h.StreamDirectoryRva ++ encLE 4 h.CheckSum ++ encLE 4 h.TimeDateStamp
    ++ encLE 8 h.Flags

def encodeDirectoryEntry (d : MINIDUMP_DIRECTORY) : List Nat :=
  encLE 4 d.StreamType ++ encLE 4 d.DataSize ++ encLE 4 d.Rva

def encodeDirectory : List MINIDUMP_DIRECTORY → List Nat
  | [] => []
  | d :: ds => encodeDirectoryEntry d ++ encodeDirectory ds

/-- An artifact: header, then the stream directory, then the payload region.  The header's
stream count is the length of the directory and its directory offset is the end of the header;
`Rva` fields are offsets from the start of the file. -/
structure Artifact where
  Version : Nat
  CheckSum : Nat
  TimeDateStamp : Nat
  Flags : Nat
  directory : List MINIDUMP_DIRECTORY
  payload : List Nat

/-- The directory fields fit their 32-bit slots. -/
def Artifact.WellFormed (a : Artifact) : Prop :=
  a.directory.length < 2 ^ 32 ∧
    ∀ d ∈ a.directory, d.StreamType < 2 ^ 32 ∧ d.DataSize < 2 ^ 32 ∧ d.Rva < 2 ^ 32

/-- Header of an artifact. -/
def Artifact.header (a : Artifact) : MINIDUMP_HEADER :=
  { Signature := MINIDUMP_SIGNATURE, Version := a.Version,
    NumberOfStreams := a.directory.length, StreamDirectoryRva := sizeofMINIDUMP_HEADER,
    CheckSum := a.CheckSum, TimeDateStamp := a.TimeDateStamp, Flags := a.Flags }

/-- File contents of an artifact. -/
def Artifact.bytes (a : Artifact) : List Nat :=
  encodeHeader a.header ++ encodeDirectory a.directory ++ a.payload

/-! ### The writer (`MiniDumpWriteDump`, dbghelp) -/

/-- `MINIDUMP_USER_STREAM` as passed to the writer: `Type`, `BufferSize` and the memory that
`Buffer` points to. -/
structure MINIDUMP_USER_STREAM where
  /-- The `Type` member. -/
  Type_ : Nat
  BufferSize : Nat
  Buffer : Mem

/-- The first `n` bytes of a memory region. -/
def bytesOf (m : Mem) (n : Nat) : List Nat := (List.range n).map m

/-- What the operating system contributes to a dump besides the user streams: the header's
version/checksum/time/flags and the streams it generates itself (type and contents). -/
structure SystemPart where
  Version : Nat
  CheckSum : Nat
  TimeDateStamp : Nat
  Flags : Nat
  streams : List (Nat × List Nat)

/-- Directory entries for streams stored one after another from file offset `base`. -/
def placeStreams : Nat → List (Nat × List Nat) → List MINIDUMP_DIRECTORY
  | _, [] => []
  | base, (t, p) :: rest =>
    { StreamType := t, DataSize := p.length, Rva := base } :: placeStreams (base + p.length) rest

def concatPayloads : List (Nat × List Nat) → List Nat
  | [] => []
  | (_, p) :: rest => p ++ concatPayloads rest

/-- Platform routine `MiniDumpWriteDump`, modelled after its documented contract: the dump holds
the system-generated streams followed by one stream per `MINIDUMP_USER_STREAM`, in array order,
with the given type, `BufferSize` as size and the `BufferSize` bytes at `Buffer` as contents.
Stream contents are stored one after another behind the directory. -/
def MiniDumpWriteDump (sys : SystemPart) (user : List MINIDUMP_USER_STREAM) : Artifact :=
  let all := sys.streams ++ user.map (fun u => (u.Type_, bytesOf u.Buffer u.BufferSize))
  { Version := sys.Version, CheckSum := sys.CheckSum, TimeDateStamp := sys.TimeDateStamp,
    Flags := sys.Flags,
    directory :=
      placeStreams (sizeofMINIDUMP_HEADER + sizeofMINIDUMP_DIRECTORY * all.length) all,
    payload := concatPayloads all }

/-- The `streams[]` array built by `mayaCustomUnhandledExceptionFilter` (lines 249-277). -/
def dumpUserStreams (g : Diag) : List MINIDUMP_USER_STREAM :=
  [ { Type_ := CommentStreamA, BufferSize := MAX_PATH, Buffer := g.gMayaCurrentScenePath },
    { Type_ := CommentStreamA, BufferSize := MAYA_MINIDUMP_TIMING_INFO_BLK_SIZE,
      Buffer := g.gMayaTimingInfoBlk },
    { Type_ := CommentStreamA, BufferSize := MAYA_MINIDUMP_MEL_CMD_INFO_BLK_SIZE,
      Buffer := g.gMayaMELCmdInfoBlk },
    { Type_ := MAYA_CRASH_INFO_STREAM_TYPE, BufferSize := sizeofMayaCrashDumpInfo,
      Buffer := g.gMayaCrashDumpInfo } ]

/-! ### Reading a record -/

/-- Signed value of a `w`-bit two's-complement bit pattern. -/
def fromBits (w : Nat) (v : Nat) : Int :=
  if v < 2 ^ (w - 1) then (v : Int) else (v : Int) - 2 ^ w

/-- The C string at the start of a byte sequence (`%s`). -/
def cstr (bs : List Nat) : List Nat := bs.take (strlen bs)

/-- The values both readers print for a record. -/
structure CrashReport where
  verAPI : Int
  verCustom : Int
  verMayaFile : Int
  isYUp : Nat
  lastDagParentName : List Nat
  lastDagChildName : List Nat
  lastDagMessage : Int
  lastDGNodeAddedName : List Nat
deriving DecidableEq

/-- Field reads through a `MayaCrashDumpInfo *` pointing at the bytes `r` (`sizeof` bytes).
A `%s` field is read up to the first NUL at or after the field's offset in the record.  These
are the values the C readers print when each name ends inside the record, that is when the
record holds a NUL at or behind the start of its last name field; for a record without such a
NUL the C readers read on into the memory behind the record, which `r` does not hold. -/
def readRecord (r : List Nat) : CrashReport :=
  { verAPI := fromBits 32 (fieldLE r offVerAPI 4),
    verCustom := fromBits 32 (fieldLE r offVerCustom 4),
    verMayaFile := fromBits 32 (fieldLE r offVerMayaFile 4),
    isYUp := fieldLE r offIsYUp 1,
    lastDagParentName := cstr (r.drop offLastDagParentName),
    lastDagChildName := cstr (r.drop offLastDagChildName),
    lastDagMessage := fromBits 16 (fieldLE r offLastDagMessage 2),
    lastDGNodeAddedName := cstr (r.drop offLastDGNodeAddedName) }

/-! ### Standalone reader (`maya_read_custom_dump_user_streams_main.c`) -/

/-- Result of `MiniDumpReadDumpStream`. -/
inductive StreamLookup
  /-- `TRUE`: `*StreamPointer` is the view offset `rva`, `*StreamSize` is `size`. -/
  | found (rva size : Nat)
  /-- `FALSE`. -/
  | notFound
  /-- The directory does not lie inside the mapped file. -/
  | fault
deriving DecidableEq

/-- Directory scan of `MiniDumpReadDumpStream`: `n` entries remain, the next one is at view offset
`off`.  The second component counts the entries examined. -/
def scanDirectory (view : List Nat) (streamNumber : Nat) : Nat → Nat → StreamLookup × Nat
  | 0, _ => (.notFound, 0)
  | n + 1, off =>
    match viewLE? view off 4, viewLE? view (off + 4) 4, viewLE? view (off + 8) 4 with
    | some t, some size, some rva =>
      if t = streamNumber then (.found rva size, 1)
      else ((scanDirectory view streamNumber n (off + sizeofMINIDUMP_DIRECTORY)).1,
            (scanDirectory view streamNumber n (off + sizeofMINIDUMP_DIRECTORY)).2 + 1)
    | _, _, _ => (.fault, 1)

/-- Platform routine `MiniDumpReadDumpStream(BaseOfDump, StreamNumber, ..)`, modelled after its
documented contract: it checks the header signature, walks the `NumberOfStreams` directory
entries at `StreamDirectoryRva` and returns the location of the first entry whose `StreamType`
is `StreamNumber`. -/
def MiniDumpReadDumpStream (view : List Nat) (streamNumber : Nat) : StreamLookup × Nat :=
  match viewLE? view 0 4, viewLE? view 8 4, viewLE? view 12 4 with
  | some sig, some n, some dirRva =>
    if sig = MINIDUMP_SIGNATURE then scanDirectory view streamNumber n dirRva
    else (.notFound, 0)
  | _, _, _ => (.fault, 0)

/-- What `parseAndPrintCustomStreamFromMiniDump` prints. -/
inductive ReadOutcome
  /-- `"ERROR: Could not open the dump file requested."` -/
  | openFailed
  /-- `"ERROR: Could not create the file mapping for the dump."` (an empty file cannot be
  mapped). -/
  | mappingFailed
  /-- `"ERROR: Failed to find stream in dump file. ..."` -/
  | streamNotFound
  /-- `"ERROR: Stream size mismatch. ..."` -/
  | sizeMismatch
  /-- The eight field lines. -/
  | report (r : CrashReport)
  /-- A read outside the mapped file. -/
  | accessFault
deriving DecidableEq

/-- `parseAndPrintCustomStreamFromMiniDump(dumpFilePath)` for a non-NULL path; `file` is the
content of the file at that path (`none`: `CreateFile` fails). -/
def parseAndPrintCustomStreamFromMiniDump (file : Option (List Nat)) : ReadOutcome :=
  match file with
  | none => .openFailed
  | some view =>
    if view.length = 0 then .mappingFailed
    else
      match (MiniDumpReadDumpStream view MAYA_CRASH_INFO_STREAM_TYPE).1 with
      | .fault => .accessFault
      | .notFound => .streamNotFound
      | .found pUserStream streamSize =>
        if streamSize ≠ sizeofMayaCrashDumpInfo then .sizeMismatch
        else if pUserStream + sizeofMayaCrashDumpInfo ≤ view.length then
          .report (readRecord ((view.drop pUserStream).take sizeofMayaCrashDumpInfo))
        else .accessFault

/-! ### WinDbg extension command (`windbg_custom_ext_main.c`) -/

/-- An open file handle: contents and file pointer. -/
structure FileHandle where
  contents : List Nat
  pos : Nat

/-- `ReadFile(hFile, buf, n, &bytesRead, NULL)` on an open disk file: the call succeeds, stores
the bytes available (at most `n`) at the start of `buf` and advances the file pointer.
Returns the handle, the buffer and `bytesRead`. -/
def ReadFile (f : FileHandle) (buf : List Nat) (n : Nat) : FileHandle × List Nat × Nat :=
  let got := (f.contents.drop f.pos).take n
  ({ f with pos := f.pos + got.length }, got ++ buf.drop got.length, got.length)

/-- `SetFilePointer(hFile, dist, NULL, FILE_BEGIN)` with `dist` the 32-bit pattern of the `LONG`
argument: a negative distance makes the call fail and leaves the file pointer unchanged. -/
def SetFilePointerBegin (f : FileHandle) (dist : Nat) : FileHandle :=
  if dist % 2 ^ 32 < 2 ^ 31 then { f with pos := dist % 2 ^ 32 } else f

/-- Lines printed by `readMayaDumpStreams` through `dprintf`. -/
inductive DbgMsg
  /-- `"ERROR: Could not open the dump file requested."` -/
  | cannotOpen
  /-- `"ERROR: The stream size does not match that of the known crash dump structure."` -/
  | sizeMismatch
  /-- `"ERROR: Failed to read user stream."` -/
  | userStreamReadFailed
  /-- `"ERROR: Unable to read minidump header."` -/
  | headerUnreadable
  /-- The report block: stream type and the eight fields. -/
  | report (streamType : Nat) (r : CrashReport)
deriving DecidableEq

/-- Body of the `for (i = 0; i < numUserStreams; ++i)` loop (lines 132-191) with `k` iterations
left.  `pBuf` is the 0x1000-byte heap buffer; the entry just read is reinterpreted as a
`MINIDUMP_USER_STREAM` (`Type` at 0, `BufferSize` at 4, 8-byte `Buffer` at 8).  The second
component counts the directory entries read. -/
def readMayaDumpStreamsLoop (f : FileHandle) (pBuf : List Nat) : Nat → List DbgMsg × Nat
  | 0 => ([], 0)
  | k + 1 =>
    let rd := ReadFile f pBuf sizeofMINIDUMP_DIRECTORY
    let f1 := rd.1
    let buf1 := rd.2.1
    if fieldLE buf1 0 4 ≠ MAYA_CRASH_INFO_STREAM_TYPE then
      ((readMayaDumpStreamsLoop f1 buf1 k).1, (readMayaDumpStreamsLoop f1 buf1 k).2 + 1)
    else
      let streamBufSize := fieldLE buf1 4 4
      if streamBufSize ≠ sizeofMayaCrashDumpInfo then
        (DbgMsg.sizeMismatch :: (readMayaDumpStreamsLoop f1 buf1 k).1,
          (readMayaDumpStreamsLoop f1 buf1 k).2 + 1)
      else
        let streamType := fieldLE buf1 0 4
        let pUserStreamBuf := fieldLE buf1 8 8
        let curPos := f1.pos % 2 ^ 32
        let f2 := SetFilePointerBegin f1 pUserStreamBuf
        let rd2 := ReadFile f2 (List.replicate sizeofMayaCrashDumpInfo 0) streamBufSize
        if rd2.2.2 ≠ streamBufSize then ([DbgMsg.userStreamReadFailed], 1)
        else
          let f3 := SetFilePointerBegin rd2.1 curPos
          (DbgMsg.report streamType (readRecord rd2.2.1) :: (readMayaDumpStreamsLoop f3 buf1 k).1,
            (readMayaDumpStreamsLoop f3 buf1 k).2 + 1)

/-- `readMayaDumpStreams` after path resolution: `file` is the content of the file at the
resolved path (`none`: `CreateFile` fails), `pBuf` the initial content of the `malloc`ed
buffer. -/
def readMayaDumpStreamsOn (file : Option (List Nat)) (pBuf : List Nat) : List DbgMsg × Nat :=
  match file with
  | none => ([DbgMsg.cannotOpen], 0)
  | some contents =>
    let rd := ReadFile { contents := contents, pos := 0 } pBuf sizeofMINIDUMP_HEADER
    if rd.2.2 = sizeofMINIDUMP_HEADER then
      let numUserStreams := fieldLE rd.2.1 8 4
      readMayaDumpStreamsLoop rd.1 rd.2.1 numUserStreams
    else ([DbgMsg.headerUnreadable], 0)

/-! ## Output path resolution

The same statements appear in the fault handler (lines 222-230), in `main` of the standalone
reader (lines 89-97) and in `readMayaDumpStreams` (lines 99-107). -/

/-- `GetEnvironmentVariable(TEMP_ENV_VAR_NAME, buf, nSize)`, modelled after its documented
contract; `value` is the value of the variable (`none`: not defined).  When the value and its
NUL fit into `nSize` characters it is stored and its length returned; otherwise the required
size is returned and the buffer is left as it was.  A missing variable gives 0. -/
def GetEnvironmentVariable (value : Option (List Nat)) (buf : Mem) (nSize : Nat) : Nat × Mem :=
  match value with
  | none => (0, buf)
  | some v =>
    if strlen v < nSize then (strlen v, memset (memcpy buf 0 v (strlen v)) (strlen v) 0 1)
    else (strlen v + 1, buf)

/-- Character `'\\'`. -/
def backslash : Nat := 92

/-- Lines 222-230 of `mayaCustomUnhandledExceptionFilter`: the C string left in
`dumpFilePath`. -/
def filterDumpFilePath (TEMP : Option (List Nat)) : List Nat :=
  let env := GetEnvironmentVariable TEMP (fun _ => 0) MAX_PATH
  let lenTempDirPath := env.1
  let tempDirPath :=
    if lenTempDirPath = 0 then
      let lenDefaultTempDirPath := strlen DEFAULT_TEMP_DIRECTORY
      memset (memcpy env.2 0 DEFAULT_TEMP_DIRECTORY lenDefaultTempDirPath)
        lenDefaultTempDirPath 0 1
    else env.2
  let dumpFilePath := snprintf (fun _ => 0) MAX_PATH
    (cstr (bytesOf tempDirPath MAX_PATH) ++ [backslash] ++ cstr MINIDUMP_FILE_NAME)
  cstr (bytesOf dumpFilePath MAX_PATH)

/-- Lines 89-97 of `main` (standalone reader): the C string left in `dumpFilePath`. -/
def mainDumpFilePath (TEMP : Option (List Nat)) : List Nat :=
  let env := GetEnvironmentVariable TEMP (fun _ => 0) MAX_PATH
  let lenTempDirPath := env.1
  let tempDirPath :=
    if lenTempDirPath = 0 then
      let lenDefaultTempDirPath := strlen DEFAULT_TEMP_DIRECTORY
      memset (memcpy env.2 0 DEFAULT_TEMP_DIRECTORY lenDefaultTempDirPath)
        lenDefaultTempDirPath 0 1
    else env.2
  let dumpFilePath := snprintf (fun _ => 0) MAX_PATH
    (cstr (bytesOf tempDirPath MAX_PATH) ++ [backslash] ++ cstr MINIDUMP_FILE_NAME)
  cstr (bytesOf dumpFilePath MAX_PATH)

/-- Lines 99-107 of `readMayaDumpStreams`: the C string left in `dumpFilePath`. -/
def extDumpFilePath (TEMP : Option (List Nat)) : List Nat :=
  let env := GetEnvironmentVariable TEMP (fun _ => 0) MAX_PATH
  let lenTempDirPath := env.1
  let tempDirPath :=
    if lenTempDirPath = 0 then
      let lenDefaultTempDirPath := strlen DEFAULT_TEMP_DIRECTORY
      memset (memcpy env.2 0 DEFAULT_TEMP_DIRECTORY lenDefaultTempDirPath)
        lenDefaultTempDirPath 0 1
    else env.2
  let dumpFilePath := snprintf (fun _ => 0) MAX_PATH
    (cstr (bytesOf tempDirPath MAX_PATH) ++ [backslash] ++ cstr MINIDUMP_FILE_NAME)
  cstr (bytesOf dumpFilePath MAX_PATH)

/-- `main(argc, argv)` of the standalone reader: `args` are `argv[1..]`, `fs` gives the content
of the file at a path.  One outcome per artifact processed. -/
def main (TEMP : Option (List Nat)) (fs : List Nat → Option (List Nat))
    (args : List (List Nat)) : List ReadOutcome :=
  if args.length + 1 = 1 then
    [parseAndPrintCustomStreamFromMiniDump (fs (mainDumpFilePath TEMP))]
  else args.map (fun path => parseAndPrintCustomStreamFromMiniDump (fs path))

/-- The `!readMayaDumpStreams` command. -/
def readMayaDumpStreams (TEMP : Option (List Nat)) (fs : List Nat → Option (List Nat))
    (pBuf : List Nat) : List DbgMsg × Nat :=
  readMayaDumpStreamsOn (fs (extDumpFilePath TEMP)) pBuf

/-! ## Fault handler (lines 215-319) -/

def EXCEPTION_EXECUTE_HANDLER : Int := 1
def EXCEPTION_CONTINUE_SEARCH : Int := 0

/-- What the handler's platform calls do at the time of the fault. -/
structure FaultEnv where
  /-- Value of the `TEMP` environment variable. -/
  TEMP : Option (List Nat)
  /-- Whether `CreateFile(path, .., CREATE_ALWAYS, ..)` returns a valid handle. -/
  createFileOk : List Nat → Bool
  /-- Result of `MiniDumpWriteDump`. -/
  dumpWritten : Bool
  /-- What the platform adds to the dump. -/
  sys : SystemPart

/-- Platform calls made by the handler, in order. -/
inductive Event
  | createFile (path : List Nat)
  /-- `MiniDumpWriteDump` called for the dump with these contents. -/
  | miniDumpWriteDump (dump : List Nat)
  /-- Message box with `MSG_UNABLE_TO_WRITE_DUMP`. -/
  | messageBoxUnableToWrite
  /-- Message box naming the dump file written. -/
  | messageBoxWritten (path : List Nat)
  | closeHandle
deriving DecidableEq

/-- `mayaCustomUnhandledExceptionFilter`: return value and platform calls. -/
def mayaCustomUnhandledExceptionFilter (env : FaultEnv) (g : Diag) (gHandlerCalled : Bool) :
    Int × List Event :=
  if gHandlerCalled = true then (EXCEPTION_EXECUTE_HANDLER, [])
  else
    let dumpFilePath := filterDumpFilePath env.TEMP
    if env.createFileOk dumpFilePath = false then
      (EXCEPTION_CONTINUE_SEARCH, [Event.createFile dumpFilePath, Event.messageBoxUnableToWrite])
    else
      let dump := (MiniDumpWriteDump env.sys (dumpUserStreams g)).bytes
      if env.dumpWritten = false then
        (EXCEPTION_CONTINUE_SEARCH,
          [Event.createFile dumpFilePath, Event.miniDumpWriteDump dump,
            Event.messageBoxUnableToWrite])
      else
        (EXCEPTION_EXECUTE_HANDLER,
          [Event.createFile dumpFilePath, Event.miniDumpWriteDump dump,
            Event.messageBoxWritten dumpFilePath, Event.closeHandle])

/-- `mayaCustomVectoredExceptionHandler`: return value, platform calls and the new value of
`gHandlerCalled`. -/
def mayaCustomVectoredExceptionHandler (env : FaultEnv) (g : Diag) (gHandlerCalled : Bool) :
    Int × List Event × Bool :=
  let result := mayaCustomUnhandledExceptionFilter env g gHandlerCalled
  (result.1, result.2, true)

/-- Number of `MiniDumpWriteDump` calls in a trace. -/
def writeAttempts : List Event → Nat
  | [] => 0
  | Event.miniDumpWriteDump _ :: t => writeAttempts t + 1
  | _ :: t => writeAttempts t

/-! ### Fault notifications that overlap

One run of `mayaCustomVectoredExceptionHandler` cut at the points where another notification can
come in: before the test of `gHandlerCalled` (line 218), before `CreateFile` (line 231), while
`MiniDumpWriteDump` runs (line 284), and before the store to `gHandlerCalled` (line 317). -/

inductive Pc
  /-- Not yet at line 218. -/
  | entry
  /-- `gHandlerCalled` was found clear; `CreateFile` not yet called. -/
  | passedGuard
  /-- File created, `MiniDumpWriteDump` running. -/
  | writing
  /-- The filter returned `r`; line 317 not yet executed. -/
  | returning (r : Int)
  /-- The notification's outcome is `r`. -/
  | done (r : Int)
deriving DecidableEq

/-- Two notifications in flight. -/
structure Overlap where
  gHandlerCalled : Bool
  /-- Calls of `MiniDumpWriteDump` started so far. -/
  writesStarted : Nat
  first : Pc
  second : Pc
deriving DecidableEq

/-- One step of a notification at program point `pc`: new flag, new count, new point. -/
def stepPc (env : FaultEnv) (flag : Bool) (writes : Nat) : Pc → Bool × Nat × Pc
  | .entry =>
    if flag = true then (flag, writes, .returning EXCEPTION_EXECUTE_HANDLER)
    else (flag, writes, .passedGuard)
  | .passedGuard =>
    if env.createFileOk (filterDumpFilePath env.TEMP) = false then
      (flag, writes, .returning EXCEPTION_CONTINUE_SEARCH)
    else (flag, writes + 1, .writing)
  | .writing =>
    if env.dumpWritten = false then (flag, writes, .returning EXCEPTION_CONTINUE_SEARCH)
    else (flag, writes, .returning EXCEPTION_EXECUTE_HANDLER)
  | .returning r => (true, writes, .done r)
  | .done r => (flag, writes, .done r)

/-- One step of the first (`false`) or second (`true`) notification. -/
def Overlap.step (env : FaultEnv) (s : Overlap) (who : Bool) : Overlap :=
  if who = true then
    let r := stepPc env s.gHandlerCalled s.writesStarted s.second
    { s with gHandlerCalled := r.1, writesStarted := r.2.1, second := r.2.2 }
  else
    let r := stepPc env s.gHandlerCalled s.writesStarted s.first
    { s with gHandlerCalled := r.1, writesStarted := r.2.1, first := r.2.2 }

/-- Run a schedule. -/
def Overlap.run (env : FaultEnv) (s : Overlap) : List Bool → Overlap
  | [] => s
  | who :: rest => Overlap.run env (Overlap.step env s who) rest

/-- Both notifications pending, nothing handled yet. -/
def Overlap.init : Overlap :=
  { gHandlerCalled := false, writesStarted := 0, first := .entry, second := .entry }

/-! ## Import-table patcher (lines 322-408) -/

/-- `tolower` on ASCII. -/
def tolower (c : Nat) : Nat := if 65 ≤ c ∧ c ≤ 90 then c + 32 else c

/-- `_stricmp`: difference of the first pair of characters that differ after lowering, 0 when
the strings are equal ignoring case. -/
def stricmp : List Nat → List Nat → Int
  | [], [] => 0
  | [], b :: _ => (0 : Int) - tolower b
  | a :: _, [] => (tolower a : Int) - 0
  | a :: as, b :: bs =>
    if tolower a ≠ tolower b then (tolower a : Int) - tolower b
    else if a = 0 then 0
    else stricmp as bs

/-- An `IMAGE_IMPORT_DESCRIPTOR` together with what its RVAs point to in the module. -/
structure ImportDescriptor where
  /-- `Characteristics` (union with `OriginalFirstThunk`). -/
  Characteristics : Nat
  /-- `Name`, an RVA. -/
  Name : Nat
  /-- The C string at `hmodCaller + Name`. -/
  importName : List Nat
  /-- The `u1.Function` values of the thunk array at `hmodCaller + FirstThunk`; the array's zero
  terminator follows the list unless a zero occurs earlier. -/
  thunks : List Nat
deriving DecidableEq

/-- A loaded module as the patcher sees it. -/
structure Module where
  /-- The import descriptor array (`none`: `ImageDirectoryEntryToDataEx` returns NULL); the
  array's zero terminator follows the list unless a terminating descriptor occurs earlier. -/
  imports : Option (List ImportDescriptor)
  /-- Whether `VirtualProtect(.., PAGE_READWRITE, ..)` succeeds on the module's thunk pages. -/
  protectOk : Bool
deriving DecidableEq

/-- The thunk loop (lines 347-371): result and the thunk array afterwards. -/
def patchThunks (protectOk : Bool) (pfnCurrent pfnNew : Nat) : List Nat → Bool × List Nat
  | [] => (false, [])
  | f :: fs =>
    if f = 0 then (false, f :: fs)
    else if f = pfnCurrent then
      if protectOk = false then (false, f :: fs)
      else (true, pfnNew :: fs)
    else
      ((patchThunks protectOk pfnCurrent pfnNew fs).1,
        f :: (patchThunks protectOk pfnCurrent pfnNew fs).2)

/-- The descriptor loop (lines 332-342) followed by the thunk loop on the descriptor found. -/
def patchDescriptors (protectOk : Bool) (calleeModName : List Nat) (pfnCurrent pfnNew : Nat) :
    List ImportDescriptor → Bool × List ImportDescriptor
  | [] => (false, [])
  | d :: ds =>
    if d.Name = 0 ∨ d.Characteristics = 0 then (false, d :: ds)
    else if stricmp d.importName calleeModName = 0 then
      ((patchThunks protectOk pfnCurrent pfnNew d.thunks).1,
        { d with thunks := (patchThunks protectOk pfnCurrent pfnNew d.thunks).2 } :: ds)
    else
      ((patchDescriptors protectOk calleeModName pfnCurrent pfnNew ds).1,
        d :: (patchDescriptors protectOk calleeModName pfnCurrent pfnNew ds).2)

/-- `patchOverIATEntryInOneModule`: result and the module afterwards. -/
def patchOverIATEntryInOneModule (calleeModName : List Nat) (pfnCurrent pfnNew : Nat)
    (hmodCaller : Module) : Bool × Module :=
  match hmodCaller.imports with
  | none => (false, hmodCaller)
  | some descs =>
    ((patchDescriptors hmodCaller.protectOk calleeModName pfnCurrent pfnNew descs).1,
      { hmodCaller with
        imports := some
          (patchDescriptors hmodCaller.protectOk calleeModName pfnCurrent pfnNew descs).2 })

/-- The `Module32First`/`Module32Next` loop (line 397) over the modules still to be enumerated:
the modules afterwards and the result of each `patchOverIATEntryInOneModule` call, in call
order. -/
def patchModulesLoop (calleeModName : List Nat) (pfnCurrent pfnNew : Nat) :
    List Module → List Module × List Bool
  | [] => ([], [])
  | m :: rest =>
    let r := patchOverIATEntryInOneModule calleeModName pfnCurrent pfnNew m
    let tail := patchModulesLoop calleeModName pfnCurrent pfnNew rest
    (r.2 :: tail.1, r.1 :: tail.2)

/-- `patchOverIATEntriesInAllModules`; `snapshotOk` tells whether `CreateToolhelp32Snapshot`
returned a valid snapshot (with an invalid handle `Module32First` fails and the loop body never
runs).  Returns the result, the modules afterwards and the per-module call results. -/
def patchOverIATEntriesInAllModules (snapshotOk : Bool) (calleeModName : List Nat)
    (pfnCurrent pfnNew : Nat) (modules : List Module) : Bool × List Module × List Bool :=
  if snapshotOk = false then (true, modules, [])
  else
    let r := patchModulesLoop calleeModName pfnCurrent pfnNew modules
    (true, r.1, r.2)

/-! ## Fault notifications handled one after another -/

/-- One fault notification: whether it comes in through the priority hook
(`mayaCustomVectoredExceptionHandler`) or directly through the top-level filter, and what the
platform and the diagnostics context are at that moment. -/
structure Notification where
  viaHook : Bool
  env : FaultEnv
  diag : Diag

/-- Handling of one notification with `gHandlerCalled = flag`: outcome, platform calls and
the flag afterwards. -/
def handleNotification (n : Notification) (flag : Bool) : Int × List Event × Bool :=
  if n.viaHook = true then mayaCustomVectoredExceptionHandler n.env n.diag flag
  else
    ((mayaCustomUnhandledExceptionFilter n.env n.diag flag).1,
      (mayaCustomUnhandledExceptionFilter n.env n.diag flag).2, flag)

/-- Notifications handled in sequence: the outcome and calls of each, and the final flag. -/
def handleAll : List Notification → Bool → List (Int × List Event) × Bool
  | [], flag => ([], flag)
  | n :: rest, flag =>
    (((handleNotification n flag).1, (handleNotification n flag).2.1)
        :: (handleAll rest (handleNotification n flag).2.2).1,
      (handleAll rest (handleNotification n flag).2.2).2)

/-- Write attempts made by the notifications that came through the priority hook. -/
def hookWriteAttempts : List Notification → List (Int × List Event) → Nat
  | n :: ns, r :: rs =>
    (if n.viaHook = true then writeAttempts r.2 else 0) + hookWriteAttempts ns rs
  | _, _ => 0

/-! ## Fault interception manager (lines 421-576) -/

/-- The handler chain of the process and the import tables of its modules. -/
structure Process where
  /-- The top-level unhandled-exception filter. -/
  topLevelFilter : Nat
  /-- Handles of the registered vectored exception handlers, first called first. -/
  vectoredHandlers : List Nat
  /-- The pure-virtual-call handler (`_set_purecall_handler`). -/
  purecallHandler : Nat
  /-- The `SIGABRT` handler (`signal`). -/
  abortHandler : Nat
  /-- The loaded modules, in snapshot order. -/
  modules : List Module
deriving DecidableEq

/-- The plugin image and the results of the platform calls made by install or uninstall. -/
structure Platform where
  /-- Addresses of the plugin's own functions. -/
  mayaCustomUnhandledExceptionFilter : Nat
  detouredSetUnhandledExceptionFilter : Nat
  unwantedUnhandledExceptionFilter : Nat
  purecallLambda : Nat
  abortLambda : Nat
  /-- Position of the plugin module in the snapshot and of the slot of its import table
  through which its calls of `::SetUnhandledExceptionFilter` go (descriptor, thunk). -/
  self : Nat
  slotDescriptor : Nat
  slotThunk : Nat
  /-- Handle returned by `AddVectoredExceptionHandler` (0: `NULL`, nothing registered). -/
  vectoredHandle : Nat
  /-- Whether `GetModuleHandleEx(.., "kernel32.dll", ..)` finds the module. -/
  kernel32Found : Bool
  /-- Result of `GetProcAddress(hKernel32Mod, "SetUnhandledExceptionFilter")` (0: `NULL`). -/
  procSetUnhandledExceptionFilter : Nat
  /-- Whether `CreateToolhelp32Snapshot` returns a valid snapshot. -/
  snapshotOk : Bool
  /-- Whether `RemoveVectoredExceptionHandler` returns non-zero. -/
  removeVectoredOk : Bool
  /-- Whether every host call of lines 497-523 (install) or 555-573 (uninstall) reports
  success. -/
  hostCallsOk : Bool

/-- The plugin's static registration data (lines 51-60). -/
structure Registration where
  gPrevFilter : Nat
  gOrigCRTFilter : Nat
  gCRTFilterPatched : Bool
  gpVectoredHandler : Nat
  gOrigPurecallHandler : Nat
  gOrigAbortHandler : Nat
deriving DecidableEq

/-- The static initialisers: `NULL` and `false`. -/
def Registration.initial : Registration :=
  { gPrevFilter := 0, gOrigCRTFilter := 0, gCRTFilterPatched := false, gpVectoredHandler := 0,
    gOrigPurecallHandler := 0, gOrigAbortHandler := 0 }

/-- Steps of install and uninstall that act on the handler chain, as they are executed. -/
inductive Step
  | addVectoredExceptionHandler
  | removeVectoredExceptionHandler
  /-- A call of `::SetUnhandledExceptionFilter(filter)` by the plugin; `detoured` tells that
  the call went to `detouredSetUnhandledExceptionFilter`. -/
  | setUnhandledExceptionFilter (filter : Nat) (detoured : Bool)
  /-- A call of `patchOverUnhandledExceptionFilter` with this replacement. -/
  | patchOverUnhandledExceptionFilter (pFnFilterReplace : Nat)
  | setPurecallHandler (handler : Nat)
  | signalAbort (handler : Nat)
  | displayError
deriving DecidableEq

/-- The value in the import slot through which the plugin calls
`SetUnhandledExceptionFilter`. -/
def importSlot (pl : Platform) (modules : List Module) : Option Nat :=
  match modules.get? pl.self with
  | none => none
  | some m =>
    match m.imports with
    | none => none
    | some descs =>
      match descs.get? pl.slotDescriptor with
      | none => none
      | some d => d.thunks.get? pl.slotThunk

/-- A call of `::SetUnhandledExceptionFilter(filter)` made by the plugin.  The call goes through
the plugin's import slot: when the slot holds the address of
`detouredSetUnhandledExceptionFilter` that function runs (it returns 0 and changes nothing,
lines 200-204); otherwise the slot holds what the loader bound, the kernel32 routine, which
installs `filter` and returns the previous filter.  Returns the process, the return value and
the step. -/
def callSetUnhandledExceptionFilter (pl : Platform) (ps : Process) (filter : Nat) :
    Process × Nat × Step :=
  if importSlot pl ps.modules = some pl.detouredSetUnhandledExceptionFilter then
    (ps, 0, Step.setUnhandledExceptionFilter filter true)
  else
    ({ ps with topLevelFilter := filter }, ps.topLevelFilter,
      Step.setUnhandledExceptionFilter filter false)

/-- `patchOverUnhandledExceptionFilter(pFnFilterReplace, pOrigFilter)`: result, the value left
in `*pOrigFilter`, and the modules afterwards. -/
def patchOverUnhandledExceptionFilter (pl : Platform) (pFnFilterReplace : Nat)
    (origFilter : Nat) (modules : List Module) : Bool × Nat × List Module :=
  if pl.kernel32Found = false then (false, origFilter, modules)
  else if origFilter = 0 ∧ pl.procSetUnhandledExceptionFilter = 0 then (false, 0, modules)
  else
    let orig := if origFilter = 0 then pl.procSetUnhandledExceptionFilter else origFilter
    let r := patchOverIATEntriesInAllModules pl.snapshotOk (ascii "kernel32.dll") orig
      pFnFilterReplace modules
    (r.1, orig, r.2.1)

/-- Result of install or uninstall: the returned status (`true`: `MStatus::kSuccess`), the
registration data, the process and the steps executed. -/
structure Outcome where
  status : Bool
  reg : Registration
  process : Process
  steps : List Step

/-- `initializePlugin` (lines 445-526).  The host calls of lines 497-523 register callbacks and
a command and fill the diagnostics context; they do not touch the handler chain and only their
status is kept. -/
def initializePlugin (pl : Platform) (reg : Registration) (ps : Process) : Outcome :=
  let ps1 : Process :=
    if pl.vectoredHandle = 0 then ps
    else { ps with vectoredHandlers := pl.vectoredHandle :: ps.vectoredHandlers }
  let set := callSetUnhandledExceptionFilter pl ps1 pl.mayaCustomUnhandledExceptionFilter
  let patch := patchOverUnhandledExceptionFilter pl pl.detouredSetUnhandledExceptionFilter
    reg.gOrigCRTFilter set.1.modules
  let ps3 : Process := { set.1 with modules := patch.2.2 }
  let ps5 : Process :=
    { ps3 with purecallHandler := pl.purecallLambda, abortHandler := pl.abortLambda }
  let test := callSetUnhandledExceptionFilter pl ps5 pl.unwantedUnhandledExceptionFilter
  { status := pl.hostCallsOk,
    reg :=
      { gPrevFilter := set.2.1, gOrigCRTFilter := patch.2.1, gCRTFilterPatched := patch.1,
        gpVectoredHandler := pl.vectoredHandle,
        gOrigPurecallHandler := ps3.purecallHandler, gOrigAbortHandler := ps3.abortHandler },
    process := test.1,
    steps :=
      [Step.addVectoredExceptionHandler, set.2.2,
        Step.patchOverUnhandledExceptionFilter pl.detouredSetUnhandledExceptionFilter]
        ++ (if patch.1 = false then [Step.displayError] else [])
        ++ [Step.setPurecallHandler pl.purecallLambda, Step.signalAbort pl.abortLambda,
          test.2.2] }

/-- `uninitializePlugin` (lines 529-576).  The host calls of lines 555-573 remove the callbacks
and the command; only their status is kept. -/
def uninitializePlugin (pl : Platform) (reg : Registration) (ps : Process) : Outcome :=
  if reg.gpVectoredHandler ≠ 0 ∧ pl.removeVectoredOk = false then
    { status := false, reg := reg, process := ps,
      steps := [Step.removeVectoredExceptionHandler, Step.displayError] }
  else
    let ps1 : Process :=
      if reg.gpVectoredHandler ≠ 0 then
        { ps with vectoredHandlers := ps.vectoredHandlers.erase reg.gpVectoredHandler }
      else ps
    let steps1 : List Step :=
      if reg.gpVectoredHandler ≠ 0 then [Step.removeVectoredExceptionHandler] else []
    let patch := patchOverUnhandledExceptionFilter pl reg.gOrigCRTFilter
      pl.detouredSetUnhandledExceptionFilter ps1.modules
    if reg.gCRTFilterPatched = true ∧ patch.1 = false then
      { status := false, reg := reg, process := { ps1 with modules := patch.2.2 },
        steps := steps1 ++ [Step.patchOverUnhandledExceptionFilter reg.gOrigCRTFilter,
          Step.displayError] }
    else
      let ps2 : Process :=
        if reg.gCRTFilterPatched = true then { ps1 with modules := patch.2.2 } else ps1
      let steps2 : List Step :=
        if reg.gCRTFilterPatched = true then
          [Step.patchOverUnhandledExceptionFilter reg.gOrigCRTFilter]
        else []
      let set := callSetUnhandledExceptionFilter pl ps2 reg.gPrevFilter
      let ps4 : Process :=
        { set.1 with purecallHandler := reg.gOrigPurecallHandler,
                     abortHandler := reg.gOrigAbortHandler }
      { status := pl.hostCallsOk, reg := reg, process := ps4,
        steps := steps1 ++ steps2 ++
          [set.2.2, Step.setPurecallHandler reg.gOrigPurecallHandler,
            Step.signalAbort reg.gOrigAbortHandler] }

/-! ### A concrete process used in the examples below -/

/-- Example platform: the plugin is the second module of the snapshot, its import slot for
`SetUnhandledExceptionFilter` is the second thunk of its first descriptor; the kernel32 routine
is at address 5, the plugin's functions at 1001-1005; every platform call succeeds. -/
def examplePlatform : Platform :=
  { mayaCustomUnhandledExceptionFilter := 1001, detouredSetUnhandledExceptionFilter := 1002,
    unwantedUnhandledExceptionFilter := 1003, purecallLambda := 1004, abortLambda := 1005,
    self := 1, slotDescriptor := 0, slotThunk := 1, vectoredHandle := 77, kernel32Found := true,
    procSetUnhandledExceptionFilter := 5, snapshotOk := true, removeVectoredOk := true,
    hostCallsOk := true }

/-- Example process before install: the host module and the plugin module both import
`SetUnhandledExceptionFilter` (address 5) from kernel32. -/
def exampleProcess : Process :=
  { topLevelFilter := 500, vectoredHandlers := [33], purecallHandler := 600,
    abortHandler := 700,
    modules :=
      [⟨some [⟨1, 100, ascii "USER32.dll", [8]⟩, ⟨1, 200, ascii "KERNEL32.dll", [7, 5]⟩], true⟩,
        ⟨some [⟨1, 100, ascii "KERNEL32.dll", [6, 5]⟩], true⟩] }

/-! ### What the two readers are compared on -/

/-- The line an application-tag directory entry stands for when the file is `contents`: none
for another tag, the size-mismatch line for a declared size other than the record's, else the
report of the record at the entry's `Rva`. -/
def dbgMsgOfEntry (contents : List Nat) (d : MINIDUMP_DIRECTORY) : Option DbgMsg :=
  if d.StreamType ≠ MAYA_CRASH_INFO_STREAM_TYPE then none
  else if d.DataSize ≠ sizeofMayaCrashDumpInfo then some DbgMsg.sizeMismatch
  else
    some (DbgMsg.report MAYA_CRASH_INFO_STREAM_TYPE
      (readRecord ((contents.drop d.Rva).take sizeofMayaCrashDumpInfo)))

/-! ## Basic facts about the memory primitives -/

theorem strlen_le_length (s : List Nat) : strlen s ≤ s.length := by
  induction s with
  | nil => simp [strlen]
  | cons c t ih =>
    unfold strlen
    split
    · omega
    · simp only [List.length_cons]; omega

theorem getD_ne_zero_of_lt_strlen (s : List Nat) (i : Nat) (h : i < strlen s) :
    s.getD i 0 ≠ 0 := by
  induction s generalizing i with
  | nil => simp [strlen] at h
  | cons c t ih =>
    unfold strlen at h
    by_cases hc : c = 0
    · simp [hc] at h
    · rw [if_neg hc] at h
      cases i with
      | zero => simpa using hc
      | succ j => simpa using ih j (by omega)

theorem strlen_replicate (n c : Nat) (hc : c ≠ 0) : strlen (List.replicate n c) = n := by
  induction n with
  | zero => simp [strlen]
  | succ k ih => rw [List.replicate_succ, strlen, if_neg hc, ih]

theorem memcpy_apply (m : Mem) (dst : Nat) (src : List Nat) (n a : Nat) :
    memcpy m dst src n a = if dst ≤ a ∧ a < dst + n then src.getD (a - dst) 0 else m a := rfl

theorem memset_apply (m : Mem) (dst c n a : Nat) :
    memset m dst c n a = if dst ≤ a ∧ a < dst + n then c else m a := rfl

theorem storeLE_apply (m : Mem) (off n v a : Nat) :
    storeLE m off n v a = if off ≤ a ∧ a < off + n then (v / 256 ^ (a - off)) % 256 else m a :=
  rfl

/-! ## Diagnostics context: what the bounded copies store -/

theorem maxNameLen_eq : MAYA_DAG_PATH_MAX_NAME_LEN = 512 := rfl
theorem off_parent : offLastDagParentName = 0 := rfl
theorem off_child : offLastDagChildName = 512 := rfl
theorem off_node : offLastDGNodeAddedName = 1024 := rfl
theorem off_verAPI : offVerAPI = 1536 := rfl
theorem off_verCustom : offVerCustom = 1540 := rfl
theorem off_verMayaFile : offVerMayaFile = 1544 := rfl
theorem off_msg : offLastDagMessage = 1548 := rfl
theorem off_isYUp : offIsYUp = 1550 := rfl
theorem sizeof_eq : sizeofMayaCrashDumpInfo = 1551 := rfl

/-- C1 (code at the claim's input): for every record state, every child name of 512 or more
characters and every parent name shorter than 512 characters, `mayaAllDAGChangesCB` fills all 512
bytes of `lastDagChildName` with the first 512 characters of the name, none of them a NUL, and
stores the terminating NUL at the first byte of the adjacent `lastDGNodeAddedName` field. -/
theorem mayaAllDAGChangesCB_long_child (g : Diag) (msgType : Int) (child parent : List Nat)
    (hc : MAYA_DAG_PATH_MAX_NAME_LEN ≤ strlen child)
    (hp : strlen parent < MAYA_DAG_PATH_MAX_NAME_LEN) :
    (∀ i, i < MAYA_DAG_PATH_MAX_NAME_LEN →
        (mayaAllDAGChangesCB msgType child parent g).gMayaCrashDumpInfo (offLastDagChildName + i)
            = child.getD i 0
          ∧ child.getD i 0 ≠ 0)
      ∧ (mayaAllDAGChangesCB msgType child parent g).gMayaCrashDumpInfo offLastDGNodeAddedName
          = 0 := by
  have hlenC : (if strlen child > MAYA_DAG_PATH_MAX_NAME_LEN then MAYA_DAG_PATH_MAX_NAME_LEN
      else strlen child) = MAYA_DAG_PATH_MAX_NAME_LEN := by
    split <;> omega
  have hlenP : (if strlen parent > MAYA_DAG_PATH_MAX_NAME_LEN then MAYA_DAG_PATH_MAX_NAME_LEN
      else strlen parent) = strlen parent := by
    split <;> omega
  simp only [mayaAllDAGChangesCB, hlenC, hlenP]
  rw [off_child, off_parent, off_node, off_msg]
  rw [maxNameLen_eq] at hc hp ⊢
  refine ⟨fun i hi => ⟨?_, getD_ne_zero_of_lt_strlen child i (by omega)⟩, ?_⟩
  · rw [memset_apply, if_neg (by omega), memcpy_apply, if_neg (by omega), memset_apply,
      if_neg (by omega), memcpy_apply, if_pos (by omega), Nat.add_sub_cancel_left]
  · rw [memset_apply, if_neg (by omega), memcpy_apply, if_neg (by omega), memset_apply,
      if_pos (by omega)]

/-- Witness for `mayaAllDAGChangesCB_long_child`: a 600-character child name, parent `"p"`, on a
record whose bytes are all `'x'`.  Byte 511 of the child field holds `'a'` (no terminator inside
the field) and the first byte of `lastDGNodeAddedName`, `'x'` before, is NUL after. -/
theorem mayaAllDAGChangesCB_long_child_witness :
    (mayaAllDAGChangesCB 3 (List.replicate 600 97) [112]
        ⟨fun _ => 0, fun _ => 0, fun _ => 0, fun _ => 120⟩).gMayaCrashDumpInfo
        (offLastDagChildName + 511) = 97
      ∧ (fun _ => 120 : Mem) offLastDGNodeAddedName = 120
      ∧ (mayaAllDAGChangesCB 3 (List.replicate 600 97) [112]
        ⟨fun _ => 0, fun _ => 0, fun _ => 0, fun _ => 120⟩).gMayaCrashDumpInfo
        offLastDGNodeAddedName = 0 := by
  have h := mayaAllDAGChangesCB_long_child ⟨fun _ => 0, fun _ => 0, fun _ => 0, fun _ => 120⟩ 3
    (List.replicate 600 97) [112]
    (by rw [strlen_replicate 600 97 (by decide)]; decide) (by decide)
  refine ⟨?_, rfl, h.2⟩
  have h511 := (h.1 511 (by decide)).1
  rw [h511, List.getD_eq_getElem?_getD, List.getElem?_replicate]
  simp

/-- C2 (code at inputs that reach a buffer's capacity): `mayaMELCmdCB` with a command of 1024 or
more characters fills the whole 1024-byte buffer with non-NUL characters and stores the NUL at
offset 1024, one past the buffer; `mayaNodeAddedCB` copies a node name of any length `n ≥ 1`
unclamped, so for `n ≥ 512` the 512-byte field holds no NUL and the NUL lands at offset `n` from
the field start; `mayaSceneAfterOpenCB` copies the whole file name unclamped and stores the NUL
at offset `length`, whatever the length (so at or beyond `MAX_PATH` for a name of `MAX_PATH` or
more characters). -/
theorem record_ops_store_past_capacity (g : Diag) (cmd : List Nat) (node : NodeQuery) (h : Host)
    (hcmd : MAYA_MINIDUMP_MEL_CMD_INFO_BLK_SIZE ≤ strlen cmd)
    (hfn : node.hasFnDependencyNode = true) (hst : node.fnNodeStatusOk = true)
    (huniq : node.hasUniqueName = true)
    (hnode : MAYA_DG_NODE_MAX_NAME_LEN ≤ strlen node.name) :
    ((∀ i, i < MAYA_MINIDUMP_MEL_CMD_INFO_BLK_SIZE →
        (mayaMELCmdCB cmd g).gMayaMELCmdInfoBlk i ≠ 0)
      ∧ (mayaMELCmdCB cmd g).gMayaMELCmdInfoBlk MAYA_MINIDUMP_MEL_CMD_INFO_BLK_SIZE = 0)
    ∧ ((∀ i, i < strlen node.name →
        (mayaNodeAddedCB node g).gMayaCrashDumpInfo (offLastDGNodeAddedName + i) ≠ 0)
      ∧ (mayaNodeAddedCB node g).gMayaCrashDumpInfo (offLastDGNodeAddedName + strlen node.name)
          = 0)
    ∧ ((∀ i, i < h.currentFile.length →
        (mayaSceneAfterOpenCB h g).gMayaCurrentScenePath i = h.currentFile.getD i 0)
      ∧ (mayaSceneAfterOpenCB h g).gMayaCurrentScenePath h.currentFile.length = 0) := by
  have hlen : (if strlen cmd > MAYA_MINIDUMP_MEL_CMD_INFO_BLK_SIZE
      then MAYA_MINIDUMP_MEL_CMD_INFO_BLK_SIZE else strlen cmd)
        = MAYA_MINIDUMP_MEL_CMD_INFO_BLK_SIZE := by
    split <;> omega
  have hn0 : strlen node.name ≠ 0 := by
    simp only [MAYA_DG_NODE_MAX_NAME_LEN] at hnode
    omega
  refine ⟨⟨fun i hi => ?_, ?_⟩, ⟨fun i hi => ?_, ?_⟩, ⟨fun i hi => ?_, ?_⟩⟩
  · simp only [mayaMELCmdCB, hlen]
    rw [memset_apply, if_neg (by omega), memcpy_apply, if_pos (by omega)]
    exact getD_ne_zero_of_lt_strlen cmd (i - 0) (by omega)
  · simp only [mayaMELCmdCB, hlen]
    rw [memset_apply, if_pos (by omega)]
  · simp only [mayaNodeAddedCB, hfn, hst, huniq, Bool.not_true, Bool.false_and,
      Bool.false_eq_true, if_false, if_neg hn0]
    rw [memset_apply, if_neg (by omega), memcpy_apply, if_pos (by omega)]
    exact getD_ne_zero_of_lt_strlen node.name _ (by omega)
  · simp only [mayaNodeAddedCB, hfn, hst, huniq, Bool.not_true, Bool.false_and,
      Bool.false_eq_true, if_false, if_neg hn0]
    rw [memset_apply, if_pos (by omega)]
  · simp only [mayaSceneAfterOpenCB]
    rw [memset_apply, if_neg (by omega), memcpy_apply, if_pos (by omega)]
    rfl
  · simp only [mayaSceneAfterOpenCB]
    rw [memset_apply, if_pos (by omega)]

/-- Witness for `record_ops_store_past_capacity`: a 1024-character command, a 600-character node
name and a 300-character file name. -/
theorem record_ops_store_past_capacity_witness :
    (mayaMELCmdCB (List.replicate 1024 97)
        ⟨fun _ => 0, fun _ => 0, fun _ => 120, fun _ => 0⟩).gMayaMELCmdInfoBlk
        MAYA_MINIDUMP_MEL_CMD_INFO_BLK_SIZE = 0
      ∧ (fun _ => 120 : Mem) MAYA_MINIDUMP_MEL_CMD_INFO_BLK_SIZE = 120 :=
  ⟨(record_ops_store_past_capacity ⟨fun _ => 0, fun _ => 0, fun _ => 120, fun _ => 0⟩
      (List.replicate 1024 97) ⟨true, true, true, [], true, List.replicate 600 110⟩
      ⟨List.replicate 300 47, 0, 0, 0, true⟩
      (by rw [strlen_replicate 1024 97 (by decide)]; decide) rfl rfl rfl
      (by rw [strlen_replicate 600 110 (by decide)]; decide)).1.2, rfl⟩

/-! ## Little-endian fields -/

theorem length_encLE (n v : Nat) : (encLE n v).length = n := by
  induction n generalizing v with
  | zero => rfl
  | succ k ih => simp [encLE, ih]

theorem decLE_encLE (n v : Nat) : decLE (encLE n v) = v % 256 ^ n := by
  induction n generalizing v with
  | zero => simp [encLE, decLE, Nat.mod_one]
  | succ k ih =>
    simp only [encLE, decLE, ih]
    rw [pow_succ, Nat.mul_comm (256 ^ k) 256, Nat.mod_mul]

theorem fieldLE_shift (pre bs : List Nat) (k n : Nat) :
    fieldLE (pre ++ bs) (pre.length + k) n = fieldLE bs k n := by
  unfold fieldLE
  rw [List.drop_append]

theorem fieldLE_encLE (n v : Nat) (post : List Nat) :
    fieldLE (encLE n v ++ post) 0 n = v % 256 ^ n := by
  unfold fieldLE
  rw [List.drop_zero, List.take_append_of_le_length (by rw [length_encLE]),
    List.take_of_length_le (by rw [length_encLE]), decLE_encLE]
theorem length_encodeDirectoryEntry (d : MINIDUMP_DIRECTORY) :
    (encodeDirectoryEntry d).length = 12 := by
  simp [encodeDirectoryEntry, length_encLE]

theorem length_encodeDirectory (ds : List MINIDUMP_DIRECTORY) :
    (encodeDirectory ds).length = 12 * ds.length := by
  induction ds with
  | nil => rfl
  | cons d t ih =>
    simp only [encodeDirectory, List.length_append, length_encodeDirectoryEntry, ih,
      List.length_cons]
    omega

theorem length_encodeHeader (h : MINIDUMP_HEADER) : (encodeHeader h).length = 32 := by
  simp [encodeHeader, length_encLE]

theorem fieldLE_at (pre bs : List Nat) (off n : Nat) (h : off = pre.length) :
    fieldLE (pre ++ bs) off n = fieldLE bs 0 n := by
  subst h
  exact fieldLE_shift pre bs 0 n

/-- The three fields of a directory entry read back from its encoding. -/
theorem fieldLE_entry (d : MINIDUMP_DIRECTORY) (post : List Nat) :
    fieldLE (encodeDirectoryEntry d ++ post) 0 4 = d.StreamType % 2 ^ 32
      ∧ fieldLE (encodeDirectoryEntry d ++ post) 4 4 = d.DataSize % 2 ^ 32
      ∧ fieldLE (encodeDirectoryEntry d ++ post) 8 4 = d.Rva % 2 ^ 32 := by
  have e1 : encodeDirectoryEntry d ++ post
      = encLE 4 d.StreamType ++ (encLE 4 d.DataSize ++ (encLE 4 d.Rva ++ post)) := by
    simp [encodeDirectoryEntry, List.append_assoc]
  have e2 : encodeDirectoryEntry d ++ post
      = (encLE 4 d.StreamType ++ encLE 4 d.DataSize) ++ (encLE 4 d.Rva ++ post) := by
    simp [encodeDirectoryEntry, List.append_assoc]
  refine ⟨?_, ?_, ?_⟩
  · rw [e1, fieldLE_encLE]; rfl
  · rw [e1, fieldLE_at _ _ 4 4 (by rw [length_encLE]), fieldLE_encLE]; rfl
  · rw [e2, fieldLE_at _ _ 8 4 (by simp [length_encLE]), fieldLE_encLE]; rfl
theorem viewLE?_entry (pre rest : List Nat) (d : MINIDUMP_DIRECTORY) :
    viewLE? (pre ++ (encodeDirectoryEntry d ++ rest)) pre.length 4 = some (d.StreamType % 2 ^ 32)
      ∧ viewLE? (pre ++ (encodeDirectoryEntry d ++ rest)) (pre.length + 4) 4
          = some (d.DataSize % 2 ^ 32)
      ∧ viewLE? (pre ++ (encodeDirectoryEntry d ++ rest)) (pre.length + 8) 4
          = some (d.Rva % 2 ^ 32) := by
  have hl : (pre ++ (encodeDirectoryEntry d ++ rest)).length = pre.length + (12 + rest.length) := by
    simp [length_encodeDirectoryEntry]
  have hf := fieldLE_entry d rest
  refine ⟨?_, ?_, ?_⟩
  · unfold viewLE?
    rw [if_pos (by omega), fieldLE_at _ _ _ 4 rfl, hf.1]
  · unfold viewLE?
    rw [if_pos (by omega), fieldLE_shift, hf.2.1]
  · unfold viewLE?
    rw [if_pos (by omega), fieldLE_shift, hf.2.2]

/-- The directory scan of the platform lookup on an encoded directory: the first entry with the
requested type wins. -/
theorem scanDirectory_encodeDirectory (tag : Nat) (ds : List MINIDUMP_DIRECTORY)
    (pre post : List Nat)
    (hfit : ∀ d ∈ ds, d.StreamType < 2 ^ 32 ∧ d.DataSize < 2 ^ 32 ∧ d.Rva < 2 ^ 32) :
    (scanDirectory (pre ++ (encodeDirectory ds ++ post)) tag ds.length pre.length).1
      = match ds.find? (fun d => decide (d.StreamType = tag)) with
        | some e => StreamLookup.found e.Rva e.DataSize
        | none => StreamLookup.notFound := by
  induction ds generalizing pre with
  | nil => rfl
  | cons d t ih =>
    have hd := hfit d (List.mem_cons_self d t)
    have hv := viewLE?_entry pre (encodeDirectory t ++ post) d
    rw [Nat.mod_eq_of_lt hd.1, Nat.mod_eq_of_lt hd.2.1, Nat.mod_eq_of_lt hd.2.2] at hv
    simp only [encodeDirectory, List.length_cons, scanDirectory, List.append_assoc, hv.1, hv.2.1,
      hv.2.2, List.find?_cons]
    by_cases htag : d.StreamType = tag
    · simp [htag]
    · have hrec := ih (pre ++ encodeDirectoryEntry d) (fun e he => hfit e (List.mem_cons_of_mem d he))
      simp only [List.length_append, length_encodeDirectoryEntry, List.append_assoc] at hrec
      simp only [htag, if_false, decide_False, sizeofMINIDUMP_DIRECTORY]
      exact hrec

theorem scanDirectory_examined_le (view : List Nat) (tag n off : Nat) :
    (scanDirectory view tag n off).2 ≤ n := by
  induction n generalizing off with
  | zero => simp [scanDirectory]
  | succ k ih =>
    unfold scanDirectory
    split
    · split
      · omega
      · have := ih (off + sizeofMINIDUMP_DIRECTORY)
        simp only
        omega
    · simp only
      omega
/-- The header fields both readers use, read back from an encoded header. -/
theorem fieldLE_header (h : MINIDUMP_HEADER) (post : List Nat) :
    fieldLE (encodeHeader h ++ post) 0 4 = h.Signature % 2 ^ 32
      ∧ fieldLE (encodeHeader h ++ post) 8 4 = h.NumberOfStreams % 2 ^ 32
      ∧ fieldLE (encodeHeader h ++ post) 12 4 = h.StreamDirectoryRva % 2 ^ 32 := by
  have e1 : encodeHeader h ++ post
      = encLE 4 h.Signature ++ (encLE 4 h.Version ++ (encLE 4 h.NumberOfStreams
          ++ (encLE 4 h.StreamDirectoryRva ++ (encLE 4 h.CheckSum ++ (encLE 4 h.TimeDateStamp
          ++ (encLE 8 h.Flags ++ post)))))) := by
    simp [encodeHeader, List.append_assoc]
  have e2 : encodeHeader h ++ post
      = (encLE 4 h.Signature ++ encLE 4 h.Version) ++ (encLE 4 h.NumberOfStreams
          ++ (encLE 4 h.StreamDirectoryRva ++ (encLE 4 h.CheckSum ++ (encLE 4 h.TimeDateStamp
          ++ (encLE 8 h.Flags ++ post))))) := by
    simp [encodeHeader, List.append_assoc]
  have e3 : encodeHeader h ++ post
      = (encLE 4 h.Signature ++ encLE 4 h.Version ++ encLE 4 h.NumberOfStreams)
          ++ (encLE 4 h.StreamDirectoryRva ++ (encLE 4 h.CheckSum ++ (encLE 4 h.TimeDateStamp
          ++ (encLE 8 h.Flags ++ post)))) := by
    simp [encodeHeader, List.append_assoc]
  refine ⟨?_, ?_, ?_⟩
  · rw [e1, fieldLE_encLE]; rfl
  · rw [e2, fieldLE_at _ _ 8 4 (by simp [length_encLE]), fieldLE_encLE]; rfl
  · rw [e3, fieldLE_at _ _ 12 4 (by simp [length_encLE]), fieldLE_encLE]; rfl

theorem Artifact.header_fields (a : Artifact) (ha : a.WellFormed) (post : List Nat) :
    fieldLE (encodeHeader a.header ++ post) 0 4 = MINIDUMP_SIGNATURE
      ∧ fieldLE (encodeHeader a.header ++ post) 8 4 = a.directory.length
      ∧ fieldLE (encodeHeader a.header ++ post) 12 4 = 32 := by
  have hf := MayaCrash.fieldLE_header a.header post
  refine ⟨hf.1.trans ?_, hf.2.1.trans ?_, hf.2.2.trans ?_⟩
  · rfl
  · exact Nat.mod_eq_of_lt ha.1
  · rfl

theorem Artifact.bytes_eq (a : Artifact) :
    a.bytes = encodeHeader a.header
      ++ (encodeDirectory a.directory ++ a.payload) := by
  simp [Artifact.bytes, List.append_assoc]

theorem Artifact.length_bytes (a : Artifact) :
    a.bytes.length = 32 + 12 * a.directory.length + a.payload.length := by
  rw [Artifact.bytes_eq]
  simp only [List.length_append, length_encodeHeader, length_encodeDirectory]
  omega

/-- The platform lookup on an artifact returns the first directory entry of the requested
type. -/
theorem MiniDumpReadDumpStream_artifact (a : Artifact) (ha : a.WellFormed) (tag : Nat) :
    (MiniDumpReadDumpStream a.bytes tag).1
      = match a.directory.find? (fun d => decide (d.StreamType = tag)) with
        | some e => StreamLookup.found e.Rva e.DataSize
        | none => StreamLookup.notFound := by
  have hlen := Artifact.length_bytes a
  have hscan := scanDirectory_encodeDirectory tag a.directory
    (encodeHeader a.header) a.payload ha.2
  rw [← Artifact.bytes_eq, length_encodeHeader] at hscan
  have hf := Artifact.header_fields a ha (encodeDirectory a.directory ++ a.payload)
  rw [← Artifact.bytes_eq] at hf
  have h0 : viewLE? a.bytes 0 4 = some MINIDUMP_SIGNATURE := by
    unfold viewLE?
    rw [if_pos (by omega), hf.1]
  have h8 : viewLE? a.bytes 8 4 = some a.directory.length := by
    unfold viewLE?
    rw [if_pos (by omega), hf.2.1]
  have h12 : viewLE? a.bytes 12 4 = some 32 := by
    unfold viewLE?
    rw [if_pos (by omega), hf.2.2]
  unfold MiniDumpReadDumpStream
  rw [h0, h8, h12]
  simp only [if_true]
  exact hscan

theorem MiniDumpReadDumpStream_examined_le (a : Artifact) (ha : a.WellFormed) (tag : Nat) :
    (MiniDumpReadDumpStream a.bytes tag).2 ≤ a.directory.length := by
  have hlen := Artifact.length_bytes a
  have hf := Artifact.header_fields a ha (encodeDirectory a.directory ++ a.payload)
  rw [← Artifact.bytes_eq] at hf
  have h0 : viewLE? a.bytes 0 4 = some MINIDUMP_SIGNATURE := by
    unfold viewLE?
    rw [if_pos (by omega), hf.1]
  have h8 : viewLE? a.bytes 8 4 = some a.directory.length := by
    unfold viewLE?
    rw [if_pos (by omega), hf.2.1]
  have h12 : viewLE? a.bytes 12 4 = some 32 := by
    unfold viewLE?
    rw [if_pos (by omega), hf.2.2]
  unfold MiniDumpReadDumpStream
  rw [h0, h8, h12]
  simp only [if_true]
  exact scanDirectory_examined_le _ _ _ _
theorem ReadFile_prefix (pre x rest buf : List Nat) (n : Nat) (hn : x.length = n) :
    ReadFile { contents := pre ++ (x ++ rest), pos := pre.length } buf n
      = ({ contents := pre ++ (x ++ rest), pos := pre.length + n }, x ++ buf.drop n, n) := by
  have hgot : ((pre ++ (x ++ rest)).drop pre.length).take n = x := by
    rw [List.drop_left, List.take_left' hn]
  simp only [ReadFile, hgot, hn]

/-- The extension's directory loop on an encoded directory none of whose entries is an
application-tag entry of the record's size: one size-mismatch line per application-tag entry,
no report, and every entry is read once. -/
theorem readMayaDumpStreamsLoop_no_record (ds : List MINIDUMP_DIRECTORY) (pre post buf : List Nat)
    (hfit : ∀ d ∈ ds, d.StreamType < 2 ^ 32 ∧ d.DataSize < 2 ^ 32 ∧ d.Rva < 2 ^ 32)
    (hno : ∀ d ∈ ds, d.StreamType = MAYA_CRASH_INFO_STREAM_TYPE →
      d.DataSize ≠ sizeofMayaCrashDumpInfo) :
    readMayaDumpStreamsLoop { contents := pre ++ (encodeDirectory ds ++ post), pos := pre.length }
        buf ds.length
      = ((ds.filter (fun d => decide (d.StreamType = MAYA_CRASH_INFO_STREAM_TYPE))).map
            (fun _ => DbgMsg.sizeMismatch), ds.length) := by
  induction ds generalizing pre buf with
  | nil => rfl
  | cons d t ih =>
    have hd := hfit d (List.mem_cons_self d t)
    have hrd := ReadFile_prefix pre (encodeDirectoryEntry d) (encodeDirectory t ++ post) buf 12
      (length_encodeDirectoryEntry d)
    have hf := fieldLE_entry d (buf.drop 12)
    rw [Nat.mod_eq_of_lt hd.1, Nat.mod_eq_of_lt hd.2.1] at hf
    have hrec := ih (pre ++ encodeDirectoryEntry d) (encodeDirectoryEntry d ++ buf.drop 12)
      (fun e he => hfit e (List.mem_cons_of_mem d he))
      (fun e he => hno e (List.mem_cons_of_mem d he))
    simp only [List.length_append, length_encodeDirectoryEntry, List.append_assoc] at hrec
    simp only [encodeDirectory, List.length_cons, readMayaDumpStreamsLoop, List.append_assoc,
      sizeofMINIDUMP_DIRECTORY, hrd, hf.1, hf.2.1, hrec]
    by_cases htag : d.StreamType = MAYA_CRASH_INFO_STREAM_TYPE
    · have hsz := hno d (List.mem_cons_self d t) htag
      simp [htag, hsz, List.filter_cons]
    · simp [htag, List.filter_cons]

/-- After the header read, the extension runs its loop from file offset 32 with the stream count
of the header. -/
theorem readMayaDumpStreamsOn_artifact (a : Artifact) (ha : a.WellFormed) (pBuf : List Nat) :
    readMayaDumpStreamsOn (some a.bytes) pBuf
      = readMayaDumpStreamsLoop { contents := a.bytes, pos := 32 }
          (encodeHeader a.header ++ pBuf.drop 32)
          a.directory.length := by
  have hrd := ReadFile_prefix [] (encodeHeader a.header)
    (encodeDirectory a.directory ++ a.payload) pBuf 32 (length_encodeHeader _)
  simp only [List.nil_append, List.length_nil, Nat.zero_add] at hrd
  rw [← Artifact.bytes_eq] at hrd
  have hf := (Artifact.header_fields a ha (pBuf.drop 32)).2.1
  simp only [readMayaDumpStreamsOn, sizeofMINIDUMP_HEADER, hrd, hf, if_true]
/-! ## The writer's layout -/

theorem length_bytesOf (m : Mem) (n : Nat) : (bytesOf m n).length = n := by
  simp [bytesOf]

theorem concatPayloads_append (xs ys : List (Nat × List Nat)) :
    concatPayloads (xs ++ ys) = concatPayloads xs ++ concatPayloads ys := by
  induction xs with
  | nil => rfl
  | cons x t ih =>
    obtain ⟨tag, p⟩ := x
    simp [concatPayloads, ih, List.append_assoc]

theorem length_placeStreams (base : Nat) (l : List (Nat × List Nat)) :
    (placeStreams base l).length = l.length := by
  induction l generalizing base with
  | nil => rfl
  | cons x t ih =>
    obtain ⟨tag, p⟩ := x
    simp [placeStreams, ih]

/-- Every placed entry carries the type of one of the streams and lies inside the region the
streams occupy. -/
theorem placeStreams_mem (base : Nat) (l : List (Nat × List Nat)) (d : MINIDUMP_DIRECTORY)
    (hd : d ∈ placeStreams base l) :
    (∃ s ∈ l, d.StreamType = s.1) ∧ base ≤ d.Rva
      ∧ d.Rva + d.DataSize ≤ base + (concatPayloads l).length := by
  induction l generalizing base with
  | nil => simp [placeStreams] at hd
  | cons x t ih =>
    obtain ⟨tag, p⟩ := x
    simp only [placeStreams, List.mem_cons] at hd
    rcases hd with rfl | hd
    · refine ⟨⟨(tag, p), List.mem_cons_self _ _, rfl⟩, Nat.le_refl _, ?_⟩
      simp only [concatPayloads, List.length_append]
      omega
    · obtain ⟨⟨s, hs, hst⟩, h1, h2⟩ := ih (base + p.length) hd
      refine ⟨⟨s, List.mem_cons_of_mem _ hs, hst⟩, by omega, ?_⟩
      simp only [concatPayloads, List.length_append]
      omega

/-- The first entry of a given type is the one placed for the first stream of that type. -/
theorem find?_placeStreams (base tag : Nat) (xs ys : List (Nat × List Nat)) (p : List Nat)
    (hxs : ∀ x ∈ xs, x.1 ≠ tag) :
    (placeStreams base (xs ++ (tag, p) :: ys)).find? (fun d => decide (d.StreamType = tag))
      = some { StreamType := tag, DataSize := p.length,
               Rva := base + (concatPayloads xs).length } := by
  induction xs generalizing base with
  | nil => simp [placeStreams, concatPayloads]
  | cons x t ih =>
    obtain ⟨tx, px⟩ := x
    have hne : tx ≠ tag := hxs (tx, px) (List.mem_cons_self _ _)
    have hrec := ih (base + px.length) (fun y hy => hxs y (List.mem_cons_of_mem _ hy))
    rw [List.cons_append]
    simp only [placeStreams, List.find?_cons, hne, decide_False, concatPayloads,
      List.length_append]
    rw [hrec, Nat.add_assoc]

/-- The streams of a dump written by the handler: the system streams, three comment streams and
the record stream. -/
theorem dump_streams_eq (sys : SystemPart) (g : Diag) :
    sys.streams ++ (dumpUserStreams g).map (fun u => (u.Type_, bytesOf u.Buffer u.BufferSize))
      = (sys.streams ++
          [(CommentStreamA, bytesOf g.gMayaCurrentScenePath MAX_PATH),
           (CommentStreamA, bytesOf g.gMayaTimingInfoBlk MAYA_MINIDUMP_TIMING_INFO_BLK_SIZE),
           (CommentStreamA, bytesOf g.gMayaMELCmdInfoBlk MAYA_MINIDUMP_MEL_CMD_INFO_BLK_SIZE)])
        ++ (MAYA_CRASH_INFO_STREAM_TYPE, bytesOf g.gMayaCrashDumpInfo sizeofMayaCrashDumpInfo)
            :: [] := by
  simp [dumpUserStreams]

theorem MiniDumpWriteDump_wellFormed (sys : SystemPart) (user : List MINIDUMP_USER_STREAM)
    (hsys : ∀ s ∈ sys.streams, s.1 < 2 ^ 32) (huser : ∀ u ∈ user, u.Type_ < 2 ^ 32)
    (hsize : (MiniDumpWriteDump sys user).bytes.length < 2 ^ 32) :
    (MiniDumpWriteDump sys user).WellFormed := by
  have hlen := Artifact.length_bytes (MiniDumpWriteDump sys user)
  rw [hlen] at hsize
  simp only [MiniDumpWriteDump, length_placeStreams, sizeofMINIDUMP_HEADER,
    sizeofMINIDUMP_DIRECTORY] at hsize
  refine ⟨?_, fun d hd => ?_⟩
  · simp only [MiniDumpWriteDump, length_placeStreams]
    omega
  · simp only [MiniDumpWriteDump] at hd
    obtain ⟨⟨s, hs, hst⟩, h1, h2⟩ := placeStreams_mem _ _ d hd
    refine ⟨?_, ?_, ?_⟩
    · rw [hst]
      rcases List.mem_append.1 hs with h | h
      · exact hsys s h
      · obtain ⟨u, hu, rfl⟩ := List.mem_map.1 h
        exact huser u hu
    · simp only [sizeofMINIDUMP_HEADER, sizeofMINIDUMP_DIRECTORY] at h1 h2
      omega
    · simp only [sizeofMINIDUMP_HEADER, sizeofMINIDUMP_DIRECTORY] at h1 h2
      omega
/-! ## Readers on artifacts -/

/-- The standalone reader on a dump whose first application-tag stream holds the bytes `p` of a
record. -/
theorem parse_placed_record (A : Artifact) (xs ys : List (Nat × List Nat))
    (p : List Nat) (hxs : ∀ x ∈ xs, x.1 ≠ MAYA_CRASH_INFO_STREAM_TYPE)
    (hp : p.length = sizeofMayaCrashDumpInfo)
    (hdir : A.directory = placeStreams (sizeofMINIDUMP_HEADER + sizeofMINIDUMP_DIRECTORY
      * (xs ++ (MAYA_CRASH_INFO_STREAM_TYPE, p) :: ys).length)
      (xs ++ (MAYA_CRASH_INFO_STREAM_TYPE, p) :: ys))
    (hpay0 : A.payload = concatPayloads (xs ++ (MAYA_CRASH_INFO_STREAM_TYPE, p) :: ys))
    (hwf : A.WellFormed) :
    parseAndPrintCustomStreamFromMiniDump (some A.bytes) = ReadOutcome.report (readRecord p) := by
  have hpay : A.payload = concatPayloads xs ++ (p ++ concatPayloads ys) := by
    rw [hpay0]
    simp only [concatPayloads_append, concatPayloads]
  have hdlen : A.directory.length = (xs ++ (MAYA_CRASH_INFO_STREAM_TYPE, p) :: ys).length := by
    rw [hdir, length_placeStreams]
  have hlookup := MiniDumpReadDumpStream_artifact A hwf MAYA_CRASH_INFO_STREAM_TYPE
  rw [hdir, find?_placeStreams _ _ _ _ _ hxs] at hlookup
  simp only [hp] at hlookup
  have hbytes := Artifact.bytes_eq A
  rw [hpay, ← List.append_assoc, ← List.append_assoc] at hbytes
  have hpre : (encodeHeader A.header ++ encodeDirectory A.directory ++ concatPayloads xs).length
      = sizeofMINIDUMP_HEADER + sizeofMINIDUMP_DIRECTORY
          * (xs ++ (MAYA_CRASH_INFO_STREAM_TYPE, p) :: ys).length
        + (concatPayloads xs).length := by
    simp only [List.length_append, length_encodeHeader, length_encodeDirectory, hdlen,
      sizeofMINIDUMP_HEADER, sizeofMINIDUMP_DIRECTORY]
  have hview : A.bytes.length ≠ 0 := by
    rw [Artifact.length_bytes]
    omega
  have htake : (A.bytes.drop (sizeofMINIDUMP_HEADER + sizeofMINIDUMP_DIRECTORY
          * (xs ++ (MAYA_CRASH_INFO_STREAM_TYPE, p) :: ys).length
        + (concatPayloads xs).length)).take sizeofMayaCrashDumpInfo = p := by
    rw [hbytes, ← hpre, List.drop_left, ← hp, List.take_left]
  have hin : sizeofMINIDUMP_HEADER + sizeofMINIDUMP_DIRECTORY
          * (xs ++ (MAYA_CRASH_INFO_STREAM_TYPE, p) :: ys).length
        + (concatPayloads xs).length + sizeofMayaCrashDumpInfo ≤ A.bytes.length := by
    have hl : A.bytes.length
        = (encodeHeader A.header ++ encodeDirectory A.directory ++ concatPayloads xs).length
          + (p.length + (concatPayloads ys).length) := by
      rw [hbytes, List.length_append, List.length_append p]
    rw [hl, hpre, hp]
    omega
  unfold parseAndPrintCustomStreamFromMiniDump
  simp only [if_neg hview, hlookup]
  rw [if_neg (by simp), if_pos hin, htake]

/-- C3 (round trip): for every record held in `gMayaCrashDumpInfo` and every dump written by
the fault handler through `MiniDumpWriteDump` (whatever system streams the platform adds, as long
as they carry predefined types and the file stays below 4 GiB), the standalone reader finds the
application-tag stream, accepts its declared size `sizeof(MayaCrashDumpInfo)` and reports exactly
the eight field values that the record in memory holds. -/
theorem dump_round_trip (sys : SystemPart) (g : Diag)
    (hsys : ∀ s ∈ sys.streams, s.1 ≤ LastReservedStream)
    (hsize : (MiniDumpWriteDump sys (dumpUserStreams g)).bytes.length < 2 ^ 32) :
    parseAndPrintCustomStreamFromMiniDump (some (MiniDumpWriteDump sys (dumpUserStreams g)).bytes)
      = ReadOutcome.report (readRecord (bytesOf g.gMayaCrashDumpInfo sizeofMayaCrashDumpInfo)) := by
  have hwf : (MiniDumpWriteDump sys (dumpUserStreams g)).WellFormed := by
    refine MiniDumpWriteDump_wellFormed sys _ (fun s hs => ?_) (fun u hu => ?_) hsize
    · have := hsys s hs
      simp only [LastReservedStream] at this
      omega
    · simp only [dumpUserStreams, List.mem_cons, List.mem_singleton, List.not_mem_nil,
        or_false] at hu
      rcases hu with rfl | rfl | rfl | rfl <;>
        simp only [CommentStreamA, MAYA_CRASH_INFO_STREAM_TYPE, LastReservedStream] <;> omega
  have hxs : ∀ x ∈ sys.streams ++
      [(CommentStreamA, bytesOf g.gMayaCurrentScenePath MAX_PATH),
       (CommentStreamA, bytesOf g.gMayaTimingInfoBlk MAYA_MINIDUMP_TIMING_INFO_BLK_SIZE),
       (CommentStreamA, bytesOf g.gMayaMELCmdInfoBlk MAYA_MINIDUMP_MEL_CMD_INFO_BLK_SIZE)],
      x.1 ≠ MAYA_CRASH_INFO_STREAM_TYPE := by
    intro x hx
    rcases List.mem_append.1 hx with h | h
    · have := hsys x h
      simp only [MAYA_CRASH_INFO_STREAM_TYPE]
      omega
    · simp only [List.mem_cons, List.mem_singleton, List.not_mem_nil, or_false] at h
      rcases h with rfl | rfl | rfl <;>
        simp only [CommentStreamA, MAYA_CRASH_INFO_STREAM_TYPE, LastReservedStream] <;> omega
  refine parse_placed_record _ _ [] _ hxs (length_bytesOf _ _) ?_ ?_ hwf
  · simp only [MiniDumpWriteDump, dump_streams_eq]
  · simp only [MiniDumpWriteDump, dump_streams_eq]

/-- Witness for `dump_round_trip`: a dump with one system stream written from an all-zero
diagnostics context. -/
theorem dump_round_trip_witness :
    parseAndPrintCustomStreamFromMiniDump (some (MiniDumpWriteDump
        { Version := 42899, CheckSum := 0, TimeDateStamp := 0, Flags := 0,
          streams := [(3, [1, 2, 3])] }
        (dumpUserStreams ⟨fun _ => 0, fun _ => 0, fun _ => 0, fun _ => 0⟩)).bytes)
      = ReadOutcome.report (readRecord (bytesOf (fun _ => 0) sizeofMayaCrashDumpInfo)) :=
  dump_round_trip
    { Version := 42899, CheckSum := 0, TimeDateStamp := 0, Flags := 0,
      streams := [(3, [1, 2, 3])] }
    ⟨fun _ => 0, fun _ => 0, fun _ => 0, fun _ => 0⟩
    (by simp [LastReservedStream])
    (by
      rw [Artifact.length_bytes]
      simp only [MiniDumpWriteDump, length_placeStreams, concatPayloads_append, concatPayloads,
        dumpUserStreams, length_bytesOf, List.map, List.length_append, List.length_cons,
        List.length_nil, MAX_PATH, MAYA_MINIDUMP_TIMING_INFO_BLK_SIZE,
        MAYA_MINIDUMP_MEL_CMD_INFO_BLK_SIZE, sizeof_eq]
      norm_num)

/-- C5 (missing stream): for every artifact whose directory holds no entry with the application
tag, the platform lookup used by the standalone reader returns not-found after examining at most
`streamCount` entries and the reader prints the stream-not-found line, which is neither the
size-mismatch nor the open-failure outcome and carries no record; the debugger command reads
each of the `streamCount` directory entries once and prints nothing at all (no record, no
size-mismatch line, no open-failure line). -/
theorem lookup_without_application_stream (a : Artifact) (pBuf : List Nat) (ha : a.WellFormed)
    (hno : ∀ d ∈ a.directory, d.StreamType ≠ MAYA_CRASH_INFO_STREAM_TYPE) :
    (MiniDumpReadDumpStream a.bytes MAYA_CRASH_INFO_STREAM_TYPE).1 = StreamLookup.notFound
      ∧ (MiniDumpReadDumpStream a.bytes MAYA_CRASH_INFO_STREAM_TYPE).2 ≤ a.directory.length
      ∧ parseAndPrintCustomStreamFromMiniDump (some a.bytes) = ReadOutcome.streamNotFound
      ∧ ReadOutcome.streamNotFound ≠ ReadOutcome.sizeMismatch
      ∧ ReadOutcome.streamNotFound ≠ ReadOutcome.openFailed
      ∧ (readMayaDumpStreamsOn (some a.bytes) pBuf).1 = []
      ∧ (readMayaDumpStreamsOn (some a.bytes) pBuf).2 = a.directory.length := by
  have hfind : a.directory.find? (fun d => decide (d.StreamType = MAYA_CRASH_INFO_STREAM_TYPE))
      = none := by
    rw [List.find?_eq_none]
    intro d hd
    simpa using hno d hd
  have hlookup := MiniDumpReadDumpStream_artifact a ha MAYA_CRASH_INFO_STREAM_TYPE
  rw [hfind] at hlookup
  have hview : a.bytes.length ≠ 0 := by
    rw [Artifact.length_bytes]
    omega
  have hloop := readMayaDumpStreamsLoop_no_record a.directory (encodeHeader a.header) a.payload
    (encodeHeader a.header ++ pBuf.drop 32) ha.2 (fun d hd h => absurd h (hno d hd))
  rw [← Artifact.bytes_eq, length_encodeHeader] at hloop
  have hfilter : a.directory.filter
      (fun d => decide (d.StreamType = MAYA_CRASH_INFO_STREAM_TYPE)) = [] := by
    rw [List.filter_eq_nil_iff]
    intro d hd
    simpa using hno d hd
  rw [hfilter] at hloop
  refine ⟨hlookup, MiniDumpReadDumpStream_examined_le a ha _, ?_, by decide, by decide, ?_, ?_⟩
  · unfold parseAndPrintCustomStreamFromMiniDump
    simp only [if_neg hview, hlookup]
  · rw [readMayaDumpStreamsOn_artifact a ha, hloop]
    rfl
  · rw [readMayaDumpStreamsOn_artifact a ha, hloop]

/-- Witness for `lookup_without_application_stream`: an artifact with two predefined streams. -/
theorem lookup_without_application_stream_witness :
    parseAndPrintCustomStreamFromMiniDump (some (Artifact.bytes
        { Version := 42899, CheckSum := 0, TimeDateStamp := 0, Flags := 0,
          directory := [⟨10, 3, 56⟩, ⟨3, 2, 59⟩], payload := [65, 66, 0, 7, 7] }))
        = ReadOutcome.streamNotFound
      ∧ (readMayaDumpStreamsOn (some (Artifact.bytes
        { Version := 42899, CheckSum := 0, TimeDateStamp := 0, Flags := 0,
          directory := [⟨10, 3, 56⟩, ⟨3, 2, 59⟩], payload := [65, 66, 0, 7, 7] })) []).1 = [] :=
  have h := lookup_without_application_stream
    { Version := 42899, CheckSum := 0, TimeDateStamp := 0, Flags := 0,
      directory := [⟨10, 3, 56⟩, ⟨3, 2, 59⟩], payload := [65, 66, 0, 7, 7] } []
    (by simp [Artifact.WellFormed]) (by simp [MAYA_CRASH_INFO_STREAM_TYPE, LastReservedStream])
  ⟨h.2.2.1, h.2.2.2.2.2.1⟩

/-- C6: on a first invocation (flag clear), if file creation fails the handler returns
`EXCEPTION_CONTINUE_SEARCH` without calling `MiniDumpWriteDump`; if creation succeeds and the
write fails it returns `EXCEPTION_CONTINUE_SEARCH`; if the write succeeds it returns
`EXCEPTION_EXECUTE_HANDLER`; and it returns `EXCEPTION_EXECUTE_HANDLER` only when the file was
created and the one write it attempted succeeded. -/
theorem first_invocation_outcome (env : FaultEnv) (g : Diag) :
    (env.createFileOk (filterDumpFilePath env.TEMP) = false →
        (mayaCustomUnhandledExceptionFilter env g false).1 = EXCEPTION_CONTINUE_SEARCH
          ∧ writeAttempts (mayaCustomUnhandledExceptionFilter env g false).2 = 0)
      ∧ (env.createFileOk (filterDumpFilePath env.TEMP) = true → env.dumpWritten = false →
        (mayaCustomUnhandledExceptionFilter env g false).1 = EXCEPTION_CONTINUE_SEARCH)
      ∧ (env.createFileOk (filterDumpFilePath env.TEMP) = true → env.dumpWritten = true →
        (mayaCustomUnhandledExceptionFilter env g false).1 = EXCEPTION_EXECUTE_HANDLER)
      ∧ ((mayaCustomUnhandledExceptionFilter env g false).1 = EXCEPTION_EXECUTE_HANDLER →
        env.createFileOk (filterDumpFilePath env.TEMP) = true ∧ env.dumpWritten = true
          ∧ writeAttempts (mayaCustomUnhandledExceptionFilter env g false).2 = 1) := by
  unfold mayaCustomUnhandledExceptionFilter
  cases hc : env.createFileOk (filterDumpFilePath env.TEMP) <;>
    cases hw : env.dumpWritten <;>
    simp [hc, hw, writeAttempts, EXCEPTION_CONTINUE_SEARCH, EXCEPTION_EXECUTE_HANDLER]

/-- Witness for `first_invocation_outcome`: file creation fails. -/
theorem first_invocation_outcome_witness :
    (mayaCustomUnhandledExceptionFilter
        ⟨none, fun _ => false, true, ⟨0, 0, 0, 0, []⟩⟩
        ⟨fun _ => 0, fun _ => 0, fun _ => 0, fun _ => 0⟩ false).1 = EXCEPTION_CONTINUE_SEARCH
      ∧ writeAttempts (mayaCustomUnhandledExceptionFilter
        ⟨none, fun _ => false, true, ⟨0, 0, 0, 0, []⟩⟩
        ⟨fun _ => 0, fun _ => 0, fun _ => 0, fun _ => 0⟩ false).2 = 0 :=
  (first_invocation_outcome
    ⟨none, fun _ => false, true, ⟨0, 0, 0, 0, []⟩⟩
    ⟨fun _ => 0, fun _ => 0, fun _ => 0, fun _ => 0⟩).1 rfl

/-- A notification that runs alone through the program points of `stepPc` ends with the outcome
and the number of write attempts of `mayaCustomVectoredExceptionHandler`, with the flag set. -/
theorem overlap_first_alone (env : FaultEnv) (g : Diag) (flag : Bool) (second : Pc) :
    Overlap.run env ⟨flag, 0, .entry, second⟩ [false, false, false, false]
      = ⟨(mayaCustomVectoredExceptionHandler env g flag).2.2,
          writeAttempts (mayaCustomVectoredExceptionHandler env g flag).2.1,
          .done (mayaCustomVectoredExceptionHandler env g flag).1, second⟩ := by
  unfold mayaCustomVectoredExceptionHandler mayaCustomUnhandledExceptionFilter
  cases flag <;> cases hc : env.createFileOk (filterDumpFilePath env.TEMP) <;>
    cases hw : env.dumpWritten <;>
    simp [Overlap.run, Overlap.step, stepPc, hc, hw, writeAttempts]

/-- C7, the claim at a concrete schedule: with file creation and the write succeeding, the
first notification passes the guard and starts its write, the second notification then enters
and finds `gHandlerCalled` still clear (it is stored only at line 317, after the filter has
returned), and after both have run to completion two writes have been started; the second
notification's `EXCEPTION_EXECUTE_HANDLER` comes from its own write. -/
theorem overlapping_notifications_write_twice :
    Overlap.run ⟨none, fun _ => true, true, ⟨0, 0, 0, 0, []⟩⟩ Overlap.init [false, false, true]
        = ⟨false, 1, .writing, .passedGuard⟩
      ∧ Overlap.run ⟨none, fun _ => true, true, ⟨0, 0, 0, 0, []⟩⟩ Overlap.init
          [false, false, true, false, false, true, true, true]
        = ⟨true, 2, .done EXCEPTION_EXECUTE_HANDLER, .done EXCEPTION_EXECUTE_HANDLER⟩
      ∧ (2 : Nat) ≠ 1 := by
  refine ⟨?_, ?_, by decide⟩ <;>
    simp [Overlap.run, Overlap.step, stepPc, Overlap.init, EXCEPTION_EXECUTE_HANDLER]

/-- C7 as amended: whatever the platform calls do, once the first notification's run of the
priority hook has returned (so line 317 has set `gHandlerCalled`), a second notification that
enters then starts no write, so at most one write is started in total, and its outcome is
`EXCEPTION_EXECUTE_HANDLER`. -/
theorem second_notification_after_return (env : FaultEnv) :
    (Overlap.run env Overlap.init [false, false, false, false]).gHandlerCalled = true
      ∧ (Overlap.run env Overlap.init [false, false, false, false]).writesStarted ≤ 1
      ∧ (Overlap.run env Overlap.init [false, false, false, false, true, true]).writesStarted
          = (Overlap.run env Overlap.init [false, false, false, false]).writesStarted
      ∧ (Overlap.run env Overlap.init [false, false, false, false, true, true]).second
          = .done EXCEPTION_EXECUTE_HANDLER := by
  cases hc : env.createFileOk (filterDumpFilePath env.TEMP) <;>
    cases hw : env.dumpWritten <;>
    simp [Overlap.run, Overlap.step, stepPc, Overlap.init, hc, hw]
/-! ## Output path resolution -/

theorem getD_bytesOf (m : Mem) (n i : Nat) :
    (bytesOf m n).getD i 0 = if i < n then m i else 0 := by
  unfold bytesOf
  rw [List.getD_eq_getElem?_getD, List.getElem?_map]
  by_cases h : i < n
  · rw [List.getElem?_range h, if_pos h]
    rfl
  · rw [List.getElem?_eq_none (by simpa using h), if_neg h]
    rfl

theorem take_bytesOf (m : Mem) (n cap : Nat) (h : n ≤ cap) :
    (bytesOf m cap).take n = bytesOf m n := by
  unfold bytesOf
  rw [← List.map_take, List.take_range, Nat.min_eq_left h]

theorem bytesOf_congr (m m' : Mem) (n : Nat) (h : ∀ i, i < n → m i = m' i) :
    bytesOf m n = bytesOf m' n := by
  unfold bytesOf
  exact List.map_congr_left (fun i hi => h i (List.mem_range.1 hi))

theorem bytesOf_getD (src : List Nat) (n : Nat) (h : n ≤ src.length) :
    bytesOf (fun i => src.getD i 0) n = src.take n := by
  apply List.ext_getElem
  · rw [length_bytesOf, List.length_take, Nat.min_eq_left h]
  · intro i h1 h2
    rw [length_bytesOf] at h1
    simp only [bytesOf, List.getElem_map, List.getElem_range, List.getElem_take]
    rw [List.getD_eq_getElem?_getD, List.getElem?_eq_getElem (by omega)]
    rfl

theorem strlen_eq_of_getD (l : List Nat) (n : Nat) (h : ∀ i, i < n → l.getD i 0 ≠ 0)
    (hn : l.getD n 0 = 0) : strlen l = n := by
  induction l generalizing n with
  | nil =>
    cases n with
    | zero => rfl
    | succ k => exact absurd (by simp) (h 0 (by omega))
  | cons c t ih =>
    cases n with
    | zero =>
      have : c = 0 := by simpa using hn
      simp [strlen, this]
    | succ k =>
      have hc : c ≠ 0 := by simpa using h 0 (by omega)
      rw [strlen, if_neg hc, ih k (fun i hi => by simpa using h (i + 1) (by omega))
        (by simpa using hn)]

/-- The C string read back from a buffer of `cap` bytes after `memcpy(buf, src, n)` and
`memset(buf + n, 0, 1)` with `n` at most the length of the string `src` and below `cap`. -/
theorem cstr_bytesOf_stored (m : Mem) (src : List Nat) (n cap : Nat) (hn : n ≤ strlen src)
    (hcap : n < cap) :
    cstr (bytesOf (memset (memcpy m 0 src n) n 0 1) cap) = src.take n := by
  have hlen : strlen (bytesOf (memset (memcpy m 0 src n) n 0 1) cap) = n := by
    apply strlen_eq_of_getD
    · intro i hi
      rw [getD_bytesOf, if_pos (by omega), memset_apply, if_neg (by omega), memcpy_apply,
        if_pos (by omega)]
      exact getD_ne_zero_of_lt_strlen src _ (by omega)
    · rw [getD_bytesOf, if_pos hcap, memset_apply, if_pos (by omega)]
  unfold cstr
  rw [hlen, take_bytesOf _ _ _ (by omega),
    bytesOf_congr _ (fun i => src.getD i 0) n (fun i hi => by
      rw [memset_apply, if_neg (by omega), memcpy_apply, if_pos (by omega)]
      rfl)]
  exact bytesOf_getD src n (Nat.le_trans hn (strlen_le_length src))

theorem cstr_bytesOf_snprintf (m : Mem) (text : List Nat) (cap : Nat) (hcap : 0 < cap) :
    cstr (bytesOf (snprintf m cap text) cap) = text.take (min (strlen text) (cap - 1)) := by
  unfold snprintf
  rw [if_neg (by omega)]
  exact cstr_bytesOf_stored m text _ cap (Nat.min_le_left _ _)
    (by have := Nat.min_le_right (strlen text) (cap - 1); omega)

theorem cstr_of_head_zero (m : Mem) (cap : Nat) (h : m 0 = 0) : cstr (bytesOf m cap) = [] := by
  have : strlen (bytesOf m cap) = 0 := by
    apply strlen_eq_of_getD
    · intro i hi
      omega
    · rw [getD_bytesOf]
      split
      · exact h
      · rfl
  unfold cstr
  rw [this, List.take_zero]

theorem strlen_cstr (l : List Nat) : strlen (cstr l) = strlen l := by
  unfold cstr
  induction l with
  | nil => rfl
  | cons c t ih =>
    by_cases hc : c = 0
    · simp [strlen, hc]
    · rw [strlen, if_neg hc, List.take_succ_cons, strlen, if_neg hc, ih]

theorem length_cstr (l : List Nat) : (cstr l).length = strlen l := by
  unfold cstr
  rw [List.length_take, Nat.min_eq_left (strlen_le_length l)]

theorem strlen_append (a b : List Nat) (ha : strlen a = a.length) :
    strlen (a ++ b) = a.length + strlen b := by
  induction a with
  | nil => simp
  | cons c t ih =>
    by_cases hc : c = 0
    · simp [strlen, hc] at ha
    · rw [strlen, if_neg hc] at ha
      rw [List.cons_append, strlen, if_neg hc, ih (by simpa using ha), List.length_cons]
      omega

theorem strlen_file_name : strlen MINIDUMP_FILE_NAME = 23 := by decide
theorem length_file_name : MINIDUMP_FILE_NAME.length = 23 := by decide
theorem cstr_file_name : cstr MINIDUMP_FILE_NAME = MINIDUMP_FILE_NAME := by decide
theorem strlen_default_dir : strlen DEFAULT_TEMP_DIRECTORY = 7 := by decide
theorem take_min_length (l : List Nat) (n : Nat) : l.take (min l.length n) = l.take n := by
  by_cases h : l.length ≤ n
  · rw [Nat.min_eq_left h, List.take_of_length_le (Nat.le_refl _), List.take_of_length_le h]
  · rw [Nat.min_eq_right (by omega)]

/-- The path composed by `snprintf(dumpFilePath, MAX_PATH, "%s\\%s", dir, MINIDUMP_FILE_NAME)`
for a directory string without NUL. -/
theorem cstr_snprintf_path (dir : List Nat) (hdir : strlen dir = dir.length) :
    cstr (bytesOf (snprintf (fun _ => 0) MAX_PATH
        (dir ++ [backslash] ++ cstr MINIDUMP_FILE_NAME)) MAX_PATH)
      = (dir ++ [backslash] ++ MINIDUMP_FILE_NAME).take (MAX_PATH - 1) := by
  rw [cstr_bytesOf_snprintf _ _ _ (by decide), cstr_file_name]
  have h1 : strlen (dir ++ [backslash] ++ MINIDUMP_FILE_NAME)
      = (dir ++ [backslash] ++ MINIDUMP_FILE_NAME).length := by
    rw [List.append_assoc, strlen_append _ _ hdir, List.length_append]
    congr 1
  rw [h1, take_min_length]

/-- Path resolved when the variable is missing or empty. -/
theorem filterDumpFilePath_default (TEMP : Option (List Nat))
    (h : TEMP = none ∨ ∃ v, TEMP = some v ∧ strlen v = 0) :
    filterDumpFilePath TEMP = DEFAULT_TEMP_DIRECTORY ++ [backslash] ++ MINIDUMP_FILE_NAME := by
  have henv : (GetEnvironmentVariable TEMP (fun _ => 0) MAX_PATH).1 = 0 := by
    rcases h with rfl | ⟨v, rfl, hv⟩
    · rfl
    · simp only [GetEnvironmentVariable, hv]
      rfl
  unfold filterDumpFilePath
  simp only [henv, if_true]
  rw [cstr_bytesOf_stored _ _ _ _ (Nat.le_refl _) (by decide),
    cstr_snprintf_path _ (by decide)]
  decide

/-- Path resolved when the value fits the `MAX_PATH` buffer. -/
theorem filterDumpFilePath_value (v : List Nat) (h0 : 0 < strlen v) (h1 : strlen v < MAX_PATH) :
    filterDumpFilePath (some v)
      = (cstr v ++ [backslash] ++ MINIDUMP_FILE_NAME).take (MAX_PATH - 1) := by
  unfold filterDumpFilePath
  simp only [GetEnvironmentVariable, if_pos h1, if_neg (Nat.pos_iff_ne_zero.1 h0)]
  rw [cstr_bytesOf_stored _ _ _ _ (Nat.le_refl _) h1]
  exact cstr_snprintf_path _ (by
    have := length_cstr v
    have := strlen_cstr v
    unfold cstr at *
    omega)

/-- Path resolved when the value does not fit the `MAX_PATH` buffer. -/
theorem filterDumpFilePath_long (v : List Nat) (h : MAX_PATH ≤ strlen v) :
    filterDumpFilePath (some v) = [backslash] ++ MINIDUMP_FILE_NAME := by
  unfold filterDumpFilePath
  simp only [GetEnvironmentVariable, if_neg (Nat.not_lt.2 h), Nat.succ_ne_zero, if_false]
  rw [cstr_of_head_zero (fun _ => 0) MAX_PATH rfl]
  have := cstr_snprintf_path [] rfl
  simp only [List.nil_append] at this ⊢
  rw [this]
  decide

/-- C8, the claim at a value that does not fit the buffer: with `TEMP` set to 260 characters
`'a'`, `GetEnvironmentVariable` stores nothing, and the path resolved is
`"\\MayaCustomCrashDump.dmp"`, not the first `MAX_PATH - 1` characters of the value followed by
separator and file name. -/
theorem long_temp_value_not_used :
    filterDumpFilePath (some (List.replicate 260 97)) = [backslash] ++ MINIDUMP_FILE_NAME
      ∧ filterDumpFilePath (some (List.replicate 260 97))
          ≠ (List.replicate 260 97 ++ [backslash] ++ MINIDUMP_FILE_NAME).take (MAX_PATH - 1) := by
  have h := filterDumpFilePath_long (List.replicate 260 97)
    (by rw [strlen_replicate 260 97 (by decide)]; decide)
  refine ⟨h, ?_⟩
  rw [h]
  intro heq
  have hlen := congrArg List.length heq
  simp only [List.length_append, List.length_cons, List.length_nil, List.length_take,
    List.length_replicate, length_file_name, MAX_PATH] at hlen
  omega

/-- C8 as amended: for every value of `TEMP`, the fault handler, the standalone reader run
without arguments and the debugger command resolve the same path; it is
`"C:/temp\\MayaCustomCrashDump.dmp"` when the variable is missing or empty, and the value
followed by `"\\MayaCustomCrashDump.dmp"`, cut to `MAX_PATH - 1` characters, when the value is
non-empty and shorter than `MAX_PATH` characters. -/
theorem dump_path_resolution (TEMP : Option (List Nat)) :
    mainDumpFilePath TEMP = filterDumpFilePath TEMP
      ∧ extDumpFilePath TEMP = filterDumpFilePath TEMP
      ∧ ((TEMP = none ∨ ∃ v, TEMP = some v ∧ strlen v = 0) →
          filterDumpFilePath TEMP
            = DEFAULT_TEMP_DIRECTORY ++ [backslash] ++ MINIDUMP_FILE_NAME)
      ∧ (∀ v, TEMP = some v → 0 < strlen v → strlen v < MAX_PATH →
          filterDumpFilePath TEMP
            = (cstr v ++ [backslash] ++ MINIDUMP_FILE_NAME).take (MAX_PATH - 1)) := by
  refine ⟨rfl, rfl, filterDumpFilePath_default TEMP, ?_⟩
  intro v hv h0 h1
  rw [hv]
  exact filterDumpFilePath_value v h0 h1

/-- Witness for `dump_path_resolution`: `TEMP` is `D:\tmp`. -/
theorem dump_path_resolution_witness :
    filterDumpFilePath (some (ascii "D:\\tmp"))
      = (cstr (ascii "D:\\tmp") ++ [backslash] ++ MINIDUMP_FILE_NAME).take (MAX_PATH - 1) :=
  (dump_path_resolution (some (ascii "D:\\tmp"))).2.2.2 (ascii "D:\\tmp") rfl
    (by decide) (by decide)

/-! ## Import-table patcher -/

theorem patchThunks_of_split (cur new : Nat) (tpre tpost : List Nat) (hcur : cur ≠ 0)
    (hpre : ∀ f ∈ tpre, f ≠ 0 ∧ f ≠ cur) :
    patchThunks true cur new (tpre ++ cur :: tpost) = (true, tpre ++ new :: tpost) := by
  induction tpre with
  | nil => simp [patchThunks, hcur]
  | cons f t ih =>
    have hf := hpre f (List.mem_cons_self f t)
    have hrec := ih (fun x hx => hpre x (List.mem_cons_of_mem f hx))
    simp [patchThunks, hf.1, hf.2, hrec]

theorem patchThunks_true (ok : Bool) (cur new : Nat) (ts : List Nat)
    (h : (patchThunks ok cur new ts).1 = true) :
    ok = true ∧ ∃ tpre tpost, ts = tpre ++ cur :: tpost ∧ cur ≠ 0
      ∧ ∀ f ∈ tpre, f ≠ 0 ∧ f ≠ cur := by
  induction ts with
  | nil => simp [patchThunks] at h
  | cons f t ih =>
    unfold patchThunks at h
    by_cases hf0 : f = 0
    · simp [hf0] at h
    · by_cases hfc : f = cur
      · cases ok with
        | false => simp [hf0, hfc] at h
        | true => exact ⟨rfl, [], t, by simp [hfc], fun hc => hf0 (hfc.trans hc), by simp⟩
      · simp only [hf0, hfc, if_false] at h
        obtain ⟨hok, tpre, tpost, hts, hcur, hpre⟩ := ih h
        refine ⟨hok, f :: tpre, tpost, by simp [hts], hcur, ?_⟩
        intro x hx
        rcases List.mem_cons.1 hx with rfl | hx
        · exact ⟨hf0, hfc⟩
        · exact hpre x hx

theorem patchThunks_false (ok : Bool) (cur new : Nat) (ts : List Nat)
    (h : (patchThunks ok cur new ts).1 = false) : (patchThunks ok cur new ts).2 = ts := by
  induction ts with
  | nil => rfl
  | cons f t ih =>
    unfold patchThunks at h ⊢
    by_cases hf0 : f = 0
    · simp [hf0]
    · by_cases hfc : f = cur
      · cases ok with
        | false => simp [hf0, hfc]
        | true =>
          rw [if_neg hf0, if_pos hfc] at h
          simp at h
      · simp only [hf0, hfc, if_false] at h ⊢
        rw [ih h]

theorem patchDescriptors_of_split (ok : Bool) (callee : List Nat) (cur new : Nat)
    (pre post : List ImportDescriptor) (d : ImportDescriptor)
    (hpre : ∀ e ∈ pre, e.Name ≠ 0 ∧ e.Characteristics ≠ 0 ∧ stricmp e.importName callee ≠ 0)
    (hd : d.Name ≠ 0 ∧ d.Characteristics ≠ 0 ∧ stricmp d.importName callee = 0) :
    patchDescriptors ok callee cur new (pre ++ d :: post)
      = ((patchThunks ok cur new d.thunks).1,
          pre ++ { d with thunks := (patchThunks ok cur new d.thunks).2 } :: post) := by
  induction pre with
  | nil => simp [patchDescriptors, hd.1, hd.2.1, hd.2.2]
  | cons e t ih =>
    have he := hpre e (List.mem_cons_self e t)
    have hrec := ih (fun x hx => hpre x (List.mem_cons_of_mem e hx))
    simp [patchDescriptors, he.1, he.2.1, he.2.2, hrec]

theorem patchDescriptors_true (ok : Bool) (callee : List Nat) (cur new : Nat)
    (descs : List ImportDescriptor)
    (h : (patchDescriptors ok callee cur new descs).1 = true) :
    ∃ pre d post, descs = pre ++ d :: post
      ∧ (∀ e ∈ pre, e.Name ≠ 0 ∧ e.Characteristics ≠ 0 ∧ stricmp e.importName callee ≠ 0)
      ∧ (d.Name ≠ 0 ∧ d.Characteristics ≠ 0 ∧ stricmp d.importName callee = 0)
      ∧ (patchThunks ok cur new d.thunks).1 = true := by
  induction descs with
  | nil => simp [patchDescriptors] at h
  | cons e t ih =>
    unfold patchDescriptors at h
    by_cases hterm : e.Name = 0 ∨ e.Characteristics = 0
    · simp [hterm] at h
    · have hlive : e.Name ≠ 0 ∧ e.Characteristics ≠ 0 := by
        constructor
        · exact fun h0 => hterm (Or.inl h0)
        · exact fun h0 => hterm (Or.inr h0)
      by_cases hname : stricmp e.importName callee = 0
      · simp only [hterm, hname, if_true, if_false] at h
        exact ⟨[], e, t, rfl, by simp, ⟨hlive.1, hlive.2, hname⟩, h⟩
      · simp only [hterm, hname, if_false] at h
        obtain ⟨pre, d, post, hsplit, hpre, hd, hth⟩ := ih h
        refine ⟨e :: pre, d, post, by simp [hsplit], ?_, hd, hth⟩
        intro x hx
        rcases List.mem_cons.1 hx with rfl | hx
        · exact ⟨hlive.1, hlive.2, hname⟩
        · exact hpre x hx

/-- C9, the claim at a module with two descriptors for the same library: the second descriptor's
name equals `"kernel32.dll"` ignoring case and its thunk array contains the current target 5,
yet `patchOverIATEntryInOneModule` returns false, because the scan stops at the first
descriptor whose name matches and only that descriptor's thunks are searched. -/
theorem patch_first_matching_descriptor_only :
    (patchOverIATEntryInOneModule (ascii "kernel32.dll") 5 9
        ⟨some [⟨1, 100, ascii "KERNEL32.dll", [7]⟩, ⟨1, 300, ascii "kernel32.dll", [5]⟩],
          true⟩).1 = false
      ∧ ∃ d ∈ [(⟨1, 100, ascii "KERNEL32.dll", [7]⟩ : ImportDescriptor),
                ⟨1, 300, ascii "kernel32.dll", [5]⟩],
          stricmp d.importName (ascii "kernel32.dll") = 0 ∧ 5 ∈ d.thunks := by
  refine ⟨by decide, ⟨1, 300, ascii "kernel32.dll", [5]⟩, by simp, by decide, by simp⟩

/-- C9 as amended: for a module with an import table whose page-protection change succeeds,
`patchOverIATEntryInOneModule` returns true if and only if the first descriptor whose name
equals `calleeModName` ignoring case (`_stricmp`), among the descriptors before the first one
with a zero `Name` or zero `Characteristics`, exists and its thunk array contains
`pfnCurrent` before its zero terminator; in that case exactly the first such thunk becomes
`pfnNew`.  (So it returns false when no such descriptor or no such thunk exists.) -/
theorem patchOne_first_match (calleeModName : List Nat) (pfnCurrent pfnNew : Nat)
    (descs : List ImportDescriptor) :
    ((patchOverIATEntryInOneModule calleeModName pfnCurrent pfnNew ⟨some descs, true⟩).1 = true
        ↔ ∃ pre d post tpre tpost, descs = pre ++ d :: post
          ∧ (∀ e ∈ pre, e.Name ≠ 0 ∧ e.Characteristics ≠ 0
              ∧ stricmp e.importName calleeModName ≠ 0)
          ∧ (d.Name ≠ 0 ∧ d.Characteristics ≠ 0 ∧ stricmp d.importName calleeModName = 0)
          ∧ d.thunks = tpre ++ pfnCurrent :: tpost ∧ pfnCurrent ≠ 0
          ∧ ∀ f ∈ tpre, f ≠ 0 ∧ f ≠ pfnCurrent)
      ∧ ∀ pre d post tpre tpost, descs = pre ++ d :: post →
          (∀ e ∈ pre, e.Name ≠ 0 ∧ e.Characteristics ≠ 0
              ∧ stricmp e.importName calleeModName ≠ 0) →
          (d.Name ≠ 0 ∧ d.Characteristics ≠ 0 ∧ stricmp d.importName calleeModName = 0) →
          d.thunks = tpre ++ pfnCurrent :: tpost → pfnCurrent ≠ 0 →
          (∀ f ∈ tpre, f ≠ 0 ∧ f ≠ pfnCurrent) →
          (patchOverIATEntryInOneModule calleeModName pfnCurrent pfnNew ⟨some descs, true⟩).2
            = ⟨some (pre ++ { d with thunks := tpre ++ pfnNew :: tpost } :: post), true⟩ := by
  have key : ∀ pre d post tpre tpost, descs = pre ++ d :: post →
      (∀ e ∈ pre, e.Name ≠ 0 ∧ e.Characteristics ≠ 0
          ∧ stricmp e.importName calleeModName ≠ 0) →
      (d.Name ≠ 0 ∧ d.Characteristics ≠ 0 ∧ stricmp d.importName calleeModName = 0) →
      d.thunks = tpre ++ pfnCurrent :: tpost → pfnCurrent ≠ 0 →
      (∀ f ∈ tpre, f ≠ 0 ∧ f ≠ pfnCurrent) →
      patchOverIATEntryInOneModule calleeModName pfnCurrent pfnNew ⟨some descs, true⟩
        = (true, ⟨some (pre ++ { d with thunks := tpre ++ pfnNew :: tpost } :: post), true⟩) := by
    intro pre d post tpre tpost hsplit hpre hd hth hcur htpre
    simp only [patchOverIATEntryInOneModule, hsplit,
      patchDescriptors_of_split true calleeModName pfnCurrent pfnNew pre post d hpre hd, hth,
      patchThunks_of_split pfnCurrent pfnNew tpre tpost hcur htpre]
  refine ⟨⟨fun h => ?_, fun h => ?_⟩, fun pre d post tpre tpost h1 h2 h3 h4 h5 h6 => ?_⟩
  · simp only [patchOverIATEntryInOneModule] at h
    obtain ⟨pre, d, post, hsplit, hpre, hd, hth⟩ := patchDescriptors_true _ _ _ _ _ h
    obtain ⟨_, tpre, tpost, hts, hcur, htpre⟩ := patchThunks_true _ _ _ _ hth
    exact ⟨pre, d, post, tpre, tpost, hsplit, hpre, hd, hts, hcur, htpre⟩
  · obtain ⟨pre, d, post, tpre, tpost, h1, h2, h3, h4, h5, h6⟩ := h
    rw [key pre d post tpre tpost h1 h2 h3 h4 h5 h6]
  · rw [key pre d post tpre tpost h1 h2 h3 h4 h5 h6]

/-- Witness for `patchOne_first_match`: the second descriptor is the first one named
`kernel32.dll`; its second thunk is the current target. -/
theorem patchOne_first_match_witness :
    (patchOverIATEntryInOneModule (ascii "kernel32.dll") 5 9
        ⟨some [⟨1, 200, ascii "USER32.dll", [5, 11]⟩, ⟨1, 100, ascii "KERNEL32.dll", [7, 5, 8]⟩],
          true⟩).2
      = ⟨some [⟨1, 200, ascii "USER32.dll", [5, 11]⟩, ⟨1, 100, ascii "KERNEL32.dll", [7, 9, 8]⟩],
          true⟩ :=
  (patchOne_first_match (ascii "kernel32.dll") 5 9
      [⟨1, 200, ascii "USER32.dll", [5, 11]⟩, ⟨1, 100, ascii "KERNEL32.dll", [7, 5, 8]⟩]).2
    [⟨1, 200, ascii "USER32.dll", [5, 11]⟩] ⟨1, 100, ascii "KERNEL32.dll", [7, 5, 8]⟩ [] [7] [8]
    rfl (by decide) (by decide) rfl (by decide) (by decide)

/-- The module loop calls the per-module patch on every module, in order. -/
theorem patchModulesLoop_eq_map (callee : List Nat) (cur new : Nat) (modules : List Module) :
    patchModulesLoop callee cur new modules
      = (modules.map (fun m => (patchOverIATEntryInOneModule callee cur new m).2),
          modules.map (fun m => (patchOverIATEntryInOneModule callee cur new m).1)) := by
  induction modules with
  | nil => rfl
  | cons m t ih => simp [patchModulesLoop, ih]

/-- C10: for every snapshot of loaded modules, `patchOverIATEntriesInAllModules` calls
`patchOverIATEntryInOneModule` exactly once on each module, in snapshot order, also on the
modules that follow one for which the call returned false (the list of call results has one
entry per module, and each module afterwards is what its own call left), and it returns true
whenever the enumeration succeeded, whatever the per-module results; it returns true as well
when the snapshot could not be taken. -/
theorem patchAll_sweeps_every_module (calleeModName : List Nat) (pfnCurrent pfnNew : Nat)
    (modules : List Module) :
    (patchOverIATEntriesInAllModules true calleeModName pfnCurrent pfnNew modules).1 = true
      ∧ (patchOverIATEntriesInAllModules true calleeModName pfnCurrent pfnNew modules).2.2
          = modules.map
              (fun m => (patchOverIATEntryInOneModule calleeModName pfnCurrent pfnNew m).1)
      ∧ (patchOverIATEntriesInAllModules true calleeModName pfnCurrent pfnNew modules).2.1
          = modules.map
              (fun m => (patchOverIATEntryInOneModule calleeModName pfnCurrent pfnNew m).2)
      ∧ (patchOverIATEntriesInAllModules false calleeModName pfnCurrent pfnNew modules).1
          = true := by
  simp [patchOverIATEntriesInAllModules, patchModulesLoop_eq_map]
/-! ## Import-table patcher: repeated and reversed patches -/

theorem patchThunks_not_mem (ok : Bool) (cur new : Nat) (ts : List Nat) (h : cur ∉ ts) :
    patchThunks ok cur new ts = (false, ts) := by
  induction ts with
  | nil => rfl
  | cons f t ih =>
    have hf : f ≠ cur := fun e => h (e ▸ List.mem_cons_self f t)
    have ht : cur ∉ t := fun e => h (List.mem_cons_of_mem f e)
    unfold patchThunks
    by_cases hf0 : f = 0
    · simp [hf0]
    · simp [hf0, hf, ih ht]

/-- Patching a thunk array again with the same arguments changes nothing when the current
target occurred at most once. -/
theorem patchThunks_again (ok : Bool) (cur new : Nat) (ts : List Nat) (h : ts.count cur ≤ 1) :
    (patchThunks ok cur new (patchThunks ok cur new ts).2).2 = (patchThunks ok cur new ts).2 := by
  induction ts with
  | nil => rfl
  | cons f t ih =>
    by_cases hf0 : f = 0
    · simp [patchThunks, hf0]
    · by_cases hfc : f = cur
      · subst hfc
        have ht : f ∉ t := by
          intro hm
          have := List.count_pos_iff.2 hm
          simp only [List.count_cons_self] at h
          omega
        cases ok with
        | false => simp [patchThunks, hf0]
        | true =>
          simp only [patchThunks, hf0, if_false, if_true]
          by_cases hn0 : new = 0
          · simp [patchThunks, hn0]
          · by_cases hnf : new = f
            · simp [patchThunks, hn0, hnf, hf0]
            · simp [patchThunks, hn0, hnf, patchThunks_not_mem true f new t ht]
      · have hc : t.count cur ≤ 1 := by
          rw [List.count_cons_of_ne (fun e => hfc e.symm)] at h
          exact h
        simp only [patchThunks, hf0, hfc, if_false]
        rw [ih hc]

/-- Patching back with the targets swapped restores a thunk array that did not hold the new
target. -/
theorem patchThunks_undo (ok : Bool) (cur new : Nat) (ts : List Nat) (hnew : new ≠ 0)
    (h : new ∉ ts) : (patchThunks ok new cur (patchThunks ok cur new ts).2).2 = ts := by
  induction ts with
  | nil => rfl
  | cons f t ih =>
    have hfn : f ≠ new := fun e => h (e ▸ List.mem_cons_self f t)
    have ht : new ∉ t := fun e => h (List.mem_cons_of_mem f e)
    by_cases hf0 : f = 0
    · simp [patchThunks, hf0]
    · by_cases hfc : f = cur
      · subst hfc
        cases ok with
        | false => simp [patchThunks, hf0, hfn, patchThunks_not_mem false new f t ht]
        | true => simp [patchThunks, hf0, hnew]
      · simp only [patchThunks, hf0, hfc, hfn, if_false]
        rw [ih ht]

theorem patchDescriptors_false (ok : Bool) (callee : List Nat) (cur new : Nat)
    (descs : List ImportDescriptor) (h : (patchDescriptors ok callee cur new descs).1 = false) :
    (patchDescriptors ok callee cur new descs).2 = descs := by
  induction descs with
  | nil => rfl
  | cons e t ih =>
    unfold patchDescriptors at h ⊢
    by_cases hterm : e.Name = 0 ∨ e.Characteristics = 0
    · simp [hterm]
    · by_cases hname : stricmp e.importName callee = 0
      · simp only [hterm, hname, if_true, if_false] at h ⊢
        rw [patchThunks_false ok cur new e.thunks h]
      · simp only [hterm, hname, if_false] at h ⊢
        rw [ih h]

theorem patchDescriptors_again (ok : Bool) (callee : List Nat) (cur new : Nat)
    (descs : List ImportDescriptor) (h : ∀ d ∈ descs, d.thunks.count cur ≤ 1) :
    (patchDescriptors ok callee cur new (patchDescriptors ok callee cur new descs).2).2
      = (patchDescriptors ok callee cur new descs).2 := by
  induction descs with
  | nil => rfl
  | cons e t ih =>
    by_cases hterm : e.Name = 0 ∨ e.Characteristics = 0
    · simp [patchDescriptors, hterm]
    · by_cases hname : stricmp e.importName callee = 0
      · simp only [patchDescriptors, hterm, hname, if_true, if_false]
        rw [patchThunks_again ok cur new e.thunks (h e (List.mem_cons_self e t))]
      · simp only [patchDescriptors, hterm, hname, if_false]
        rw [ih (fun d hd => h d (List.mem_cons_of_mem e hd))]

theorem patchDescriptors_undo (ok : Bool) (callee : List Nat) (cur new : Nat)
    (descs : List ImportDescriptor) (hnew : new ≠ 0) (h : ∀ d ∈ descs, new ∉ d.thunks) :
    (patchDescriptors ok callee new cur (patchDescriptors ok callee cur new descs).2).2
      = descs := by
  induction descs with
  | nil => rfl
  | cons e t ih =>
    by_cases hterm : e.Name = 0 ∨ e.Characteristics = 0
    · simp [patchDescriptors, hterm]
    · by_cases hname : stricmp e.importName callee = 0
      · simp only [patchDescriptors, hterm, hname, if_true, if_false]
        rw [patchThunks_undo ok cur new e.thunks hnew (h e (List.mem_cons_self e t))]
      · simp only [patchDescriptors, hterm, hname, if_false]
        rw [ih (fun d hd => h d (List.mem_cons_of_mem e hd))]

theorem patchOne_again (callee : List Nat) (cur new : Nat) (m : Module)
    (h : ∀ descs, m.imports = some descs → ∀ d ∈ descs, d.thunks.count cur ≤ 1) :
    (patchOverIATEntryInOneModule callee cur new
        (patchOverIATEntryInOneModule callee cur new m).2).2
      = (patchOverIATEntryInOneModule callee cur new m).2 := by
  obtain ⟨imports, ok⟩ := m
  cases imports with
  | none => rfl
  | some descs =>
    simp only [patchOverIATEntryInOneModule]
    rw [patchDescriptors_again ok callee cur new descs (h descs rfl)]

theorem patchOne_undo (callee : List Nat) (cur new : Nat) (m : Module) (hnew : new ≠ 0)
    (h : ∀ descs, m.imports = some descs → ∀ d ∈ descs, new ∉ d.thunks) :
    (patchOverIATEntryInOneModule callee new cur
        (patchOverIATEntryInOneModule callee cur new m).2).2 = m := by
  obtain ⟨imports, ok⟩ := m
  cases imports with
  | none => rfl
  | some descs =>
    simp only [patchOverIATEntryInOneModule]
    rw [patchDescriptors_undo ok callee cur new descs hnew (h descs rfl)]

theorem patchAll_modules (snapshotOk : Bool) (callee : List Nat) (cur new : Nat)
    (modules : List Module) :
    (patchOverIATEntriesInAllModules snapshotOk callee cur new modules).2.1
      = if snapshotOk = false then modules
        else modules.map (fun m => (patchOverIATEntryInOneModule callee cur new m).2) := by
  cases snapshotOk <;> simp [patchOverIATEntriesInAllModules, patchModulesLoop_eq_map]

theorem patchAll_again (snapshotOk : Bool) (callee : List Nat) (cur new : Nat)
    (modules : List Module)
    (h : ∀ m ∈ modules, ∀ descs, m.imports = some descs → ∀ d ∈ descs,
      d.thunks.count cur ≤ 1) :
    (patchOverIATEntriesInAllModules snapshotOk callee cur new
        (patchOverIATEntriesInAllModules snapshotOk callee cur new modules).2.1).2.1
      = (patchOverIATEntriesInAllModules snapshotOk callee cur new modules).2.1 := by
  rw [patchAll_modules, patchAll_modules]
  cases snapshotOk with
  | false => rfl
  | true =>
    simp only [Bool.true_eq_false, if_false, List.map_map]
    exact List.map_congr_left (fun m hm => patchOne_again callee cur new m (h m hm))

theorem patchAll_undo (snapshotOk : Bool) (callee : List Nat) (cur new : Nat)
    (modules : List Module) (hnew : new ≠ 0)
    (h : ∀ m ∈ modules, ∀ descs, m.imports = some descs → ∀ d ∈ descs, new ∉ d.thunks) :
    (patchOverIATEntriesInAllModules snapshotOk callee new cur
        (patchOverIATEntriesInAllModules snapshotOk callee cur new modules).2.1).2.1
      = modules := by
  rw [patchAll_modules, patchAll_modules]
  cases snapshotOk with
  | false => rfl
  | true =>
    simp only [Bool.true_eq_false, if_false, List.map_map]
    have : modules.map ((fun m => (patchOverIATEntryInOneModule callee new cur m).2)
        ∘ fun m => (patchOverIATEntryInOneModule callee cur new m).2) = modules.map id :=
      List.map_congr_left (fun m hm => patchOne_undo callee cur new m hnew (h m hm))
    rw [this, List.map_id]

/-- C11, the claim at a thunk array that holds the current target twice: with `A = 5`,
`B = 9` and the array `[5, 5]`, the second `patchAll(A, B)` rewrites the second entry (a second
redirection), and `patchAll(B, A)` afterwards leaves `[5, 9]`, not the pre-patch `[5, 5]`. -/
theorem double_patch_redirects_twice :
    (patchOverIATEntriesInAllModules true (ascii "kernel32.dll") 5 9
        (patchOverIATEntriesInAllModules true (ascii "kernel32.dll") 5 9
          [⟨some [⟨1, 100, ascii "kernel32.dll", [5, 5]⟩], true⟩]).2.1).2.1
        = [⟨some [⟨1, 100, ascii "kernel32.dll", [9, 9]⟩], true⟩]
      ∧ (patchOverIATEntriesInAllModules true (ascii "kernel32.dll") 5 9
          [⟨some [⟨1, 100, ascii "kernel32.dll", [5, 5]⟩], true⟩]).2.1
        = [⟨some [⟨1, 100, ascii "kernel32.dll", [9, 5]⟩], true⟩]
      ∧ (patchOverIATEntriesInAllModules true (ascii "kernel32.dll") 9 5
          (patchOverIATEntriesInAllModules true (ascii "kernel32.dll") 5 9
            (patchOverIATEntriesInAllModules true (ascii "kernel32.dll") 5 9
              [⟨some [⟨1, 100, ascii "kernel32.dll", [5, 5]⟩], true⟩]).2.1).2.1).2.1
        = [⟨some [⟨1, 100, ascii "kernel32.dll", [5, 9]⟩], true⟩]
      ∧ ([⟨some [⟨1, 100, ascii "kernel32.dll", [5, 9]⟩], true⟩] : List Module)
        ≠ [⟨some [⟨1, 100, ascii "kernel32.dll", [5, 5]⟩], true⟩] := by
  refine ⟨by decide, by decide, by decide, by decide⟩

/-- C11 as amended: for every set of module import tables in which no thunk array holds the new
target `B` and none holds the current target `A` more than once, and for `B` non-null, applying
`patchAll(A, B)` twice and then `patchAll(B, A)` once (each sweep enumerating the modules, or
none of them doing so) leaves every import table equal to its pre-patch state, and the second
`patchAll(A, B)` changes no entry. -/
theorem patch_twice_then_reverse (snapshotOk : Bool) (calleeModName : List Nat) (A B : Nat)
    (modules : List Module) (hB : B ≠ 0)
    (h : ∀ m ∈ modules, ∀ descs, m.imports = some descs → ∀ d ∈ descs,
      B ∉ d.thunks ∧ d.thunks.count A ≤ 1) :
    (patchOverIATEntriesInAllModules snapshotOk calleeModName A B
        (patchOverIATEntriesInAllModules snapshotOk calleeModName A B modules).2.1).2.1
        = (patchOverIATEntriesInAllModules snapshotOk calleeModName A B modules).2.1
      ∧ (patchOverIATEntriesInAllModules snapshotOk calleeModName B A
          (patchOverIATEntriesInAllModules snapshotOk calleeModName A B
            (patchOverIATEntriesInAllModules snapshotOk calleeModName A B
              modules).2.1).2.1).2.1 = modules := by
  have h1 := patchAll_again snapshotOk calleeModName A B modules
    (fun m hm descs hd d hdd => (h m hm descs hd d hdd).2)
  refine ⟨h1, ?_⟩
  rw [h1]
  exact patchAll_undo snapshotOk calleeModName A B modules hB
    (fun m hm descs hd d hdd => (h m hm descs hd d hdd).1)

/-- Witness for `patch_twice_then_reverse`: two modules, one importing the target. -/
theorem patch_twice_then_reverse_witness :
    (patchOverIATEntriesInAllModules true (ascii "kernel32.dll") 9 5
        (patchOverIATEntriesInAllModules true (ascii "kernel32.dll") 5 9
          (patchOverIATEntriesInAllModules true (ascii "kernel32.dll") 5 9
            [⟨some [⟨1, 100, ascii "KERNEL32.dll", [7, 5, 8]⟩], true⟩,
              ⟨none, true⟩]).2.1).2.1).2.1
      = [⟨some [⟨1, 100, ascii "KERNEL32.dll", [7, 5, 8]⟩], true⟩, ⟨none, true⟩] :=
  (patch_twice_then_reverse true (ascii "kernel32.dll") 5 9
    [⟨some [⟨1, 100, ascii "KERNEL32.dll", [7, 5, 8]⟩], true⟩, ⟨none, true⟩]
    (by decide) (by decide)).2

/-- C17: one call of `patchOverIATEntryInOneModule` changes at most one thunk entry.  When it
returns false (no import table, no matching descriptor, no matching thunk, or the
page-protection change failed) the module is unchanged; when it returns true the module
afterwards differs from the module before only in the first entry equal to `pfnCurrent` of the
first descriptor whose name matches, which now holds `pfnNew`. -/
theorem patchOne_frame (calleeModName : List Nat) (pfnCurrent pfnNew : Nat) (m : Module) :
    ((patchOverIATEntryInOneModule calleeModName pfnCurrent pfnNew m).1 = false →
        (patchOverIATEntryInOneModule calleeModName pfnCurrent pfnNew m).2 = m)
      ∧ ((patchOverIATEntryInOneModule calleeModName pfnCurrent pfnNew m).1 = true →
        ∃ pre d post tpre tpost,
          m = ⟨some (pre ++ d :: post), true⟩
            ∧ (∀ e ∈ pre, e.Name ≠ 0 ∧ e.Characteristics ≠ 0
                ∧ stricmp e.importName calleeModName ≠ 0)
            ∧ (d.Name ≠ 0 ∧ d.Characteristics ≠ 0 ∧ stricmp d.importName calleeModName = 0)
            ∧ d.thunks = tpre ++ pfnCurrent :: tpost
            ∧ (∀ f ∈ tpre, f ≠ 0 ∧ f ≠ pfnCurrent)
            ∧ (patchOverIATEntryInOneModule calleeModName pfnCurrent pfnNew m).2
                = ⟨some (pre ++ { d with thunks := tpre ++ pfnNew :: tpost } :: post), true⟩) := by
  obtain ⟨imports, ok⟩ := m
  cases imports with
  | none => simp [patchOverIATEntryInOneModule]
  | some descs =>
    refine ⟨fun h => ?_, fun h => ?_⟩
    · simp only [patchOverIATEntryInOneModule] at h ⊢
      rw [patchDescriptors_false ok calleeModName pfnCurrent pfnNew descs h]
    · simp only [patchOverIATEntryInOneModule] at h
      obtain ⟨pre, d, post, hsplit, hpre, hd, hth⟩ := patchDescriptors_true _ _ _ _ _ h
      obtain ⟨hok, tpre, tpost, hts, hcur, htpre⟩ := patchThunks_true _ _ _ _ hth
      subst hok
      refine ⟨pre, d, post, tpre, tpost, by rw [hsplit], hpre, hd, hts, htpre, ?_⟩
      simp only [patchOverIATEntryInOneModule, hsplit,
        patchDescriptors_of_split true calleeModName pfnCurrent pfnNew pre post d hpre hd, hts,
        patchThunks_of_split pfnCurrent pfnNew tpre tpost hcur htpre]

/-- Witness for `patchOne_frame`: the page-protection change fails and the module stays as it
was. -/
theorem patchOne_frame_witness :
    (patchOverIATEntryInOneModule (ascii "kernel32.dll") 5 9
        ⟨some [⟨1, 100, ascii "KERNEL32.dll", [7, 5, 8]⟩], false⟩).2
      = ⟨some [⟨1, 100, ascii "KERNEL32.dll", [7, 5, 8]⟩], false⟩ :=
  (patchOne_frame (ascii "kernel32.dll") 5 9
    ⟨some [⟨1, 100, ascii "KERNEL32.dll", [7, 5, 8]⟩], false⟩).1 (by decide)
/-! ## Record layout -/

/-- C14: `MayaCrashDumpInfo` is packed: its fields lie, in declaration order, at byte offsets
0, 512, 1024, 1536, 1540, 1544, 1548 and 1550, each field starting where the previous one ends
(sizes 512, 512, 512, 4, 4, 4, 2, 1), and its size is 1551 bytes; this is the size the fault
handler declares for the application-tag stream, and a stream found with any other declared
size is rejected by the standalone reader and by the debugger command's loop. -/
theorem record_layout :
    (offLastDagParentName = 0 ∧ offLastDagChildName = 512 ∧ offLastDGNodeAddedName = 1024
        ∧ offVerAPI = 1536 ∧ offVerCustom = 1540 ∧ offVerMayaFile = 1544
        ∧ offLastDagMessage = 1548 ∧ offIsYUp = 1550 ∧ sizeofMayaCrashDumpInfo = 1551)
      ∧ sizeofMayaCrashDumpInfo = 512 + 512 + 512 + 4 + 4 + 4 + 2 + 1
      ∧ (∀ g : Diag, (dumpUserStreams g).map (fun u => (u.Type_, u.BufferSize))
          = [(CommentStreamA, 260), (CommentStreamA, 32), (CommentStreamA, 1024),
              (MAYA_CRASH_INFO_STREAM_TYPE, 1551)])
      ∧ (∀ (view : List Nat) (rva size : Nat), view.length ≠ 0 →
          (MiniDumpReadDumpStream view MAYA_CRASH_INFO_STREAM_TYPE).1
            = StreamLookup.found rva size →
          (parseAndPrintCustomStreamFromMiniDump (some view) = ReadOutcome.sizeMismatch
            ↔ size ≠ 1551))
      ∧ (∀ (f : FileHandle) (pBuf : List Nat) (k : Nat),
          fieldLE (ReadFile f pBuf sizeofMINIDUMP_DIRECTORY).2.1 0 4
            = MAYA_CRASH_INFO_STREAM_TYPE →
          fieldLE (ReadFile f pBuf sizeofMINIDUMP_DIRECTORY).2.1 4 4 ≠ 1551 →
          (readMayaDumpStreamsLoop f pBuf (k + 1)).1.head? = some DbgMsg.sizeMismatch) := by
  refine ⟨⟨rfl, rfl, rfl, rfl, rfl, rfl, rfl, rfl, rfl⟩, rfl, fun g => rfl, ?_, ?_⟩
  · intro view rva size hview hfound
    unfold parseAndPrintCustomStreamFromMiniDump
    simp only [if_neg hview, hfound, sizeof_eq]
    by_cases hs : size = 1551
    · simp only [hs, ne_eq, not_true_eq_false, if_false]
      split <;> simp
    · simp [hs]
  · intro f pBuf k htype hsize
    unfold readMayaDumpStreamsLoop
    simp only [htype, ne_eq, not_true_eq_false, if_false, sizeof_eq, hsize, not_false_eq_true,
      if_true, List.head?_cons]

/-! ## Sequences of fault notifications -/

theorem writeAttempts_filter_le (env : FaultEnv) (g : Diag) (flag : Bool) :
    writeAttempts (mayaCustomUnhandledExceptionFilter env g flag).2 ≤ 1 := by
  unfold mayaCustomUnhandledExceptionFilter
  cases flag <;> cases hc : env.createFileOk (filterDumpFilePath env.TEMP) <;>
    cases hw : env.dumpWritten <;> simp [hc, hw, writeAttempts]

theorem handleNotification_flag_set (n : Notification) :
    handleNotification n true = (EXCEPTION_EXECUTE_HANDLER, [], true) := by
  unfold handleNotification mayaCustomVectoredExceptionHandler mayaCustomUnhandledExceptionFilter
  cases n.viaHook <;> simp

theorem handleAll_flag_set (ns : List Notification) :
    (handleAll ns true).2 = true
      ∧ (∀ r ∈ (handleAll ns true).1, r = (EXCEPTION_EXECUTE_HANDLER, []))
      ∧ hookWriteAttempts ns (handleAll ns true).1 = 0 := by
  induction ns with
  | nil => simp [handleAll, hookWriteAttempts]
  | cons n rest ih =>
    simp only [handleAll, handleNotification_flag_set, hookWriteAttempts, writeAttempts]
    refine ⟨ih.1, ?_, ?_⟩
    · intro r hr
      rcases List.mem_cons.1 hr with rfl | hr
      · rfl
      · exact ih.2.1 r hr
    · simp [ih.2.2]

/-- C19: whatever the flag was, a notification through the priority hook returns with
`gHandlerCalled` set; from then on, in every sequence of notifications handled one after
another (through the priority hook or through the top-level filter), the flag stays set and
every notification returns `EXCEPTION_EXECUTE_HANDLER` without any platform call (no file
creation, no write); hence in every sequence of notifications, from either flag value, at most
one write attempt is made by the notifications that came through the priority hook. -/
theorem handled_flag_is_sticky (ns : List Notification) (env : FaultEnv) (g : Diag)
    (flag : Bool) :
    (mayaCustomVectoredExceptionHandler env g flag).2.2 = true
      ∧ (handleAll ns true).2 = true
      ∧ (∀ r ∈ (handleAll ns true).1, r.1 = EXCEPTION_EXECUTE_HANDLER ∧ r.2 = [])
      ∧ hookWriteAttempts ns (handleAll ns flag).1 ≤ 1 := by
  refine ⟨rfl, (handleAll_flag_set ns).1, ?_, ?_⟩
  · intro r hr
    rw [(handleAll_flag_set ns).2.1 r hr]
    exact ⟨rfl, rfl⟩
  · induction ns generalizing flag with
    | nil => simp [handleAll, hookWriteAttempts]
    | cons n rest ih =>
      cases flag with
      | true => rw [(handleAll_flag_set (n :: rest)).2.2]; omega
      | false =>
        cases hv : n.viaHook with
        | true =>
          have hflag : (handleNotification n false).2.2 = true := by
            simp [handleNotification, hv, mayaCustomVectoredExceptionHandler]
          have hev : (handleNotification n false).2.1
              = (mayaCustomUnhandledExceptionFilter n.env n.diag false).2 := by
            simp [handleNotification, hv, mayaCustomVectoredExceptionHandler]
          simp only [handleAll, hookWriteAttempts, hv, if_true, hflag, hev,
            (handleAll_flag_set rest).2.2]
          have := writeAttempts_filter_le n.env n.diag false
          omega
        | false =>
          have hflag : (handleNotification n false).2.2 = false := by
            simp [handleNotification, hv]
          simp only [handleAll, hookWriteAttempts, hv, hflag, Bool.false_eq_true, if_false]
          have := ih false
          omega
/-! ## Install and uninstall -/

theorem importSlot_mem (pl : Platform) (modules : List Module) (v : Nat)
    (h : importSlot pl modules = some v) :
    ∃ m ∈ modules, ∃ descs, m.imports = some descs ∧ ∃ d ∈ descs, v ∈ d.thunks := by
  unfold importSlot at h
  split at h
  · exact absurd h (by simp)
  · rename_i m hm
    split at h
    · exact absurd h (by simp)
    · rename_i descs hi
      split at h
      · exact absurd h (by simp)
      · rename_i d hd
        exact ⟨m, List.get?_mem hm, descs, hi, d, List.get?_mem hd, List.get?_mem h⟩

theorem importSlot_fresh (pl : Platform) (modules : List Module)
    (h : ∀ m ∈ modules, ∀ descs, m.imports = some descs → ∀ d ∈ descs,
      pl.detouredSetUnhandledExceptionFilter ∉ d.thunks) :
    importSlot pl modules ≠ some pl.detouredSetUnhandledExceptionFilter := by
  intro hs
  obtain ⟨m, hm, descs, hi, d, hd, hv⟩ := importSlot_mem pl modules _ hs
  exact h m hm descs hi d hd hv

theorem callSet_real (pl : Platform) (ps : Process) (filter : Nat)
    (h : importSlot pl ps.modules ≠ some pl.detouredSetUnhandledExceptionFilter) :
    callSetUnhandledExceptionFilter pl ps filter
      = ({ ps with topLevelFilter := filter }, ps.topLevelFilter,
          Step.setUnhandledExceptionFilter filter false) := by
  unfold callSetUnhandledExceptionFilter
  rw [if_neg h]

theorem callSet_detoured (pl : Platform) (ps : Process) (filter : Nat)
    (h : importSlot pl ps.modules = some pl.detouredSetUnhandledExceptionFilter) :
    callSetUnhandledExceptionFilter pl ps filter
      = (ps, 0, Step.setUnhandledExceptionFilter filter true) := by
  unfold callSetUnhandledExceptionFilter
  rw [if_pos h]

theorem callSet_modules (pl : Platform) (ps : Process) (filter : Nat) :
    (callSetUnhandledExceptionFilter pl ps filter).1.modules = ps.modules := by
  unfold callSetUnhandledExceptionFilter
  split <;> rfl

theorem getLast?_tail3 (x : Step) (l : List Step) (a b c : Step) :
    (x :: (l ++ [a, b, c])).getLast? = some c := by
  rw [← List.cons_append, List.getLast?_append]
  rfl

/-- C20: for every pre-install state in which the plugin's own import slot for
`SetUnhandledExceptionFilter` did not hold the detour before install and holds it after the
patch sweep, the self-test call at the end of `initializePlugin` goes to
`detouredSetUnhandledExceptionFilter`, and after install the top-level filter is
`mayaCustomUnhandledExceptionFilter`. -/
theorem self_test_neutralized (pl : Platform) (reg : Registration) (ps : Process)
    (hbefore : importSlot pl ps.modules ≠ some pl.detouredSetUnhandledExceptionFilter)
    (hafter : importSlot pl (initializePlugin pl reg ps).process.modules
      = some pl.detouredSetUnhandledExceptionFilter) :
    (initializePlugin pl reg ps).process.topLevelFilter = pl.mayaCustomUnhandledExceptionFilter
      ∧ (initializePlugin pl reg ps).steps.getLast?
          = some (Step.setUnhandledExceptionFilter pl.unwantedUnhandledExceptionFilter true) := by
  by_cases hv : pl.vectoredHandle = 0
  · simp only [initializePlugin, callSetUnhandledExceptionFilter, hv, if_true, if_neg hbefore]
      at hafter ⊢
    split at hafter
    · rename_i hslot
      simp only [hslot, if_true, true_and]
      exact getLast?_tail3 _ _ _ _ _
    · rename_i hslot
      exact absurd hafter hslot
  · simp only [initializePlugin, callSetUnhandledExceptionFilter, hv, if_false, if_neg hbefore]
      at hafter ⊢
    split at hafter
    · rename_i hslot
      simp only [hslot, if_true, true_and]
      exact getLast?_tail3 _ _ _ _ _
    · rename_i hslot
      exact absurd hafter hslot

/-- Witness for `self_test_neutralized`: the example process, where the sweep reaches the
plugin's own kernel32 descriptor. -/
theorem self_test_neutralized_witness :
    (initializePlugin examplePlatform Registration.initial exampleProcess).process.topLevelFilter
      = 1001 :=
  (self_test_neutralized examplePlatform Registration.initial exampleProcess
    (by decide) (by decide)).1

theorem patchAll_fst (snapshotOk : Bool) (callee : List Nat) (cur new : Nat)
    (modules : List Module) :
    (patchOverIATEntriesInAllModules snapshotOk callee cur new modules).1 = true := by
  cases snapshotOk <;> rfl

/-- The sweep of install: it fails only when kernel32 or the routine's address is not found,
and otherwise patches the address found to the replacement. -/
theorem patchOver_initial (pl : Platform) (replace : Nat) (modules : List Module) :
    patchOverUnhandledExceptionFilter pl replace 0 modules
      = if pl.kernel32Found = false ∨ pl.procSetUnhandledExceptionFilter = 0 then
          (false, 0, modules)
        else
          (true, pl.procSetUnhandledExceptionFilter,
            (patchOverIATEntriesInAllModules pl.snapshotOk (ascii "kernel32.dll")
              pl.procSetUnhandledExceptionFilter replace modules).2.1) := by
  unfold patchOverUnhandledExceptionFilter
  cases hk : pl.kernel32Found
  · simp
  · by_cases hp : pl.procSetUnhandledExceptionFilter = 0
    · simp [hp]
    · simp [hp, patchAll_fst]

/-- The sweep of uninstall, from a non-null current target. -/
theorem patchOver_from (pl : Platform) (replace orig : Nat) (modules : List Module)
    (horig : orig ≠ 0) (hk : pl.kernel32Found = true) :
    patchOverUnhandledExceptionFilter pl replace orig modules
      = (true, orig,
          (patchOverIATEntriesInAllModules pl.snapshotOk (ascii "kernel32.dll") orig replace
            modules).2.1) := by
  unfold patchOverUnhandledExceptionFilter
  simp [hk, horig, patchAll_fst]

/-- C16: for every pre-install process state in which no import table holds the address of
the plugin's detour yet, install (from the static initial registration data) followed by
uninstall, with the removal of the priority hook succeeding, captures the pre-install top-level
filter and leaves the process as it was before install: top-level filter, pure-virtual-call
and abort hooks, every import-table entry, and the list of priority hooks. -/
theorem install_then_uninstall_restores (pl : Platform) (ps : Process)
    (hrem : pl.removeVectoredOk = true) (hdet : pl.detouredSetUnhandledExceptionFilter ≠ 0)
    (hfresh : ∀ m ∈ ps.modules, ∀ descs, m.imports = some descs → ∀ d ∈ descs,
      pl.detouredSetUnhandledExceptionFilter ∉ d.thunks) :
    (initializePlugin pl Registration.initial ps).reg.gPrevFilter = ps.topLevelFilter
      ∧ (uninitializePlugin pl (initializePlugin pl Registration.initial ps).reg
          (initializePlugin pl Registration.initial ps).process).process = ps := by
  have hbefore := importSlot_fresh pl ps.modules hfresh
  have hundo := patchAll_undo pl.snapshotOk (ascii "kernel32.dll")
    pl.procSetUnhandledExceptionFilter pl.detouredSetUnhandledExceptionFilter ps.modules hdet
    hfresh
  obtain ⟨f, vh, pc, ab, mods⟩ := ps
  simp only at hbefore hundo hfresh
  by_cases hfail : pl.kernel32Found = false ∨ pl.procSetUnhandledExceptionFilter = 0
  · by_cases hv : pl.vectoredHandle = 0
    · simp [initializePlugin, uninitializePlugin, callSetUnhandledExceptionFilter,
        Registration.initial, patchOver_initial, hfail, hv, hbefore]
    · simp [initializePlugin, uninitializePlugin, callSetUnhandledExceptionFilter,
        Registration.initial, patchOver_initial, hfail, hv, hbefore, hrem]
  · have hk : pl.kernel32Found = true := by
      cases h : pl.kernel32Found
      · exact absurd (Or.inl h) hfail
      · rfl
    by_cases hv : pl.vectoredHandle = 0
    · by_cases hslot : importSlot pl
          (patchOverIATEntriesInAllModules pl.snapshotOk (ascii "kernel32.dll")
            pl.procSetUnhandledExceptionFilter pl.detouredSetUnhandledExceptionFilter mods).2.1
          = some pl.detouredSetUnhandledExceptionFilter
      · simp [initializePlugin, uninitializePlugin, callSetUnhandledExceptionFilter,
          Registration.initial, patchOver_initial, hfail, hv, hbefore, hslot,
          patchOver_from pl _ _ _ hdet hk, hundo]
      · simp [initializePlugin, uninitializePlugin, callSetUnhandledExceptionFilter,
          Registration.initial, patchOver_initial, hfail, hv, hbefore, hslot,
          patchOver_from pl _ _ _ hdet hk, hundo]
    · by_cases hslot : importSlot pl
          (patchOverIATEntriesInAllModules pl.snapshotOk (ascii "kernel32.dll")
            pl.procSetUnhandledExceptionFilter pl.detouredSetUnhandledExceptionFilter mods).2.1
          = some pl.detouredSetUnhandledExceptionFilter
      · simp [initializePlugin, uninitializePlugin, callSetUnhandledExceptionFilter,
          Registration.initial, patchOver_initial, hfail, hv, hbefore, hslot, hrem,
          patchOver_from pl _ _ _ hdet hk, hundo]
      · simp [initializePlugin, uninitializePlugin, callSetUnhandledExceptionFilter,
          Registration.initial, patchOver_initial, hfail, hv, hbefore, hslot, hrem,
          patchOver_from pl _ _ _ hdet hk, hundo]

/-- Witness for `install_then_uninstall_restores`: the example process. -/
theorem install_then_uninstall_restores_witness :
    (uninitializePlugin examplePlatform
        (initializePlugin examplePlatform Registration.initial exampleProcess).reg
        (initializePlugin examplePlatform Registration.initial exampleProcess).process).process
      = exampleProcess :=
  (install_then_uninstall_restores examplePlatform exampleProcess rfl (by decide)
    (by decide)).2

theorem callSet_step (pl : Platform) (ps : Process) (filter : Nat) :
    (callSetUnhandledExceptionFilter pl ps filter).2.2
      = Step.setUnhandledExceptionFilter filter
          (decide (importSlot pl ps.modules = some pl.detouredSetUnhandledExceptionFilter)) := by
  unfold callSetUnhandledExceptionFilter
  split
  · rename_i h
    simp [h]
  · rename_i h
    simp [h]

/-- C12, the claim at a failing hook removal: after install on the example process, an
uninstall in which `RemoveVectoredExceptionHandler` returns 0 executes two steps only, the
removal attempt and the error report, and returns failure; the top-level filter is still the
plugin's (1001, not the captured 500) and the pure-virtual-call and abort hooks are still the
plugin's lambdas. -/
theorem uninstall_aborts_when_hook_removal_fails :
    (uninitializePlugin { examplePlatform with removeVectoredOk := false }
        (initializePlugin examplePlatform Registration.initial exampleProcess).reg
        (initializePlugin examplePlatform Registration.initial exampleProcess).process).steps
        = [Step.removeVectoredExceptionHandler, Step.displayError]
      ∧ (initializePlugin examplePlatform Registration.initial exampleProcess).reg.gPrevFilter
        = 500
      ∧ (uninitializePlugin { examplePlatform with removeVectoredOk := false }
        (initializePlugin examplePlatform Registration.initial exampleProcess).reg
        (initializePlugin examplePlatform Registration.initial exampleProcess).process).process
        = (initializePlugin examplePlatform Registration.initial exampleProcess).process
      ∧ (initializePlugin examplePlatform Registration.initial
          exampleProcess).process.topLevelFilter = 1001
      ∧ (initializePlugin examplePlatform Registration.initial
          exampleProcess).process.purecallHandler = 1004
      ∧ (initializePlugin examplePlatform Registration.initial
          exampleProcess).process.abortHandler = 1005 := by
  refine ⟨by decide, by decide, by decide, by decide, by decide, by decide⟩

/-- A sweep that reports failure leaves every import table as it is. -/
theorem patchOver_failed (pl : Platform) (replace orig : Nat) (modules : List Module)
    (h : (patchOverUnhandledExceptionFilter pl replace orig modules).1 = false) :
    (patchOverUnhandledExceptionFilter pl replace orig modules).2.2 = modules := by
  unfold patchOverUnhandledExceptionFilter at h ⊢
  by_cases h1 : pl.kernel32Found = false
  · rw [if_pos h1]
  · by_cases h2 : orig = 0 ∧ pl.procSetUnhandledExceptionFilter = 0
    · rw [if_neg h1, if_pos h2]
    · rw [if_neg h1, if_neg h2] at h
      simp only [patchAll_fst] at h
      exact absurd h (by simp)

/-- C12 as amended: uninstall stops at the first failing step.  When the priority hook is
registered and its removal fails, the failure is reported, failure is returned and nothing else
is done (the process is unchanged).  When that step passes and the reversal of the import-table
patch reports failure, the failure is reported, failure is returned, and the top-level filter,
the pure-virtual-call hook and the abort hook are left as they are (no call restoring them is
made).  When neither fails, the pure-virtual-call and abort hooks are restored to the values
captured at install and `SetUnhandledExceptionFilter(gPrevFilter)` is called through the
plugin's import slot: the top-level filter becomes the captured value when that slot does not
hold the detour at that moment, and stays as it is when the slot still holds the detour (the
reversal reports success also when it rewrote nothing). -/
theorem uninstall_stops_at_first_failure (pl : Platform) (reg : Registration) (ps : Process) :
    (reg.gpVectoredHandler ≠ 0 → pl.removeVectoredOk = false →
        (uninitializePlugin pl reg ps).status = false
          ∧ (uninitializePlugin pl reg ps).process = ps
          ∧ (uninitializePlugin pl reg ps).steps
              = [Step.removeVectoredExceptionHandler, Step.displayError])
      ∧ (¬(reg.gpVectoredHandler ≠ 0 ∧ pl.removeVectoredOk = false) →
          reg.gCRTFilterPatched = true →
          (patchOverUnhandledExceptionFilter pl reg.gOrigCRTFilter
            pl.detouredSetUnhandledExceptionFilter ps.modules).1 = false →
        (uninitializePlugin pl reg ps).status = false
          ∧ (uninitializePlugin pl reg ps).steps
              = (if reg.gpVectoredHandler ≠ 0 then [Step.removeVectoredExceptionHandler]
                  else [])
                ++ [Step.patchOverUnhandledExceptionFilter reg.gOrigCRTFilter,
                    Step.displayError]
          ∧ (uninitializePlugin pl reg ps).process.topLevelFilter = ps.topLevelFilter
          ∧ (uninitializePlugin pl reg ps).process.purecallHandler = ps.purecallHandler
          ∧ (uninitializePlugin pl reg ps).process.abortHandler = ps.abortHandler
          ∧ (uninitializePlugin pl reg ps).process.modules = ps.modules)
      ∧ (¬(reg.gpVectoredHandler ≠ 0 ∧ pl.removeVectoredOk = false) →
          (reg.gCRTFilterPatched = true →
            (patchOverUnhandledExceptionFilter pl reg.gOrigCRTFilter
              pl.detouredSetUnhandledExceptionFilter ps.modules).1 = true) →
        (uninitializePlugin pl reg ps).status = pl.hostCallsOk
          ∧ (uninitializePlugin pl reg ps).process.purecallHandler = reg.gOrigPurecallHandler
          ∧ (uninitializePlugin pl reg ps).process.abortHandler = reg.gOrigAbortHandler
          ∧ (importSlot pl (uninitializePlugin pl reg ps).process.modules
              ≠ some pl.detouredSetUnhandledExceptionFilter →
            (uninitializePlugin pl reg ps).process.topLevelFilter = reg.gPrevFilter)
          ∧ (importSlot pl (uninitializePlugin pl reg ps).process.modules
              = some pl.detouredSetUnhandledExceptionFilter →
            (uninitializePlugin pl reg ps).process.topLevelFilter = ps.topLevelFilter)
          ∧ (uninitializePlugin pl reg ps).steps
              = (if reg.gpVectoredHandler ≠ 0 then [Step.removeVectoredExceptionHandler]
                  else [])
                ++ (if reg.gCRTFilterPatched = true then
                    [Step.patchOverUnhandledExceptionFilter reg.gOrigCRTFilter]
                  else [])
                ++ [Step.setUnhandledExceptionFilter reg.gPrevFilter
                      (decide (importSlot pl (uninitializePlugin pl reg ps).process.modules
                        = some pl.detouredSetUnhandledExceptionFilter)),
                    Step.setPurecallHandler reg.gOrigPurecallHandler,
                    Step.signalAbort reg.gOrigAbortHandler]) := by
  have hmod1 : (if reg.gpVectoredHandler ≠ 0 then
        ({ ps with vectoredHandlers := ps.vectoredHandlers.erase reg.gpVectoredHandler }
          : Process)
      else ps).modules = ps.modules := by
    split <;> rfl
  have htop1 : (if reg.gpVectoredHandler ≠ 0 then
        ({ ps with vectoredHandlers := ps.vectoredHandlers.erase reg.gpVectoredHandler }
          : Process)
      else ps).topLevelFilter = ps.topLevelFilter := by
    split <;> rfl
  refine ⟨fun h1 h2 => ?_, fun h1 h2 h3 => ?_, fun h1 h2 => ?_⟩
  · simp [uninitializePlugin, h1, h2]
  · have hmods := patchOver_failed pl _ _ _ h3
    unfold uninitializePlugin
    rw [if_neg h1]
    simp only [hmod1, h3, h2, and_self, if_true, hmods]
    by_cases hv : reg.gpVectoredHandler ≠ 0
    · simp [hv]
    · simp [hv]
  · have hpatch : ¬(reg.gCRTFilterPatched = true
        ∧ (patchOverUnhandledExceptionFilter pl reg.gOrigCRTFilter
            pl.detouredSetUnhandledExceptionFilter
            (if reg.gpVectoredHandler ≠ 0 then
              { ps with vectoredHandlers := ps.vectoredHandlers.erase reg.gpVectoredHandler }
             else ps).modules).1 = false) := by
      rintro ⟨hp, hf⟩
      rw [hmod1, h2 hp] at hf
      exact absurd hf (by simp)
    unfold uninitializePlugin
    rw [if_neg h1]
    simp only [if_neg hpatch, callSet_modules, callSet_step]
    refine ⟨trivial, trivial, trivial, fun hs => ?_, fun hs => ?_, trivial⟩
    · rw [callSet_real pl _ _ hs]
    · rw [callSet_detoured pl _ _ hs]
      by_cases hp : reg.gCRTFilterPatched = true
      · simp only [hp, if_true]
        exact htop1
      · simp only [hp, Bool.false_eq_true, if_false]
        exact htop1

/-- Witness for `uninstall_stops_at_first_failure`: uninstall after install on the example
process sets the top-level filter back to the captured 500; when the module snapshot of the
reversal is empty, uninstall returns success and the top-level filter is still the plugin's
(1001). -/
theorem uninstall_stops_at_first_failure_witness :
    (uninitializePlugin examplePlatform
        (initializePlugin examplePlatform Registration.initial exampleProcess).reg
        (initializePlugin examplePlatform Registration.initial
          exampleProcess).process).process.topLevelFilter = 500
      ∧ (uninitializePlugin { examplePlatform with snapshotOk := false }
        (initializePlugin examplePlatform Registration.initial exampleProcess).reg
        (initializePlugin examplePlatform Registration.initial
          exampleProcess).process).status = true
      ∧ (uninitializePlugin { examplePlatform with snapshotOk := false }
        (initializePlugin examplePlatform Registration.initial exampleProcess).reg
        (initializePlugin examplePlatform Registration.initial
          exampleProcess).process).process.topLevelFilter = 1001 :=
  ⟨((uninstall_stops_at_first_failure examplePlatform
      (initializePlugin examplePlatform Registration.initial exampleProcess).reg
      (initializePlugin examplePlatform Registration.initial exampleProcess).process).2.2
    (by decide) (by decide)).2.2.2.1 (by decide),
   ((uninstall_stops_at_first_failure { examplePlatform with snapshotOk := false }
      (initializePlugin examplePlatform Registration.initial exampleProcess).reg
      (initializePlugin examplePlatform Registration.initial exampleProcess).process).2.2
    (by decide) (by decide)).1,
   ((uninstall_stops_at_first_failure { examplePlatform with snapshotOk := false }
      (initializePlugin examplePlatform Registration.initial exampleProcess).reg
      (initializePlugin examplePlatform Registration.initial exampleProcess).process).2.2
    (by decide) (by decide)).2.2.2.2.1 (by decide)⟩

/-- C18, the claim at the example process: uninstall after install executes its steps in the
order remove the priority hook, reverse the import-table patch, restore the top-level filter,
restore the pure-virtual-call hook, restore the abort hook, which is not the order restore the
two hooks, restore the filter, reverse the patch, remove the priority hook. -/
theorem uninstall_order_is_not_reversed :
    (uninitializePlugin examplePlatform
        (initializePlugin examplePlatform Registration.initial exampleProcess).reg
        (initializePlugin examplePlatform Registration.initial exampleProcess).process).steps
        = [Step.removeVectoredExceptionHandler, Step.patchOverUnhandledExceptionFilter 5,
            Step.setUnhandledExceptionFilter 500 false, Step.setPurecallHandler 600,
            Step.signalAbort 700]
      ∧ (uninitializePlugin examplePlatform
        (initializePlugin examplePlatform Registration.initial exampleProcess).reg
        (initializePlugin examplePlatform Registration.initial exampleProcess).process).steps
        ≠ [Step.setPurecallHandler 600, Step.signalAbort 700,
            Step.setUnhandledExceptionFilter 500 false,
            Step.patchOverUnhandledExceptionFilter 5, Step.removeVectoredExceptionHandler] := by
  refine ⟨by decide, by decide⟩

/-- C18 as amended: when the priority hook was registered and its removal succeeds, and the
import-table patch was applied and its reversal succeeds, uninstall performs its steps in this
order: it removes the priority hook, reverses the import-table patch, restores the top-level
filter to the captured previous value (a call through the plugin's import slot), restores the
pure-virtual-call hook and last the abort hook. -/
theorem uninstall_order (pl : Platform) (reg : Registration) (ps : Process)
    (hv : reg.gpVectoredHandler ≠ 0) (hrem : pl.removeVectoredOk = true)
    (hp : reg.gCRTFilterPatched = true) (hk : pl.kernel32Found = true)
    (hd : pl.detouredSetUnhandledExceptionFilter ≠ 0) :
    ∃ d, (uninitializePlugin pl reg ps).steps
      = [Step.removeVectoredExceptionHandler,
          Step.patchOverUnhandledExceptionFilter reg.gOrigCRTFilter,
          Step.setUnhandledExceptionFilter reg.gPrevFilter d,
          Step.setPurecallHandler reg.gOrigPurecallHandler,
          Step.signalAbort reg.gOrigAbortHandler] := by
  simp [uninitializePlugin, hrem, patchOver_from pl _ _ _ hd hk, hp, hv, callSet_step]

/-- Witness for `uninstall_order`: uninstall after install on the example process. -/
theorem uninstall_order_witness :
    ∃ d, (uninitializePlugin examplePlatform
        (initializePlugin examplePlatform Registration.initial exampleProcess).reg
        (initializePlugin examplePlatform Registration.initial exampleProcess).process).steps
      = [Step.removeVectoredExceptionHandler, Step.patchOverUnhandledExceptionFilter 5,
          Step.setUnhandledExceptionFilter 500 d, Step.setPurecallHandler 600,
          Step.signalAbort 700] :=
  uninstall_order examplePlatform
    (initializePlugin examplePlatform Registration.initial exampleProcess).reg
    (initializePlugin examplePlatform Registration.initial exampleProcess).process
    (by decide) rfl (by decide) rfl (by decide)
/-! ## The debugger command's loop on records -/

theorem decLE_append (a b : List Nat) : decLE (a ++ b) = decLE a + 256 ^ a.length * decLE b := by
  induction a with
  | nil => simp [decLE]
  | cons x t ih =>
    rw [List.cons_append, decLE, ih, decLE, List.length_cons, pow_succ]
    ring

/-- The 8-byte `Buffer` member read over a directory entry: its low 32 bits are the entry's
`Rva`, whatever bytes follow the entry in the buffer. -/
theorem fieldLE_entry_buffer (d : MINIDUMP_DIRECTORY) (rest : List Nat) :
    fieldLE (encodeDirectoryEntry d ++ rest) 8 8 % 2 ^ 32 = d.Rva % 2 ^ 32 := by
  have e2 : encodeDirectoryEntry d ++ rest
      = (encLE 4 d.StreamType ++ encLE 4 d.DataSize) ++ (encLE 4 d.Rva ++ rest) := by
    simp [encodeDirectoryEntry, List.append_assoc]
  rw [e2, fieldLE_at _ _ 8 8 (by simp [length_encLE])]
  unfold fieldLE
  rw [List.drop_zero, List.take_append_eq_append_take, decLE_append,
    List.take_of_length_le (by rw [length_encLE]; decide), decLE_encLE, length_encLE]
  have h : (256 : Nat) ^ 4 = 2 ^ 32 := by norm_num
  rw [h, Nat.add_mul_mod_self_left, Nat.mod_mod]

theorem ReadFile_at (C pre x rest buf : List Nat) (n : Nat) (hC : C = pre ++ (x ++ rest))
    (hn : x.length = n) :
    ReadFile { contents := C, pos := pre.length } buf n
      = ({ contents := C, pos := pre.length + n }, x ++ buf.drop n, n) := by
  subst hC
  exact ReadFile_prefix pre x rest buf n hn

theorem ReadFile_inside (C buf : List Nat) (p n : Nat) (h : p + n ≤ C.length) :
    ReadFile { contents := C, pos := p } buf n
      = ({ contents := C, pos := p + n }, (C.drop p).take n ++ buf.drop n, n) := by
  have hlen : ((C.drop p).take n).length = n := by
    rw [List.length_take, List.length_drop]
    omega
  simp only [ReadFile, hlen]

/-- The debugger command's loop on an encoded directory whose application-tag entries of the
record's size point at records inside the file, at offsets below 2^31: it prints, in directory
order, the line of every application-tag entry, and reads every entry once. -/
theorem readMayaDumpStreamsLoop_spec (C : List Nat) (ds : List MINIDUMP_DIRECTORY)
    (pre post buf : List Nat) (hC : C = pre ++ (encodeDirectory ds ++ post))
    (hfit : ∀ d ∈ ds, d.StreamType < 2 ^ 32 ∧ d.DataSize < 2 ^ 32 ∧ d.Rva < 2 ^ 32)
    (hrec : ∀ d ∈ ds, d.StreamType = MAYA_CRASH_INFO_STREAM_TYPE →
      d.DataSize = sizeofMayaCrashDumpInfo →
      d.Rva < 2 ^ 31 ∧ d.Rva + sizeofMayaCrashDumpInfo ≤ C.length)
    (hpos : pre.length + 12 * ds.length < 2 ^ 31) :
    readMayaDumpStreamsLoop { contents := C, pos := pre.length } buf ds.length
      = (ds.filterMap (dbgMsgOfEntry C), ds.length) := by
  induction ds generalizing pre buf with
  | nil => rfl
  | cons d t ih =>
    have hd := hfit d (List.mem_cons_self d t)
    have hC1 : C = pre ++ (encodeDirectoryEntry d ++ (encodeDirectory t ++ post)) := by
      rw [hC, encodeDirectory, List.append_assoc]
    have hC2 : C = (pre ++ encodeDirectoryEntry d) ++ (encodeDirectory t ++ post) := by
      rw [hC1, List.append_assoc]
    have hrd := ReadFile_at C pre (encodeDirectoryEntry d) (encodeDirectory t ++ post) buf 12
      hC1 (length_encodeDirectoryEntry d)
    have hf := fieldLE_entry d (buf.drop 12)
    rw [Nat.mod_eq_of_lt hd.1, Nat.mod_eq_of_lt hd.2.1] at hf
    have hlen' : (pre ++ encodeDirectoryEntry d).length = pre.length + 12 := by
      rw [List.length_append, length_encodeDirectoryEntry]
    have hpos' : (pre ++ encodeDirectoryEntry d).length + 12 * t.length < 2 ^ 31 := by
      rw [hlen']
      simp only [List.length_cons] at hpos
      omega
    have hrec' := ih (pre ++ encodeDirectoryEntry d) (encodeDirectoryEntry d ++ buf.drop 12) hC2
      (fun e he => hfit e (List.mem_cons_of_mem d he))
      (fun e he => hrec e (List.mem_cons_of_mem d he)) hpos'
    rw [hlen'] at hrec'
    simp only [List.length_cons, readMayaDumpStreamsLoop, sizeofMINIDUMP_DIRECTORY, hrd, hf.1,
      hf.2.1, List.filterMap_cons, dbgMsgOfEntry]
    by_cases htag : d.StreamType = MAYA_CRASH_INFO_STREAM_TYPE
    · by_cases hsz : d.DataSize = sizeofMayaCrashDumpInfo
      · obtain ⟨hr1, hr2⟩ := hrec d (List.mem_cons_self d t) htag hsz
        have hbuf := fieldLE_entry_buffer d (buf.drop 12)
        rw [Nat.mod_eq_of_lt hd.2.2] at hbuf
        have hseek : SetFilePointerBegin { contents := C, pos := pre.length + 12 }
            (fieldLE (encodeDirectoryEntry d ++ buf.drop 12) 8 8)
            = { contents := C, pos := d.Rva } := by
          unfold SetFilePointerBegin
          rw [hbuf, if_pos hr1]
        have hread := ReadFile_inside C (List.replicate sizeofMayaCrashDumpInfo 0) d.Rva
          sizeofMayaCrashDumpInfo hr2
        have hback : SetFilePointerBegin
            { contents := C, pos := d.Rva + sizeofMayaCrashDumpInfo }
            ((pre.length + 12) % 2 ^ 32) = { contents := C, pos := pre.length + 12 } := by
          simp only [List.length_cons] at hpos
          unfold SetFilePointerBegin
          rw [Nat.mod_mod, Nat.mod_eq_of_lt (by omega), if_pos (by omega)]
        have hdrop : List.drop sizeofMayaCrashDumpInfo
            (List.replicate sizeofMayaCrashDumpInfo 0) = [] := by
          rw [List.drop_eq_nil_iff, List.length_replicate]
        simp only [htag, hsz, ne_eq, not_true_eq_false, if_false, hseek, hread, hback, hdrop,
          List.append_nil, hrec']
      · simp only [htag, hsz, ne_eq, not_true_eq_false, not_false_eq_true, if_false, if_true,
          hrec']
    · simp only [htag, ne_eq, not_false_eq_true, if_true, hrec']

/-- The debugger command on an artifact whose records lie inside the file below 2^31: it
prints the line of every application-tag entry, in directory order. -/
theorem readMayaDumpStreamsOn_spec (a : Artifact) (pBuf : List Nat) (ha : a.WellFormed)
    (hrec : ∀ d ∈ a.directory, d.StreamType = MAYA_CRASH_INFO_STREAM_TYPE →
      d.DataSize = sizeofMayaCrashDumpInfo →
      d.Rva < 2 ^ 31 ∧ d.Rva + sizeofMayaCrashDumpInfo ≤ a.bytes.length)
    (hdir : 32 + 12 * a.directory.length < 2 ^ 31) :
    (readMayaDumpStreamsOn (some a.bytes) pBuf).1
      = a.directory.filterMap (dbgMsgOfEntry a.bytes) := by
  have hloop := readMayaDumpStreamsLoop_spec a.bytes a.directory (encodeHeader a.header)
    a.payload (encodeHeader a.header ++ pBuf.drop 32) (Artifact.bytes_eq a) ha.2 hrec
    (by rw [length_encodeHeader]; exact hdir)
  rw [length_encodeHeader] at hloop
  rw [readMayaDumpStreamsOn_artifact a ha, hloop]

theorem filterMap_dbgMsgOfEntry_nil (C : List Nat) (ds : List MINIDUMP_DIRECTORY)
    (h : ds.filter (fun d => decide (d.StreamType = MAYA_CRASH_INFO_STREAM_TYPE)) = []) :
    ds.filterMap (dbgMsgOfEntry C) = [] := by
  rw [List.filterMap_eq_nil_iff]
  intro d hd
  rw [List.filter_eq_nil_iff] at h
  have := h d hd
  simp only [decide_eq_true_eq] at this
  simp [dbgMsgOfEntry, this]

/-- With at most one application-tag entry, the lines of the directory are the line of the
first application-tag entry, if there is one. -/
theorem filterMap_dbgMsgOfEntry_single (C : List Nat) (ds : List MINIDUMP_DIRECTORY)
    (h : (ds.filter (fun d => decide (d.StreamType = MAYA_CRASH_INFO_STREAM_TYPE))).length ≤ 1) :
    ds.filterMap (dbgMsgOfEntry C)
      = match ds.find? (fun d => decide (d.StreamType = MAYA_CRASH_INFO_STREAM_TYPE)) with
        | none => []
        | some e => (dbgMsgOfEntry C e).toList := by
  induction ds with
  | nil => rfl
  | cons d t ih =>
    by_cases htag : d.StreamType = MAYA_CRASH_INFO_STREAM_TYPE
    · have ht : t.filter (fun d => decide (d.StreamType = MAYA_CRASH_INFO_STREAM_TYPE)) = [] := by
        rw [List.filter_cons, if_pos (by simpa using htag), List.length_cons] at h
        exact List.length_eq_zero.1 (by omega)
      have hmsg : ∃ msg, dbgMsgOfEntry C d = some msg := by
        unfold dbgMsgOfEntry
        rw [if_neg (by simpa using htag)]
        split
        · exact ⟨_, rfl⟩
        · exact ⟨_, rfl⟩
      obtain ⟨msg, hmsg⟩ := hmsg
      rw [List.filterMap_cons, hmsg, List.find?_cons, filterMap_dbgMsgOfEntry_nil C t ht]
      simp [htag, hmsg]
    · have hnone : dbgMsgOfEntry C d = none := by
        unfold dbgMsgOfEntry
        rw [if_pos htag]
      rw [List.filter_cons, if_neg (by simpa using htag)] at h
      rw [List.filterMap_cons, hnone, List.find?_cons, ih h]
      simp [htag]

/-- A mismatching application-tag entry followed by a matching one, both pointing at the
payload `p` of the record's size. -/
theorem mismatch_then_match (p : List Nat) (hp : p.length = 1551) :
    parseAndPrintCustomStreamFromMiniDump (some (Artifact.bytes
        { Version := 42899, CheckSum := 0, TimeDateStamp := 0, Flags := 0,
          directory := [⟨65536, 1550, 56⟩, ⟨65536, 1551, 56⟩], payload := p }))
        = ReadOutcome.sizeMismatch
      ∧ ∃ r, (readMayaDumpStreamsOn (some (Artifact.bytes
        { Version := 42899, CheckSum := 0, TimeDateStamp := 0, Flags := 0,
          directory := [⟨65536, 1550, 56⟩, ⟨65536, 1551, 56⟩], payload := p })) []).1
        = [DbgMsg.sizeMismatch, DbgMsg.report 65536 r] := by
  have ha : Artifact.WellFormed
      { Version := 42899, CheckSum := 0, TimeDateStamp := 0, Flags := 0,
        directory := [⟨65536, 1550, 56⟩, ⟨65536, 1551, 56⟩], payload := p } := by
    simp [Artifact.WellFormed]
  have hlen := Artifact.length_bytes
      { Version := 42899, CheckSum := 0, TimeDateStamp := 0, Flags := 0,
        directory := [⟨65536, 1550, 56⟩, ⟨65536, 1551, 56⟩], payload := p }
  simp only [List.length_cons, List.length_nil, hp] at hlen
  refine ⟨?_, ?_⟩
  · have hlookup := MiniDumpReadDumpStream_artifact _ ha MAYA_CRASH_INFO_STREAM_TYPE
    have hfind : List.find? (fun d => decide (d.StreamType = MAYA_CRASH_INFO_STREAM_TYPE))
        [(⟨65536, 1550, 56⟩ : MINIDUMP_DIRECTORY), ⟨65536, 1551, 56⟩]
        = some ⟨65536, 1550, 56⟩ := by decide
    simp only [hfind] at hlookup
    unfold parseAndPrintCustomStreamFromMiniDump
    simp only [hlookup]
    rw [if_neg (by omega), if_pos (by decide)]
  · have hspec := readMayaDumpStreamsOn_spec
      { Version := 42899, CheckSum := 0, TimeDateStamp := 0, Flags := 0,
        directory := [⟨65536, 1550, 56⟩, ⟨65536, 1551, 56⟩], payload := p } [] ha
      (by
        intro d hd _ _
        rw [hlen]
        simp only [List.mem_cons, List.mem_singleton, List.not_mem_nil, or_false] at hd
        rcases hd with rfl | rfl <;> simp [sizeof_eq])
      (by simp)
    rw [hspec]
    have h1 : ∀ C, dbgMsgOfEntry C ⟨65536, 1550, 56⟩ = some DbgMsg.sizeMismatch := by
      intro C
      unfold dbgMsgOfEntry
      rw [if_neg (by decide), if_pos (by decide)]
    have h2 : ∀ C, dbgMsgOfEntry C ⟨65536, 1551, 56⟩
        = some (DbgMsg.report 65536
            (readRecord ((C.drop 56).take sizeofMayaCrashDumpInfo))) := by
      intro C
      unfold dbgMsgOfEntry
      rw [if_neg (by decide), if_neg (by decide)]
      rfl
    exact ⟨_, by rw [List.filterMap_cons, h1, List.filterMap_cons, h2]; rfl⟩

/-- C13, the claim at an artifact with two application-tag entries, the first declaring the
record size minus one and the second the record size: the standalone reader takes the first
entry and reports a size mismatch and no record, while the debugger command goes on after the
mismatch and also prints the record of the second entry. -/
theorem readers_differ_after_mismatching_entry :
    parseAndPrintCustomStreamFromMiniDump (some (Artifact.bytes
        { Version := 42899, CheckSum := 0, TimeDateStamp := 0, Flags := 0,
          directory := [⟨65536, 1550, 56⟩, ⟨65536, 1551, 56⟩],
          payload := List.replicate 1551 0 }))
        = ReadOutcome.sizeMismatch
      ∧ ∃ r, (readMayaDumpStreamsOn (some (Artifact.bytes
        { Version := 42899, CheckSum := 0, TimeDateStamp := 0, Flags := 0,
          directory := [⟨65536, 1550, 56⟩, ⟨65536, 1551, 56⟩],
          payload := List.replicate 1551 0 })) []).1
        = [DbgMsg.sizeMismatch, DbgMsg.report 65536 r] :=
  mismatch_then_match (List.replicate 1551 0) (List.length_replicate 1551 0)

/-! ## Records whose names end inside the record -/

theorem strlen_append_of_mem (a b : List Nat) (h : 0 ∈ a) : strlen (a ++ b) = strlen a := by
  induction a with
  | nil => exact absurd h (List.not_mem_nil 0)
  | cons c t ih =>
    by_cases hc : c = 0
    · rw [List.cons_append, strlen, strlen, if_pos hc, if_pos hc]
    · have ht : 0 ∈ t := by
        rcases List.mem_cons.1 h with h0 | h0
        · exact absurd h0.symm hc
        · exact h0
      rw [List.cons_append, strlen, strlen, if_neg hc, if_neg hc, ih ht]

/-- A `%s` read that meets a NUL inside `a` does not depend on what follows `a` in memory. -/
theorem cstr_append_of_mem (a b : List Nat) (h : 0 ∈ a) : cstr (a ++ b) = cstr a := by
  unfold cstr
  rw [strlen_append_of_mem a b h, List.take_append_of_le_length (strlen_le_length a)]

theorem fieldLE_append (r behind : List Nat) (off n : Nat) (h : off + n ≤ r.length) :
    fieldLE (r ++ behind) off n = fieldLE r off n := by
  unfold fieldLE
  rw [List.drop_append_of_le_length (by omega),
    List.take_append_of_le_length (by rw [List.length_drop]; omega)]

theorem mem_drop_of_le (r : List Nat) (m n : Nat) (hmn : m ≤ n) (h : 0 ∈ r.drop n) :
    0 ∈ r.drop m := by
  have e : r.drop n = (r.drop m).drop (n - m) := by
    rw [List.drop_drop]
    congr 1
    omega
  rw [e] at h
  exact List.mem_of_mem_drop h

/-- Field reads through a pointer to a record whose node-added name field holds a NUL (so that
each of the three names ends inside the record): the values read do not depend on the memory
that lies behind the record. -/
theorem readRecord_append (r behind : List Nat) (hlen : r.length = sizeofMayaCrashDumpInfo)
    (hterm : 0 ∈ r.drop offLastDGNodeAddedName) :
    readRecord (r ++ behind) = readRecord r := by
  have hparent : 0 ∈ r.drop offLastDagParentName :=
    mem_drop_of_le r _ _ (by decide) hterm
  have hchild : 0 ∈ r.drop offLastDagChildName :=
    mem_drop_of_le r _ _ (by decide) hterm
  unfold readRecord
  rw [fieldLE_append r behind offVerAPI 4 (by rw [hlen]; decide),
    fieldLE_append r behind offVerCustom 4 (by rw [hlen]; decide),
    fieldLE_append r behind offVerMayaFile 4 (by rw [hlen]; decide),
    fieldLE_append r behind offIsYUp 1 (by rw [hlen]; decide),
    fieldLE_append r behind offLastDagMessage 2 (by rw [hlen]; decide),
    List.drop_append_of_le_length (by rw [hlen]; decide),
    List.drop_append_of_le_length (by rw [hlen]; decide),
    List.drop_append_of_le_length (by rw [hlen]; decide),
    cstr_append_of_mem _ behind hparent, cstr_append_of_mem _ behind hchild,
    cstr_append_of_mem _ behind hterm]

/-- C13 as amended: for every artifact (header, directory right behind it, payload region)
with at most one application-tag entry, whose record, when that entry declares the record
size, lies inside the file at an offset below 2^31 and holds a NUL in its node-added name field
(so that each of the three names ends inside the record), the two readers reach the same
result: either the standalone reader reports not-found and the debugger command prints nothing,
or both report one size mismatch, or both report one record with identical values for all
eight fields, which are the values read through a pointer to the record whatever memory lies
behind it (the rest of the file view for the standalone reader, the stack behind the copy for
the debugger command). -/
theorem readers_agree_on_single_entry (a : Artifact) (pBuf : List Nat) (ha : a.WellFormed)
    (hone : (a.directory.filter
      (fun d => decide (d.StreamType = MAYA_CRASH_INFO_STREAM_TYPE))).length ≤ 1)
    (hrec : ∀ d ∈ a.directory, d.StreamType = MAYA_CRASH_INFO_STREAM_TYPE →
      d.DataSize = sizeofMayaCrashDumpInfo →
      d.Rva < 2 ^ 31 ∧ d.Rva + sizeofMayaCrashDumpInfo ≤ a.bytes.length)
    (hterm : ∀ d ∈ a.directory, d.StreamType = MAYA_CRASH_INFO_STREAM_TYPE →
      d.DataSize = sizeofMayaCrashDumpInfo →
      0 ∈ ((a.bytes.drop d.Rva).take sizeofMayaCrashDumpInfo).drop offLastDGNodeAddedName)
    (hdir : 32 + 12 * a.directory.length < 2 ^ 31) :
    (parseAndPrintCustomStreamFromMiniDump (some a.bytes) = ReadOutcome.streamNotFound
        ∧ (readMayaDumpStreamsOn (some a.bytes) pBuf).1 = [])
      ∨ (parseAndPrintCustomStreamFromMiniDump (some a.bytes) = ReadOutcome.sizeMismatch
        ∧ (readMayaDumpStreamsOn (some a.bytes) pBuf).1 = [DbgMsg.sizeMismatch])
      ∨ ∃ e r, e ∈ a.directory
        ∧ parseAndPrintCustomStreamFromMiniDump (some a.bytes) = ReadOutcome.report r
        ∧ (readMayaDumpStreamsOn (some a.bytes) pBuf).1
            = [DbgMsg.report MAYA_CRASH_INFO_STREAM_TYPE r]
        ∧ ∀ behind : List Nat,
            readRecord ((a.bytes.drop e.Rva).take sizeofMayaCrashDumpInfo ++ behind) = r := by
  have hview : a.bytes.length ≠ 0 := by
    rw [Artifact.length_bytes]
    omega
  have hdbg := readMayaDumpStreamsOn_spec a pBuf ha hrec hdir
  rw [filterMap_dbgMsgOfEntry_single a.bytes a.directory hone] at hdbg
  have hlookup := MiniDumpReadDumpStream_artifact a ha MAYA_CRASH_INFO_STREAM_TYPE
  cases hfind : a.directory.find?
      (fun d => decide (d.StreamType = MAYA_CRASH_INFO_STREAM_TYPE)) with
  | none =>
    rw [hfind] at hdbg hlookup
    refine Or.inl ⟨?_, hdbg⟩
    unfold parseAndPrintCustomStreamFromMiniDump
    simp only [if_neg hview, hlookup]
  | some e =>
    rw [hfind] at hdbg hlookup
    have hmem := List.mem_of_find?_eq_some hfind
    have htag : e.StreamType = MAYA_CRASH_INFO_STREAM_TYPE := by
      simpa using List.find?_some hfind
    by_cases hsz : e.DataSize = sizeofMayaCrashDumpInfo
    · obtain ⟨_, hin⟩ := hrec e hmem htag hsz
      have hlen : ((a.bytes.drop e.Rva).take sizeofMayaCrashDumpInfo).length
          = sizeofMayaCrashDumpInfo := by
        rw [List.length_take, List.length_drop]
        omega
      refine Or.inr (Or.inr ⟨e, readRecord ((a.bytes.drop e.Rva).take sizeofMayaCrashDumpInfo),
        hmem, ?_, ?_, fun behind => readRecord_append _ behind hlen (hterm e hmem htag hsz)⟩)
      · unfold parseAndPrintCustomStreamFromMiniDump
        simp only [if_neg hview, hlookup]
        rw [if_neg (by simp [hsz]), if_pos hin]
      · rw [hdbg]
        simp [dbgMsgOfEntry, htag, hsz]
    · refine Or.inr (Or.inl ⟨?_, ?_⟩)
      · unfold parseAndPrintCustomStreamFromMiniDump
        simp only [if_neg hview, hlookup]
        rw [if_pos hsz]
      · rw [hdbg]
        simp [dbgMsgOfEntry, htag, hsz]

theorem drop_bytes_payload (a : Artifact) (n : Nat)
    (h : n = 32 + 12 * a.directory.length) : a.bytes.drop n = a.payload := by
  have e : a.bytes = (encodeHeader a.header ++ encodeDirectory a.directory) ++ a.payload := by
    rw [Artifact.bytes_eq, List.append_assoc]
  have hl : (encodeHeader a.header ++ encodeDirectory a.directory).length = n := by
    rw [List.length_append, length_encodeHeader, length_encodeDirectory, h]
  rw [e, ← hl, List.drop_left]

/-- Witness for `readers_agree_on_single_entry`: one application-tag entry of the record's
size, pointing at an all-zero record behind the directory. -/
theorem readers_agree_on_single_entry_witness :
    (parseAndPrintCustomStreamFromMiniDump (some (Artifact.bytes
          ⟨42899, 0, 0, 0, [⟨65536, 1551, 44⟩], List.replicate 1551 0⟩))
          = ReadOutcome.streamNotFound
        ∧ (readMayaDumpStreamsOn (some (Artifact.bytes
          ⟨42899, 0, 0, 0, [⟨65536, 1551, 44⟩], List.replicate 1551 0⟩)) []).1 = [])
      ∨ (parseAndPrintCustomStreamFromMiniDump (some (Artifact.bytes
          ⟨42899, 0, 0, 0, [⟨65536, 1551, 44⟩], List.replicate 1551 0⟩))
          = ReadOutcome.sizeMismatch
        ∧ (readMayaDumpStreamsOn (some (Artifact.bytes
          ⟨42899, 0, 0, 0, [⟨65536, 1551, 44⟩], List.replicate 1551 0⟩)) []).1
          = [DbgMsg.sizeMismatch])
      ∨ ∃ e r, e ∈ [(⟨65536, 1551, 44⟩ : MINIDUMP_DIRECTORY)]
        ∧ parseAndPrintCustomStreamFromMiniDump (some (Artifact.bytes
          ⟨42899, 0, 0, 0, [⟨65536, 1551, 44⟩], List.replicate 1551 0⟩))
          = ReadOutcome.report r
        ∧ (readMayaDumpStreamsOn (some (Artifact.bytes
          ⟨42899, 0, 0, 0, [⟨65536, 1551, 44⟩], List.replicate 1551 0⟩)) []).1
          = [DbgMsg.report MAYA_CRASH_INFO_STREAM_TYPE r]
        ∧ ∀ behind : List Nat,
            readRecord (((Artifact.bytes
              ⟨42899, 0, 0, 0, [⟨65536, 1551, 44⟩], List.replicate 1551 0⟩).drop e.Rva).take
                sizeofMayaCrashDumpInfo ++ behind) = r :=
  readers_agree_on_single_entry ⟨42899, 0, 0, 0, [⟨65536, 1551, 44⟩], List.replicate 1551 0⟩ []
    (by unfold Artifact.WellFormed; decide) (by decide)
    (by
      intro d hd _ _
      rw [Artifact.length_bytes, List.length_replicate, sizeof_eq]
      have hd' : d = ⟨65536, 1551, 44⟩ := List.mem_singleton.1 hd
      subst hd'
      exact ⟨by decide, by decide⟩)
    (by
      intro d hd _ _
      have hd' : d = ⟨65536, 1551, 44⟩ := List.mem_singleton.1 hd
      subst hd'
      have hb := drop_bytes_payload
        ⟨42899, 0, 0, 0, [⟨65536, 1551, 44⟩], List.replicate 1551 0⟩ 44 rfl
      show 0 ∈ List.drop offLastDGNodeAddedName (List.take sizeofMayaCrashDumpInfo
        (List.drop 44 (Artifact.bytes
          ⟨42899, 0, 0, 0, [⟨65536, 1551, 44⟩], List.replicate 1551 0⟩)))
      rw [hb, sizeof_eq, off_node, List.take_replicate, List.drop_replicate]
      exact List.mem_replicate.2 ⟨by decide, rfl⟩)
    (by decide)

/-! ## Reading fields back from a record in memory -/

theorem strlen_eq_length (s : List Nat) (h : ∀ c ∈ s, c ≠ 0) : strlen s = s.length := by
  induction s with
  | nil => rfl
  | cons c t ih =>
    rw [strlen, if_neg (h c (List.mem_cons_self c t)),
      ih (fun x hx => h x (List.mem_cons_of_mem c hx)), List.length_cons]

theorem drop_bytesOf (m : Mem) (cap off : Nat) :
    (bytesOf m cap).drop off = bytesOf (fun i => m (off + i)) (cap - off) := by
  apply List.ext_getElem
  · rw [List.length_drop, length_bytesOf, length_bytesOf]
  · intro i h1 h2
    simp only [bytesOf, List.getElem_drop, List.getElem_map, List.getElem_range]

theorem sub_bytesOf (m : Mem) (cap off n : Nat) (h : off + n ≤ cap) :
    ((bytesOf m cap).drop off).take n = bytesOf (fun i => m (off + i)) n := by
  rw [drop_bytesOf, take_bytesOf _ _ _ (by omega)]

theorem bytesOf_le (v n : Nat) : bytesOf (fun i => v / 256 ^ i % 256) n = encLE n v := by
  induction n generalizing v with
  | zero => rfl
  | succ k ih =>
    have hk := ih (v / 256)
    unfold bytesOf at hk ⊢
    rw [List.range_succ_eq_map, List.map_cons, List.map_map, encLE, ← hk]
    congr 1
    · simp
    · apply List.map_congr_left
      intro i _
      simp only [Function.comp, pow_succ, Nat.div_div_eq_div_mul]
      rw [Nat.mul_comm]

/-- An `n`-byte integer field of a record image whose bytes are the little-endian bytes of
`v`. -/
theorem fieldLE_bytesOf_stored (m : Mem) (cap off n v : Nat) (h : off + n ≤ cap)
    (hm : ∀ i, i < n → m (off + i) = v / 256 ^ i % 256) :
    fieldLE (bytesOf m cap) off n = v % 256 ^ n := by
  unfold fieldLE
  rw [sub_bytesOf m cap off n h, bytesOf_congr _ (fun i => v / 256 ^ i % 256) n hm, bytesOf_le,
    decLE_encLE]

/-- An integer field read from two record images that agree on the field's bytes. -/
theorem fieldLE_bytesOf_congr (m m' : Mem) (cap off n : Nat) (h : off + n ≤ cap)
    (hm : ∀ i, i < n → m (off + i) = m' (off + i)) :
    fieldLE (bytesOf m cap) off n = fieldLE (bytesOf m' cap) off n := by
  unfold fieldLE
  rw [sub_bytesOf m cap off n h, sub_bytesOf m' cap off n h,
    bytesOf_congr _ (fun i => m' (off + i)) n hm]

/-- The C string read at offset `off` of a record image that holds the characters of `s`
followed by a NUL there. -/
theorem cstr_drop_bytesOf (m : Mem) (cap off : Nat) (s : List Nat) (hs : ∀ c ∈ s, c ≠ 0)
    (hm : ∀ i, i < s.length → m (off + i) = s.getD i 0) (hz : m (off + s.length) = 0)
    (hcap : off + s.length < cap) :
    cstr ((bytesOf m cap).drop off) = s := by
  rw [drop_bytesOf]
  have hlen : strlen (bytesOf (fun i => m (off + i)) (cap - off)) = s.length := by
    apply strlen_eq_of_getD
    · intro i hi
      rw [getD_bytesOf, if_pos (by omega), hm i hi]
      exact getD_ne_zero_of_lt_strlen s i (by rw [strlen_eq_length s hs]; exact hi)
    · rw [getD_bytesOf, if_pos (by omega)]
      exact hz
  unfold cstr
  rw [hlen, take_bytesOf _ _ _ (by omega), bytesOf_congr _ (fun i => s.getD i 0) s.length hm,
    bytesOf_getD s s.length (Nat.le_refl _), List.take_length]

/-- The C string read at an offset of a record image that holds a NUL there. -/
theorem cstr_drop_bytesOf_zero (m : Mem) (cap off : Nat) (hz : m off = 0) :
    cstr ((bytesOf m cap).drop off) = [] := by
  rw [drop_bytesOf]
  exact cstr_of_head_zero _ _ hz

theorem fromBits_toBits_32 (x : Int) (h1 : -2 ^ 31 ≤ x) (h2 : x < 2 ^ 31) :
    fromBits 32 (toBits 32 x % 256 ^ 4) = x := by
  unfold fromBits toBits
  have e : (256 : Nat) ^ 4 = 2 ^ 32 := by norm_num
  have hnn : 0 ≤ x % (2 ^ 32 : Int) := Int.emod_nonneg _ (by norm_num)
  have hlt : x % (2 ^ 32 : Int) < 2 ^ 32 := Int.emod_lt_of_pos _ (by norm_num)
  have hcast : (((x % (2 ^ 32 : Int)).toNat : Nat) : Int) = x % (2 ^ 32 : Int) :=
    Int.toNat_of_nonneg hnn
  have hlt' : (x % (2 ^ 32 : Int)).toNat < 2 ^ 32 := by
    have : (((x % (2 ^ 32 : Int)).toNat : Nat) : Int) < ((2 ^ 32 : Nat) : Int) := by
      rw [hcast]
      exact_mod_cast hlt
    exact_mod_cast this
  rw [e, Nat.mod_eq_of_lt hlt']
  split
  · rename_i hs
    have hs' : (((x % (2 ^ 32 : Int)).toNat : Nat) : Int) < ((2 ^ (32 - 1) : Nat) : Int) := by
      exact_mod_cast hs
    rw [hcast] at hs' ⊢
    norm_num at hs' h1 h2 ⊢
    omega
  · rename_i hs
    have hs' : ¬ (((x % (2 ^ 32 : Int)).toNat : Nat) : Int) < ((2 ^ (32 - 1) : Nat) : Int) := by
      exact_mod_cast hs
    rw [hcast] at hs' ⊢
    norm_num at hs' h1 h2 ⊢
    omega

theorem fromBits_toBits_16 (x : Int) (h1 : -2 ^ 15 ≤ x) (h2 : x < 2 ^ 15) :
    fromBits 16 (toBits 16 x % 256 ^ 2) = x := by
  unfold fromBits toBits
  have e : (256 : Nat) ^ 2 = 2 ^ 16 := by norm_num
  have hnn : 0 ≤ x % (2 ^ 16 : Int) := Int.emod_nonneg _ (by norm_num)
  have hlt : x % (2 ^ 16 : Int) < 2 ^ 16 := Int.emod_lt_of_pos _ (by norm_num)
  have hcast : (((x % (2 ^ 16 : Int)).toNat : Nat) : Int) = x % (2 ^ 16 : Int) :=
    Int.toNat_of_nonneg hnn
  have hlt' : (x % (2 ^ 16 : Int)).toNat < 2 ^ 16 := by
    have : (((x % (2 ^ 16 : Int)).toNat : Nat) : Int) < ((2 ^ 16 : Nat) : Int) := by
      rw [hcast]
      exact_mod_cast hlt
    exact_mod_cast this
  rw [e, Nat.mod_eq_of_lt hlt']
  split
  · rename_i hs
    have hs' : (((x % (2 ^ 16 : Int)).toNat : Nat) : Int) < ((2 ^ (16 - 1) : Nat) : Int) := by
      exact_mod_cast hs
    rw [hcast] at hs' ⊢
    norm_num at hs' h1 h2 ⊢
    omega
  · rename_i hs
    have hs' : ¬ (((x % (2 ^ 16 : Int)).toNat : Nat) : Int) < ((2 ^ (16 - 1) : Nat) : Int) := by
      exact_mod_cast hs
    rw [hcast] at hs' ⊢
    norm_num at hs' h1 h2 ⊢
    omega
/-! ## The record after the host callbacks -/

/-- Bytes of the record after `mayaSceneAfterOpenCB`. -/
theorem open_record_bytes (h : Host) (g : Diag) :
    (∀ a, a < offVerAPI → (mayaSceneAfterOpenCB h g).gMayaCrashDumpInfo a = 0)
      ∧ (∀ i, i < 4 → (mayaSceneAfterOpenCB h g).gMayaCrashDumpInfo (offVerAPI + i)
          = toBits 32 h.apiVersion / 256 ^ i % 256)
      ∧ (∀ i, i < 4 → (mayaSceneAfterOpenCB h g).gMayaCrashDumpInfo (offVerCustom + i)
          = toBits 32 h.customVersion / 256 ^ i % 256)
      ∧ (∀ i, i < 4 → (mayaSceneAfterOpenCB h g).gMayaCrashDumpInfo (offVerMayaFile + i)
          = toBits 32 h.latestMayaFileVersion / 256 ^ i % 256)
      ∧ (∀ i, i < 2 → (mayaSceneAfterOpenCB h g).gMayaCrashDumpInfo (offLastDagMessage + i) = 0)
      ∧ (∀ i, i < 1 → (mayaSceneAfterOpenCB h g).gMayaCrashDumpInfo (offIsYUp + i)
          = (if h.isYAxisUp then 1 else 0) / 256 ^ i % 256) := by
  simp only [mayaSceneAfterOpenCB]
  rw [off_verAPI, off_verCustom, off_verMayaFile, off_msg, off_isYUp, sizeof_eq]
  refine ⟨fun a ha => ?_, fun i hi => ?_, fun i hi => ?_, fun i hi => ?_, fun i hi => ?_,
    fun i hi => ?_⟩
  · rw [storeLE_apply, if_neg (by omega), storeLE_apply, if_neg (by omega), storeLE_apply,
      if_neg (by omega), storeLE_apply, if_neg (by omega), memset_apply, if_pos (by omega)]
  · rw [storeLE_apply, if_neg (by omega), storeLE_apply, if_neg (by omega), storeLE_apply,
      if_neg (by omega), storeLE_apply, if_pos (by omega), Nat.add_sub_cancel_left]
  · rw [storeLE_apply, if_neg (by omega), storeLE_apply, if_neg (by omega), storeLE_apply,
      if_pos (by omega), Nat.add_sub_cancel_left]
  · rw [storeLE_apply, if_neg (by omega), storeLE_apply, if_pos (by omega),
      Nat.add_sub_cancel_left]
  · rw [storeLE_apply, if_neg (by omega), storeLE_apply, if_neg (by omega), storeLE_apply,
      if_neg (by omega), storeLE_apply, if_neg (by omega), memset_apply, if_pos (by omega)]
  · rw [storeLE_apply, if_pos (by omega), Nat.add_sub_cancel_left]

theorem isYUp_byte (b : Bool) : (if b then 1 else 0) % 256 ^ 1 = if b then 1 else 0 := by
  cases b <;> rfl

/-- The record read back after `mayaSceneAfterOpenCB`. -/
theorem readRecord_open (h : Host) (g : Diag) :
    readRecord (bytesOf (mayaSceneAfterOpenCB h g).gMayaCrashDumpInfo sizeofMayaCrashDumpInfo)
      = ⟨fromBits 32 (toBits 32 h.apiVersion % 256 ^ 4),
          fromBits 32 (toBits 32 h.customVersion % 256 ^ 4),
          fromBits 32 (toBits 32 h.latestMayaFileVersion % 256 ^ 4),
          if h.isYAxisUp then 1 else 0, [], [], 0, []⟩ := by
  obtain ⟨hz, hapi, hcus, hfile, hmsg, hy⟩ := open_record_bytes h g
  unfold readRecord
  rw [fieldLE_bytesOf_stored _ _ offVerAPI 4 _ (by decide) hapi,
    fieldLE_bytesOf_stored _ _ offVerCustom 4 _ (by decide) hcus,
    fieldLE_bytesOf_stored _ _ offVerMayaFile 4 _ (by decide) hfile,
    fieldLE_bytesOf_stored _ _ offIsYUp 1 _ (by decide) hy,
    fieldLE_bytesOf_stored _ _ offLastDagMessage 2 0 (by decide)
      (fun i hi => by rw [hmsg i hi, Nat.zero_div]),
    cstr_drop_bytesOf_zero _ _ offLastDagParentName (hz _ (by decide)),
    cstr_drop_bytesOf_zero _ _ offLastDagChildName (hz _ (by decide)),
    cstr_drop_bytesOf_zero _ _ offLastDGNodeAddedName (hz _ (by decide)), isYUp_byte]
  rfl

/-- Bytes of the record after `mayaAllDAGChangesCB` followed by `mayaNodeAddedCB`, for names that
fit their fields with the terminator. -/
theorem edit_node_record_bytes (g : Diag) (k : Int) (child parent node : List Nat)
    (q : NodeQuery) (hchild0 : ∀ c ∈ child, c ≠ 0) (hchild : child.length ≤ 511)
    (hparent0 : ∀ c ∈ parent, c ≠ 0) (hparent : parent.length ≤ 511)
    (hnode0 : ∀ c ∈ node, c ≠ 0) (hnode : node.length ≤ 511) (hnode1 : node ≠ [])
    (hq1 : q.hasFnDependencyNode = true) (hq2 : q.fnNodeStatusOk = true)
    (hq3 : q.hasUniqueName = true ∨ q.absoluteNameStatusOk = true)
    (hqn : (if !q.hasUniqueName then q.absoluteName else q.name) = node) :
    ((∀ i, i < parent.length →
        (mayaNodeAddedCB q (mayaAllDAGChangesCB k child parent g)).gMayaCrashDumpInfo
          (offLastDagParentName + i) = parent.getD i 0)
      ∧ (mayaNodeAddedCB q (mayaAllDAGChangesCB k child parent g)).gMayaCrashDumpInfo
          (offLastDagParentName + parent.length) = 0)
    ∧ ((∀ i, i < child.length →
        (mayaNodeAddedCB q (mayaAllDAGChangesCB k child parent g)).gMayaCrashDumpInfo
          (offLastDagChildName + i) = child.getD i 0)
      ∧ (mayaNodeAddedCB q (mayaAllDAGChangesCB k child parent g)).gMayaCrashDumpInfo
          (offLastDagChildName + child.length) = 0)
    ∧ ((∀ i, i < node.length →
        (mayaNodeAddedCB q (mayaAllDAGChangesCB k child parent g)).gMayaCrashDumpInfo
          (offLastDGNodeAddedName + i) = node.getD i 0)
      ∧ (mayaNodeAddedCB q (mayaAllDAGChangesCB k child parent g)).gMayaCrashDumpInfo
          (offLastDGNodeAddedName + node.length) = 0)
    ∧ (∀ i, i < 2 →
        (mayaNodeAddedCB q (mayaAllDAGChangesCB k child parent g)).gMayaCrashDumpInfo
          (offLastDagMessage + i) = toBits 16 k / 256 ^ i % 256)
    ∧ (∀ a, offVerAPI ≤ a → a < offLastDagMessage ∨ offIsYUp ≤ a →
        (mayaNodeAddedCB q (mayaAllDAGChangesCB k child parent g)).gMayaCrashDumpInfo a
          = g.gMayaCrashDumpInfo a) := by
  have hlc : strlen child = child.length := strlen_eq_length child hchild0
  have hlp : strlen parent = parent.length := strlen_eq_length parent hparent0
  have hln : strlen node = node.length := strlen_eq_length node hnode0
  have hn0 : node.length ≠ 0 := fun h0 => hnode1 (List.length_eq_zero.1 h0)
  have hlenC : (if child.length > MAYA_DAG_PATH_MAX_NAME_LEN then MAYA_DAG_PATH_MAX_NAME_LEN
      else child.length) = child.length := by
    rw [maxNameLen_eq]
    split <;> omega
  have hlenP : (if parent.length > MAYA_DAG_PATH_MAX_NAME_LEN then MAYA_DAG_PATH_MAX_NAME_LEN
      else parent.length) = parent.length := by
    rw [maxNameLen_eq]
    split <;> omega
  have hguard : (!q.hasUniqueName && !q.absoluteNameStatusOk) = false := by
    rcases hq3 with h | h <;> simp [h]
  simp only [mayaNodeAddedCB, hq1, hq2, hguard, hqn, hln, if_neg hn0, Bool.not_true,
    Bool.false_eq_true, if_false, mayaAllDAGChangesCB, hlc, hlp, hlenC, hlenP]
  rw [off_child, off_parent, off_node, off_msg, off_verAPI, off_isYUp]
  refine ⟨⟨fun i hi => ?_, ?_⟩, ⟨fun i hi => ?_, ?_⟩, ⟨fun i hi => ?_, ?_⟩, fun i hi => ?_,
    fun a ha1 ha2 => ?_⟩
  · rw [memset_apply, if_neg (by omega), memcpy_apply, if_neg (by omega), memset_apply,
      if_neg (by omega), memcpy_apply, if_pos (by omega), Nat.add_sub_cancel_left]
  · rw [memset_apply, if_neg (by omega), memcpy_apply, if_neg (by omega), memset_apply,
      if_pos (by omega)]
  · rw [memset_apply, if_neg (by omega), memcpy_apply, if_neg (by omega), memset_apply,
      if_neg (by omega), memcpy_apply, if_neg (by omega), memset_apply, if_neg (by omega),
      memcpy_apply, if_pos (by omega), Nat.add_sub_cancel_left]
  · rw [memset_apply, if_neg (by omega), memcpy_apply, if_neg (by omega), memset_apply,
      if_neg (by omega), memcpy_apply, if_neg (by omega), memset_apply, if_pos (by omega)]
  · rw [memset_apply, if_neg (by omega), memcpy_apply, if_pos (by omega),
      Nat.add_sub_cancel_left]
  · rw [memset_apply, if_pos (by omega)]
  · rw [memset_apply, if_neg (by omega), memcpy_apply, if_neg (by omega), memset_apply,
      if_neg (by omega), memcpy_apply, if_neg (by omega), memset_apply, if_neg (by omega),
      memcpy_apply, if_neg (by omega), storeLE_apply, if_pos (by omega),
      Nat.add_sub_cancel_left]
  · rw [memset_apply, if_neg (by omega), memcpy_apply, if_neg (by omega), memset_apply,
      if_neg (by omega), memcpy_apply, if_neg (by omega), memset_apply, if_neg (by omega),
      memcpy_apply, if_neg (by omega), storeLE_apply, if_neg (by omega)]

/-- The record read back after `mayaAllDAGChangesCB` followed by `mayaNodeAddedCB` on any
record: the three names and the message are the ones passed, the other fields are read as
before. -/
theorem readRecord_edit_node (g : Diag) (k : Int) (child parent node : List Nat)
    (q : NodeQuery) (hk1 : -2 ^ 15 ≤ k) (hk2 : k < 2 ^ 15)
    (hchild0 : ∀ c ∈ child, c ≠ 0) (hchild : child.length ≤ 511)
    (hparent0 : ∀ c ∈ parent, c ≠ 0) (hparent : parent.length ≤ 511)
    (hnode0 : ∀ c ∈ node, c ≠ 0) (hnode : node.length ≤ 511) (hnode1 : node ≠ [])
    (hq1 : q.hasFnDependencyNode = true) (hq2 : q.fnNodeStatusOk = true)
    (hq3 : q.hasUniqueName = true ∨ q.absoluteNameStatusOk = true)
    (hqn : (if !q.hasUniqueName then q.absoluteName else q.name) = node) :
    readRecord (bytesOf
        (mayaNodeAddedCB q (mayaAllDAGChangesCB k child parent g)).gMayaCrashDumpInfo
        sizeofMayaCrashDumpInfo)
      = ⟨(readRecord (bytesOf g.gMayaCrashDumpInfo sizeofMayaCrashDumpInfo)).verAPI,
          (readRecord (bytesOf g.gMayaCrashDumpInfo sizeofMayaCrashDumpInfo)).verCustom,
          (readRecord (bytesOf g.gMayaCrashDumpInfo sizeofMayaCrashDumpInfo)).verMayaFile,
          (readRecord (bytesOf g.gMayaCrashDumpInfo sizeofMayaCrashDumpInfo)).isYUp,
          parent, child, k, node⟩ := by
  obtain ⟨⟨hp, hpz⟩, ⟨hc, hcz⟩, ⟨hn, hnz⟩, hmsg, hrest⟩ :=
    edit_node_record_bytes g k child parent node q hchild0 hchild hparent0 hparent hnode0 hnode
      hnode1 hq1 hq2 hq3 hqn
  unfold readRecord
  rw [fieldLE_bytesOf_congr _ g.gMayaCrashDumpInfo _ offVerAPI 4 (by decide)
      (fun i hi => hrest _ (by omega) (Or.inl (by rw [off_verAPI, off_msg]; omega))),
    fieldLE_bytesOf_congr _ g.gMayaCrashDumpInfo _ offVerCustom 4 (by decide)
      (fun i hi => hrest _ (by rw [off_verAPI, off_verCustom]; omega)
        (Or.inl (by rw [off_verCustom, off_msg]; omega))),
    fieldLE_bytesOf_congr _ g.gMayaCrashDumpInfo _ offVerMayaFile 4 (by decide)
      (fun i hi => hrest _ (by rw [off_verAPI, off_verMayaFile]; omega)
        (Or.inl (by rw [off_verMayaFile, off_msg]; omega))),
    fieldLE_bytesOf_congr _ g.gMayaCrashDumpInfo _ offIsYUp 1 (by decide)
      (fun i hi => hrest _ (by rw [off_verAPI, off_isYUp]; omega) (Or.inr (by omega))),
    fieldLE_bytesOf_stored _ _ offLastDagMessage 2 _ (by decide) hmsg,
    fromBits_toBits_16 k hk1 hk2,
    cstr_drop_bytesOf _ _ offLastDagParentName parent hparent0 hp hpz
      (by rw [off_parent, sizeof_eq]; omega),
    cstr_drop_bytesOf _ _ offLastDagChildName child hchild0 hc hcz
      (by rw [off_child, sizeof_eq]; omega),
    cstr_drop_bytesOf _ _ offLastDGNodeAddedName node hnode0 hn hnz
      (by rw [off_node, sizeof_eq]; omega)]

/-- The standalone reader on the dump that the fault handler writes from the diagnostics context
`g`: it reports the record held in memory. -/
theorem parse_written_dump (sys : SystemPart) (g : Diag)
    (hsys : ∀ s ∈ sys.streams, s.1 ≤ LastReservedStream)
    (hsize : (MiniDumpWriteDump sys (dumpUserStreams g)).bytes.length < 2 ^ 32) :
    parseAndPrintCustomStreamFromMiniDump (some (MiniDumpWriteDump sys (dumpUserStreams g)).bytes)
      = ReadOutcome.report (readRecord (bytesOf g.gMayaCrashDumpInfo sizeofMayaCrashDumpInfo)) := by
  have hwf : (MiniDumpWriteDump sys (dumpUserStreams g)).WellFormed := by
    refine MiniDumpWriteDump_wellFormed sys _ (fun s hs => ?_) (fun u hu => ?_) hsize
    · have := hsys s hs
      simp only [LastReservedStream] at this
      omega
    · simp only [dumpUserStreams, List.mem_cons, List.mem_singleton, List.not_mem_nil,
        or_false] at hu
      rcases hu with rfl | rfl | rfl | rfl <;>
        simp only [CommentStreamA, MAYA_CRASH_INFO_STREAM_TYPE, LastReservedStream] <;> omega
  have hxs : ∀ x ∈ sys.streams ++
      [(CommentStreamA, bytesOf g.gMayaCurrentScenePath MAX_PATH),
       (CommentStreamA, bytesOf g.gMayaTimingInfoBlk MAYA_MINIDUMP_TIMING_INFO_BLK_SIZE),
       (CommentStreamA, bytesOf g.gMayaMELCmdInfoBlk MAYA_MINIDUMP_MEL_CMD_INFO_BLK_SIZE)],
      x.1 ≠ MAYA_CRASH_INFO_STREAM_TYPE := by
    intro x hx
    rcases List.mem_append.1 hx with h | h
    · have := hsys x h
      simp only [MAYA_CRASH_INFO_STREAM_TYPE]
      omega
    · simp only [List.mem_cons, List.mem_singleton, List.not_mem_nil, or_false] at h
      rcases h with rfl | rfl | rfl <;>
        simp only [CommentStreamA, MAYA_CRASH_INFO_STREAM_TYPE, LastReservedStream] <;> omega
  refine parse_placed_record _ _ [] _ hxs (length_bytesOf _ _) ?_ ?_ hwf
  · simp only [MiniDumpWriteDump, dump_streams_eq]
  · simp only [MiniDumpWriteDump, dump_streams_eq]

/-- The size of a dump written by the fault handler depends on the system streams only. -/
theorem length_written_dump (sys : SystemPart) (g : Diag) :
    (MiniDumpWriteDump sys (dumpUserStreams g)).bytes.length
      = 32 + 12 * (sys.streams.length + 4) + ((concatPayloads sys.streams).length + 2867) := by
  rw [Artifact.length_bytes]
  simp only [MiniDumpWriteDump, length_placeStreams, concatPayloads_append, concatPayloads,
    dumpUserStreams, length_bytesOf, List.map, List.length_append, List.length_cons,
    List.length_nil, MAX_PATH, MAYA_MINIDUMP_TIMING_INFO_BLK_SIZE,
    MAYA_MINIDUMP_MEL_CMD_INFO_BLK_SIZE, sizeof_eq]

/-- C15 (end to end): for every earlier state of the diagnostics context, every child, parent and
node name of at most 511 characters (node name non-empty, delivered by a node query that passes
the callback's checks), every 16-bit message value `k` and host version values of type `int`:
after `mayaSceneAfterOpenCB`, then `mayaAllDAGChangesCB k child parent`, then `mayaNodeAddedCB`,
the dump written by the fault handler is read back by the standalone reader as the record with
the three names, `lastDagMessage = k` and the host's three version values and up-axis flag
(the dump staying below 4 GiB and the platform's own streams carrying predefined types).
Moreover the two later callbacks give the same names and message on any record, whatever its
fields held before, and leave the other fields as they were read before. -/
theorem end_to_end_record (h : Host) (g : Diag) (k : Int) (child parent node : List Nat)
    (q : NodeQuery) (sys : SystemPart)
    (hk : -2 ^ 15 ≤ k ∧ k < 2 ^ 15)
    (hchild0 : ∀ c ∈ child, c ≠ 0) (hchild : child.length ≤ 511)
    (hparent0 : ∀ c ∈ parent, c ≠ 0) (hparent : parent.length ≤ 511)
    (hnode0 : ∀ c ∈ node, c ≠ 0) (hnode : node.length ≤ 511) (hnode1 : node ≠ [])
    (hq1 : q.hasFnDependencyNode = true) (hq2 : q.fnNodeStatusOk = true)
    (hq3 : q.hasUniqueName = true ∨ q.absoluteNameStatusOk = true)
    (hqn : (if !q.hasUniqueName then q.absoluteName else q.name) = node)
    (hapi : -2 ^ 31 ≤ h.apiVersion ∧ h.apiVersion < 2 ^ 31)
    (hcustom : -2 ^ 31 ≤ h.customVersion ∧ h.customVersion < 2 ^ 31)
    (hfile : -2 ^ 31 ≤ h.latestMayaFileVersion ∧ h.latestMayaFileVersion < 2 ^ 31)
    (hsys : ∀ s ∈ sys.streams, s.1 ≤ LastReservedStream)
    (hsize : (MiniDumpWriteDump sys (dumpUserStreams
        (mayaNodeAddedCB q (mayaAllDAGChangesCB k child parent
          (mayaSceneAfterOpenCB h g))))).bytes.length < 2 ^ 32) :
    parseAndPrintCustomStreamFromMiniDump (some (MiniDumpWriteDump sys (dumpUserStreams
        (mayaNodeAddedCB q (mayaAllDAGChangesCB k child parent
          (mayaSceneAfterOpenCB h g))))).bytes)
      = ReadOutcome.report ⟨h.apiVersion, h.customVersion, h.latestMayaFileVersion,
          if h.isYAxisUp then 1 else 0, parent, child, k, node⟩
    ∧ ∀ g0 : Diag,
        readRecord (bytesOf
            (mayaNodeAddedCB q (mayaAllDAGChangesCB k child parent g0)).gMayaCrashDumpInfo
            sizeofMayaCrashDumpInfo)
          = ⟨(readRecord (bytesOf g0.gMayaCrashDumpInfo sizeofMayaCrashDumpInfo)).verAPI,
              (readRecord (bytesOf g0.gMayaCrashDumpInfo sizeofMayaCrashDumpInfo)).verCustom,
              (readRecord (bytesOf g0.gMayaCrashDumpInfo sizeofMayaCrashDumpInfo)).verMayaFile,
              (readRecord (bytesOf g0.gMayaCrashDumpInfo sizeofMayaCrashDumpInfo)).isYUp,
              parent, child, k, node⟩ := by
  refine ⟨?_, fun g0 => readRecord_edit_node g0 k child parent node q hk.1 hk.2 hchild0 hchild
    hparent0 hparent hnode0 hnode hnode1 hq1 hq2 hq3 hqn⟩
  rw [parse_written_dump sys _ hsys hsize,
    readRecord_edit_node _ k child parent node q hk.1 hk.2 hchild0 hchild hparent0 hparent
      hnode0 hnode hnode1 hq1 hq2 hq3 hqn,
    readRecord_open, fromBits_toBits_32 _ hapi.1 hapi.2,
    fromBits_toBits_32 _ hcustom.1 hcustom.2, fromBits_toBits_32 _ hfile.1 hfile.2]

/-- Witness for `end_to_end_record`: scene `"C:/scenes/demo.scene"`, edit of kind 3 with child
`"cube1"` and parent `"group1"`, node `"transform7"`, on a context whose record bytes were all
`'x'` before, and a dump with one system stream. -/
theorem end_to_end_record_witness :
    parseAndPrintCustomStreamFromMiniDump (some (MiniDumpWriteDump
        ⟨42899, 0, 0, 0, [(3, [1, 2, 3])]⟩ (dumpUserStreams
        (mayaNodeAddedCB ⟨true, true, true, [], true, ascii "transform7"⟩
          (mayaAllDAGChangesCB 3 (ascii "cube1") (ascii "group1")
            (mayaSceneAfterOpenCB ⟨ascii "C:/scenes/demo.scene", 20220000, 0, 177, true⟩
              ⟨fun _ => 0, fun _ => 0, fun _ => 0, fun _ => 120⟩))))).bytes)
      = ReadOutcome.report ⟨20220000, 0, 177, 1, ascii "group1", ascii "cube1", 3,
          ascii "transform7"⟩ :=
  (end_to_end_record ⟨ascii "C:/scenes/demo.scene", 20220000, 0, 177, true⟩
    ⟨fun _ => 0, fun _ => 0, fun _ => 0, fun _ => 120⟩ 3 (ascii "cube1") (ascii "group1")
    (ascii "transform7") ⟨true, true, true, [], true, ascii "transform7"⟩
    ⟨42899, 0, 0, 0, [(3, [1, 2, 3])]⟩
    (by norm_num) (by decide) (by decide) (by decide) (by decide) (by decide) (by decide)
    (by decide) rfl rfl (Or.inl rfl) rfl (by norm_num) (by norm_num) (by norm_num)
    (by simp [LastReservedStream]) (by rw [length_written_dump]; decide)).1

/-- C21 (long parent name clears the child name): for every record state, message value and
child name, `mayaAllDAGChangesCB` with a parent name of 512 or more characters stores the
parent's terminating NUL at `lastDagParentName + 512`, which is the first byte of
`lastDagChildName`, after the child name has been copied; the child name is read back as the
empty string. -/
theorem long_parent_clears_child (g : Diag) (msgType : Int) (child parent : List Nat)
    (hparent : MAYA_DAG_PATH_MAX_NAME_LEN ≤ strlen parent) :
    (mayaAllDAGChangesCB msgType child parent g).gMayaCrashDumpInfo offLastDagChildName = 0
      ∧ (readRecord (bytesOf (mayaAllDAGChangesCB msgType child parent g).gMayaCrashDumpInfo
          sizeofMayaCrashDumpInfo)).lastDagChildName = [] := by
  have hlenP : (if strlen parent > MAYA_DAG_PATH_MAX_NAME_LEN then MAYA_DAG_PATH_MAX_NAME_LEN
      else strlen parent) = MAYA_DAG_PATH_MAX_NAME_LEN := by
    split <;> omega
  have hz : (mayaAllDAGChangesCB msgType child parent g).gMayaCrashDumpInfo offLastDagChildName
      = 0 := by
    simp only [mayaAllDAGChangesCB, hlenP]
    rw [off_child, off_parent, maxNameLen_eq, memset_apply, if_pos (by omega)]
  refine ⟨hz, ?_⟩
  simp only [readRecord]
  exact cstr_drop_bytesOf_zero _ sizeofMayaCrashDumpInfo offLastDagChildName hz

/-- Witness for `long_parent_clears_child`: child `"cube1"` with a parent name of 512 characters
`'a'`. -/
theorem long_parent_clears_child_witness :
    (mayaAllDAGChangesCB 3 (ascii "cube1") (List.replicate 512 97)
        ⟨fun _ => 0, fun _ => 0, fun _ => 0, fun _ => 120⟩).gMayaCrashDumpInfo
        offLastDagChildName = 0
      ∧ (readRecord (bytesOf (mayaAllDAGChangesCB 3 (ascii "cube1") (List.replicate 512 97)
          ⟨fun _ => 0, fun _ => 0, fun _ => 0, fun _ => 120⟩).gMayaCrashDumpInfo
          sizeofMayaCrashDumpInfo)).lastDagChildName = [] :=
  long_parent_clears_child ⟨fun _ => 0, fun _ => 0, fun _ => 0, fun _ => 120⟩ 3 (ascii "cube1")
    (List.replicate 512 97) (by rw [strlen_replicate 512 97 (by decide)]; decide)

/-- C22 (document open resets the record): for every earlier state of the diagnostics context and
host version values of type `int`, after `mayaSceneAfterOpenCB` every byte of the three name
fields and of `lastDagMessage` is 0, and the record read back has empty parent, child and
node-added names, `lastDagMessage = 0`, and the host's current values in `verAPI`, `verCustom`,
`verMayaFile` and `isYUp`. -/
theorem open_resets_record (h : Host) (g : Diag)
    (hapi : -2 ^ 31 ≤ h.apiVersion ∧ h.apiVersion < 2 ^ 31)
    (hcustom : -2 ^ 31 ≤ h.customVersion ∧ h.customVersion < 2 ^ 31)
    (hfile : -2 ^ 31 ≤ h.latestMayaFileVersion ∧ h.latestMayaFileVersion < 2 ^ 31) :
    (∀ a, a < offVerAPI ∨ (offLastDagMessage ≤ a ∧ a < offIsYUp) →
        (mayaSceneAfterOpenCB h g).gMayaCrashDumpInfo a = 0)
      ∧ readRecord (bytesOf (mayaSceneAfterOpenCB h g).gMayaCrashDumpInfo
          sizeofMayaCrashDumpInfo)
        = ⟨h.apiVersion, h.customVersion, h.latestMayaFileVersion,
            if h.isYAxisUp then 1 else 0, [], [], 0, []⟩ := by
  obtain ⟨hz, _, _, _, hmsg, _⟩ := open_record_bytes h g
  refine ⟨fun a ha => ?_, ?_⟩
  · rcases ha with ha | ⟨ha1, ha2⟩
    · exact hz a ha
    · have := hmsg (a - offLastDagMessage) (by rw [off_isYUp, off_msg] at *; omega)
      rwa [Nat.add_sub_cancel' ha1] at this
  · rw [readRecord_open, fromBits_toBits_32 _ hapi.1 hapi.2,
      fromBits_toBits_32 _ hcustom.1 hcustom.2, fromBits_toBits_32 _ hfile.1 hfile.2]

/-- Witness for `open_resets_record`: a record whose bytes were all `'x'` before. -/
theorem open_resets_record_witness :
    (∀ a, a < offVerAPI ∨ (offLastDagMessage ≤ a ∧ a < offIsYUp) →
        (mayaSceneAfterOpenCB ⟨ascii "C:/scenes/demo.scene", 20220000, 0, 177, true⟩
          ⟨fun _ => 0, fun _ => 0, fun _ => 0, fun _ => 120⟩).gMayaCrashDumpInfo a = 0)
      ∧ readRecord (bytesOf
          (mayaSceneAfterOpenCB ⟨ascii "C:/scenes/demo.scene", 20220000, 0, 177, true⟩
            ⟨fun _ => 0, fun _ => 0, fun _ => 0, fun _ => 120⟩).gMayaCrashDumpInfo
          sizeofMayaCrashDumpInfo)
        = ⟨20220000, 0, 177, 1, [], [], 0, []⟩ :=
  open_resets_record ⟨ascii "C:/scenes/demo.scene", 20220000, 0, 177, true⟩
    ⟨fun _ => 0, fun _ => 0, fun _ => 0, fun _ => 120⟩ (by norm_num) (by norm_num) (by norm_num)

/-! ## The debugger command's view of a directory entry -/

/-- The 8-byte `Buffer` member read over a directory entry in the buffer: the entry's `Rva` in the
low 32 bits and, in the high 32 bits, the four buffer bytes that follow the 12-byte entry. -/
theorem fieldLE_entry_pointer (d : MINIDUMP_DIRECTORY) (buf : List Nat) :
    fieldLE (encodeDirectoryEntry d ++ buf.drop 12) 8 8
      = d.Rva % 2 ^ 32 + 2 ^ 32 * fieldLE buf 12 4 := by
  have e2 : encodeDirectoryEntry d ++ buf.drop 12
      = (encLE 4 d.StreamType ++ encLE 4 d.DataSize) ++ (encLE 4 d.Rva ++ buf.drop 12) := by
    simp [encodeDirectoryEntry, List.append_assoc]
  rw [e2, fieldLE_at _ _ 8 8 (by simp [length_encLE])]
  unfold fieldLE
  rw [List.drop_zero, List.take_append_eq_append_take, decLE_append,
    List.take_of_length_le (by rw [length_encLE]; decide), decLE_encLE, length_encLE]
  have h : (256 : Nat) ^ 4 = 2 ^ 32 := by norm_num
  rw [h]

/-- C23 (the record is read at the entry's `Rva`): when the debugger command's loop reads a
directory entry with the application tag and the record's size, the buffer holds the 12-byte
entry followed by the bytes it held before; the `Buffer` member of the `MINIDUMP_USER_STREAM`
view is the 8-byte value made of the entry's `Rva` and the next four (stale) buffer bytes; for
an `Rva` below 2^31 the `(LONG)` cast keeps the `Rva` and `SetFilePointer` moves the file pointer
to offset `Rva`, whatever the stale bytes; and when the file holds a whole record there, the
command prints the record at that offset. -/
theorem debugger_reads_record_at_rva (C pre post buf : List Nat) (d : MINIDUMP_DIRECTORY)
    (k : Nat) (hC : C = pre ++ (encodeDirectoryEntry d ++ post))
    (htag : d.StreamType = MAYA_CRASH_INFO_STREAM_TYPE)
    (hsz : d.DataSize = sizeofMayaCrashDumpInfo) (hrva : d.Rva < 2 ^ 31) :
    (ReadFile { contents := C, pos := pre.length } buf sizeofMINIDUMP_DIRECTORY).2.1
        = encodeDirectoryEntry d ++ buf.drop 12
      ∧ fieldLE (encodeDirectoryEntry d ++ buf.drop 12) 8 8
          = d.Rva + 2 ^ 32 * fieldLE buf 12 4
      ∧ SetFilePointerBegin
            (ReadFile { contents := C, pos := pre.length } buf sizeofMINIDUMP_DIRECTORY).1
            (fieldLE (encodeDirectoryEntry d ++ buf.drop 12) 8 8)
          = { contents := C, pos := d.Rva }
      ∧ (d.Rva + sizeofMayaCrashDumpInfo ≤ C.length →
          (readMayaDumpStreamsLoop { contents := C, pos := pre.length } buf (k + 1)).1.head?
            = some (DbgMsg.report MAYA_CRASH_INFO_STREAM_TYPE
                (readRecord ((C.drop d.Rva).take sizeofMayaCrashDumpInfo)))) := by
  have hrd := ReadFile_at C pre (encodeDirectoryEntry d) post buf 12 hC
    (length_encodeDirectoryEntry d)
  have hf := fieldLE_entry d (buf.drop 12)
  rw [htag, hsz, Nat.mod_eq_of_lt (by decide), Nat.mod_eq_of_lt (by decide)] at hf
  have hptr := fieldLE_entry_pointer d buf
  rw [Nat.mod_eq_of_lt (by omega)] at hptr
  have hseek : SetFilePointerBegin { contents := C, pos := pre.length + 12 }
      (fieldLE (encodeDirectoryEntry d ++ buf.drop 12) 8 8)
      = { contents := C, pos := d.Rva } := by
    unfold SetFilePointerBegin
    rw [hptr, Nat.add_mul_mod_self_left, Nat.mod_eq_of_lt (by omega), if_pos hrva]
  refine ⟨?_, hptr, ?_, fun hin => ?_⟩
  · rw [sizeofMINIDUMP_DIRECTORY, hrd]
  · rw [sizeofMINIDUMP_DIRECTORY, hrd]
    exact hseek
  · have hread := ReadFile_inside C (List.replicate sizeofMayaCrashDumpInfo 0) d.Rva
      sizeofMayaCrashDumpInfo hin
    have hdrop : List.drop sizeofMayaCrashDumpInfo
        (List.replicate sizeofMayaCrashDumpInfo 0) = [] := by
      rw [List.drop_eq_nil_iff, List.length_replicate]
    simp only [readMayaDumpStreamsLoop, sizeofMINIDUMP_DIRECTORY, hrd, hf.1, hf.2.1, ne_eq,
      not_true_eq_false, if_false, hseek, hread, hdrop, List.append_nil, List.head?_cons]

/-- Witness for `debugger_reads_record_at_rva`: a file made of one application-tag entry with
`Rva` 12 followed by a zero record, read with a buffer full of `0xff` bytes. -/
theorem debugger_reads_record_at_rva_witness :
    (ReadFile { contents := [] ++ (encodeDirectoryEntry ⟨65536, 1551, 12⟩
            ++ List.replicate 1551 0), pos := ([] : List Nat).length }
          (List.replicate 16 255) sizeofMINIDUMP_DIRECTORY).2.1
        = encodeDirectoryEntry ⟨65536, 1551, 12⟩ ++ (List.replicate 16 255).drop 12
      ∧ fieldLE (encodeDirectoryEntry ⟨65536, 1551, 12⟩ ++ (List.replicate 16 255).drop 12) 8 8
          = 12 + 2 ^ 32 * fieldLE (List.replicate 16 255) 12 4
      ∧ SetFilePointerBegin
            (ReadFile { contents := [] ++ (encodeDirectoryEntry ⟨65536, 1551, 12⟩
                ++ List.replicate 1551 0), pos := ([] : List Nat).length }
              (List.replicate 16 255) sizeofMINIDUMP_DIRECTORY).1
            (fieldLE (encodeDirectoryEntry ⟨65536, 1551, 12⟩
              ++ (List.replicate 16 255).drop 12) 8 8)
          = { contents := [] ++ (encodeDirectoryEntry ⟨65536, 1551, 12⟩
                ++ List.replicate 1551 0), pos := 12 }
      ∧ (readMayaDumpStreamsLoop { contents := [] ++ (encodeDirectoryEntry ⟨65536, 1551, 12⟩
            ++ List.replicate 1551 0), pos := ([] : List Nat).length }
          (List.replicate 16 255) (0 + 1)).1.head?
        = some (DbgMsg.report MAYA_CRASH_INFO_STREAM_TYPE
            (readRecord ((([] ++ (encodeDirectoryEntry ⟨65536, 1551, 12⟩
              ++ List.replicate 1551 0)).drop 12).take sizeofMayaCrashDumpInfo))) :=
  have h := debugger_reads_record_at_rva
    ([] ++ (encodeDirectoryEntry ⟨65536, 1551, 12⟩ ++ List.replicate 1551 0)) []
    (List.replicate 1551 0) (List.replicate 16 255) ⟨65536, 1551, 12⟩ 0 rfl rfl rfl (by decide)
  ⟨h.1, h.2.1, h.2.2.1, h.2.2.2 (by
    rw [List.nil_append, List.length_append, length_encodeDirectoryEntry,
      List.length_replicate]
    exact Nat.le_refl _)⟩

end MayaCrash
